import Mathlib

/-!
# goproto: annotated Go structs to wire-protocol code

A shallow embedding of `src/generator/parser.go` and `src/generator/generator.go`.

* Part 1 embeds the parser: the slice of `go/ast` that the parser inspects, the
  annotation classifier `parsePacketType`, the field classifier
  (`parseFieldKind`, `parseFieldType`, `parseNameByType`) and the layout builder
  (`parseField`, `Parse`).
* Part 2 embeds the generator.  The generator emits Go text; the embedding gives
  each emitted method (`Length`, `Read`, `Write`, `CreatePacket`) the meaning the
  emitted statements have, clause by clause in the order of the `switch`
  statements that emit them.

Go run-time panics (a failed type assertion, a nil dereference, an index out of
range) are a result of their own, kept apart from returned errors.
-/

namespace Goproto

/-! ## Part 1: parser.go -/

/-- Outcome of a parser step: a Go `error` value that was returned, or a run-time panic. -/
inductive Fault where
  | err (msg : String)
  | panic (msg : String)
  deriving Repr, DecidableEq

/-- PacketKind is `type PacketKind int` (parser.go:12). -/
abbrev PacketKind := Nat

def SimplePacketKind : PacketKind := 0x00
def VLFPacketKind : PacketKind := 0x01
def GenericPacketKind : PacketKind := 0x02
def StructKind : PacketKind := 0x04

/-- FieldKind is `type FieldKind int`, one bit per kind (parser.go:21-37). -/
abbrev FieldKind := Nat

def SliceFieldKind : FieldKind := 1 <<< 0
def ArrayFieldKind : FieldKind := 1 <<< 1
def StructFieldKind : FieldKind := 1 <<< 2
def ByteFieldKind : FieldKind := 1 <<< 3
def Uint8FieldKind : FieldKind := 1 <<< 4
def Uint16FieldKind : FieldKind := 1 <<< 5
def Uint32FieldKind : FieldKind := 1 <<< 6
def Uint64FieldKind : FieldKind := 1 <<< 7
def Int8FieldKind : FieldKind := 1 <<< 8
def Int16FieldKind : FieldKind := 1 <<< 9
def Int32FieldKind : FieldKind := 1 <<< 10
def Int64FieldKind : FieldKind := 1 <<< 11
def StringFieldKind : FieldKind := 1 <<< 12

/-- FieldKindLengthMap (parser.go:39-49); the emitted text "1", "2", "4", "8" is kept as the
number it denotes. -/
def FieldKindLengthMap (k : FieldKind) : Option Nat :=
  if k = ByteFieldKind then some 1
  else if k = Uint8FieldKind then some 1
  else if k = Uint16FieldKind then some 2
  else if k = Uint32FieldKind then some 4
  else if k = Uint64FieldKind then some 8
  else if k = Int8FieldKind then some 1
  else if k = Int16FieldKind then some 2
  else if k = Int32FieldKind then some 4
  else if k = Int64FieldKind then some 8
  else none

/-- Expr is the part of `go/ast.Expr` the parser distinguishes.  `structType` carries the
field list as (names, type) entries; `arrayType` has `len = none` for a slice `[]T`;
the remaining constructors are shapes the parser has no case for. -/
inductive Expr where
  | ident (name : String)
  | structType (fields : List (List String × Expr))
  | arrayType (len : Option Expr) (elt : Expr)
  | basicLit (value : String)
  | sliceExpr (x : Expr)
  | starExpr (x : Expr)
  | selectorExpr (x : Expr) (sel : String)
  | mapType (key : Expr) (value : Expr)
  | funcType
  | interfaceType
  | chanType (value : Expr)
  | ellipsis
  deriving Repr

/-- Field is `ast.Field`: the declared names (empty for an embedded field) and the type. -/
structure Field where
  Names : List String
  Type_ : Expr
  deriving Repr

/-- StructType is `ast.StructType`; `Fields.List` is kept as a list of `Field`. -/
structure StructType where
  Fields : List Field
  deriving Repr

/-- Spec is `ast.Spec`: a type spec (name and type expression) or another spec. -/
inductive Spec where
  | typeSpec (name : String) (type : Expr)
  | importSpec
  | valueSpec
  deriving Repr

/-- Decl is `ast.Decl`.  `Doc = none` is a nil comment group; each comment is its raw text,
markers included. -/
inductive Decl where
  | genDecl (Doc : Option (List String)) (Specs : List Spec)
  | funcDecl (Doc : Option (List String))
  | badDecl
  deriving Repr

/-- FieldLayout (parser.go:142-148). -/
structure FieldLayout where
  field : Field
  kind : FieldKind
  name : String
  subElementKind : FieldKind
  fieldType : String
  deriving Repr

/-- PacketLayout (parser.go:133-140); `structType = none` is the nil pointer. -/
structure PacketLayout where
  structType : Option StructType
  kind : PacketKind
  name : String
  id : Int
  idname : String
  fields : List FieldLayout
  deriving Repr

/-! ### Library functions used by the parser -/

/-- Model of `strings.ToLower` on ASCII text: the letters `A` to `Z` are mapped and every other
character is kept; the case mapping of letters outside ASCII is not modelled. -/
def toLower (s : String) : String := String.mk (s.data.map Char.toLower)

/-- Model of `strings.ToUpper` on ASCII text: the letters `a` to `z` are mapped and every other
character is kept; the case mapping of letters outside ASCII is not modelled. -/
def toUpper (s : String) : String := String.mk (s.data.map Char.toUpper)

/-- Model of `strings.Replace(s, c, "", -1)` for a one-character `c`. -/
def removeChar (c : Char) (s : String) : String := String.mk (s.data.filter (fun d => d != c))

/-- Split a character list at every occurrence of `sep`; `cur` is the piece being read
(reversed).  The result always has one more piece than there are separators. -/
def splitAux (sep : Char) : List Char → List Char → List String
  | [], cur => [String.mk cur.reverse]
  | c :: cs, cur =>
    if c = sep then String.mk cur.reverse :: splitAux sep cs []
    else splitAux sep cs (c :: cur)

/-- Model of `strings.Split(s, sep)` for a one-character separator. -/
def split (s : String) (sep : Char) : List String := splitAux sep s.data []

/-- Value of a digit character in `strconv`: 0-9, then letters from 10; `none` otherwise. -/
def digitVal (c : Char) : Option Nat :=
  if '0' ≤ c ∧ c ≤ '9' then some (c.toNat - '0'.toNat)
  else if 'a' ≤ c ∧ c ≤ 'z' then some (c.toNat - 'a'.toNat + 10)
  else if 'A' ≤ c ∧ c ≤ 'Z' then some (c.toNat - 'A'.toNat + 10)
  else none

/-- Accumulate digits in the given base; `none` on a character that is not a digit of it. -/
def parseDigits (base : Nat) : List Char → Nat → Option Nat
  | [], acc => some acc
  | c :: cs, acc =>
    match digitVal c with
    | some d => if d < base then parseDigits base cs (acc * base + d) else none
    | none => none

/-- Reader of a Go integer literal without separators: `0x` selects base 16 (at least one
digit must follow), another leading `0` selects base 8, anything else base 10. -/
def parseUintBase0 : List Char → Option Nat
  | [] => none
  | '0' :: 'x' :: rest => if rest.isEmpty then none else parseDigits 16 rest 0
  | '0' :: 'X' :: rest => if rest.isEmpty then none else parseDigits 16 rest 0
  | '0' :: rest => parseDigits 8 ('0' :: rest) 0
  | cs => parseDigits 10 cs 0

/-- The two errors of `strconv`: `ErrSyntax` and `ErrRange`. -/
inductive NumError where
  | invalidSyntax
  | outOfRange
  deriving Repr, DecidableEq

/-- Digit loop of `strconv.ParseUint` for 64 bits: `n` is the value so far and `underscores`
records that an underscore was skipped (allowed for base 0 only).  A character that is not
a digit of the base is a syntax error; a value of 2^64 or more is a range error, returned
at once. -/
def parseUintLoop (base : Nat) (base0 : Bool) : List Char → Nat → Bool → Except NumError (Nat × Bool)
  | [], n, underscores => .ok (n, underscores)
  | c :: cs, n, underscores =>
    if c = '_' ∧ base0 = true then parseUintLoop base base0 cs n true
    else
      match digitVal c with
      | none => .error .invalidSyntax
      | some d =>
        if base ≤ d then .error .invalidSyntax
        else if 2 ^ 64 ≤ n * base + d then .error .outOfRange
        else parseUintLoop base base0 cs (n * base + d) underscores

/-- Loop of `underscoreOK` in `strconv`: `last` is the class of the character before, `^` at
the start, `0` after a digit (or the base mark), `_` after an underscore, `!` otherwise. -/
def underscoreOKLoop (hex : Bool) : List Char → Char → Bool
  | [], last => last != '_'
  | c :: cs, last =>
    if ('0' ≤ c ∧ c ≤ '9') ∨ (hex = true ∧ 'a' ≤ c.toLower ∧ c.toLower ≤ 'f') then
      underscoreOKLoop hex cs '0'
    else if c = '_' then
      if last != '0' then false else underscoreOKLoop hex cs '_'
    else if last = '_' then false
    else underscoreOKLoop hex cs '!'

/-- The function `underscoreOK` of `strconv`: underscores may only separate digits, or
follow the base mark. -/
def underscoreOK (s : List Char) : Bool :=
  let s := match s with
    | '-' :: rest => rest
    | '+' :: rest => rest
    | _ => s
  match s with
  | '0' :: p :: rest =>
    if p.toLower = 'b' ∨ p.toLower = 'o' ∨ p.toLower = 'x' then
      underscoreOKLoop (decide (p.toLower = 'x')) rest '0'
    else underscoreOKLoop false s '^'
  | _ => underscoreOKLoop false s '^'

/-- Model of `strconv.ParseUint(s, 0, 64)`: after a leading `0` the marks `b`, `o`, `x` select
base 2, 8, 16 when at least one more character follows, otherwise the `0` alone selects
base 8; anything else is base 10. -/
def ParseUint (s : List Char) : Except NumError Nat :=
  match s with
  | [] => .error .invalidSyntax
  | '0' :: rest =>
    let run (base : Nat) (digits : List Char) : Except NumError Nat :=
      match parseUintLoop base true digits 0 false with
      | .error e => .error e
      | .ok (n, underscores) =>
        if underscores = true ∧ underscoreOK s = false then .error .invalidSyntax else .ok n
    match rest with
    | p :: q :: more =>
      if p.toLower = 'b' then run 2 (q :: more)
      else if p.toLower = 'o' then run 8 (q :: more)
      else if p.toLower = 'x' then run 16 (q :: more)
      else run 8 rest
    | _ => run 8 rest
  | _ =>
    match parseUintLoop 10 true s 0 false with
    | .error e => .error e
    | .ok (n, underscores) =>
      if underscores = true ∧ underscoreOK s = false then .error .invalidSyntax else .ok n

/-- Sign handling and range check of `strconv.ParseInt(s, 0, 64)` on the result of
`ParseUint` for the text after the sign. -/
def parseIntResult (neg : Bool) (un : Except NumError Nat) : Int × Option String :=
  match un with
  | .error .invalidSyntax => (0, some "invalid syntax")
  | .error .outOfRange =>
    if neg then (-(2 ^ 63 : Int), some "value out of range")
    else ((2 ^ 63 - 1 : Int), some "value out of range")
  | .ok n =>
    if neg then
      if 2 ^ 63 < n then (-(2 ^ 63 : Int), some "value out of range") else (-(n : Int), none)
    else
      if 2 ^ 63 ≤ n then ((2 ^ 63 - 1 : Int), some "value out of range") else ((n : Int), none)

/-- Model of `strconv.ParseInt(s, 0, 64)`: an optional sign, then `ParseUint`.  Both Go
results are kept: the value (0 on a syntax error, the nearest bound on a range error) and
the error. -/
def ParseInt (s : String) : Int × Option String :=
  match s.data with
  | [] => (0, some "invalid syntax")
  | '-' :: rest => parseIntResult true (ParseUint rest)
  | '+' :: rest => parseIntResult false (ParseUint rest)
  | cs => parseIntResult false (ParseUint cs)

/-- Model of `strconv.Atoi` on a 64-bit platform: an optional sign, at least one decimal
digit and nothing else; a value outside the signed 64-bit range is an error. -/
def Atoi (s : String) : Except String Int :=
  match s.data with
  | [] => .error "invalid syntax"
  | '-' :: rest =>
    if rest.isEmpty then .error "invalid syntax"
    else match parseDigits 10 rest 0 with
      | none => .error "invalid syntax"
      | some n => if 2 ^ 63 < n then .error "value out of range" else .ok (-(n : Int))
  | '+' :: rest =>
    if rest.isEmpty then .error "invalid syntax"
    else match parseDigits 10 rest 0 with
      | none => .error "invalid syntax"
      | some n => if 2 ^ 63 ≤ n then .error "value out of range" else .ok (n : Int)
  | cs =>
    match parseDigits 10 cs 0 with
    | none => .error "invalid syntax"
    | some n => if 2 ^ 63 ≤ n then .error "value out of range" else .ok (n : Int)

/-! ### Annotation classifier -/

/-- Named results of `parsePacketType`: kind, IDName, ID and the error variable. -/
structure Annot where
  kind : PacketKind
  IDName : String
  ID : Int
  err : Option String
  deriving Repr, DecidableEq

/-- One iteration of the loop over `genDecl.Doc.List` (parser.go:90-115). -/
def annotStep (a : Annot) (comment : String) : Annot :=
  let text := toLower comment
  let text := removeChar '/' text
  let text := removeChar ' ' text
  let typeComment := split text ':'
  match typeComment with
  | head :: second :: _ =>
    let kind :=
      if head = "@simplepacket" then SimplePacketKind
      else if head = "@packet" then GenericPacketKind
      else if head = "@vlfpacket" then VLFPacketKind
      else a.kind
    match split second ',' with
    | p0 :: p1 :: _ =>
      Annot.mk kind p0 (ParseInt p1).1 (ParseInt p1).2
    | _ => Annot.mk kind a.IDName a.ID a.err
  | _ => a

/-- The method `ProtoParser.parsePacketType` (parser.go:84-118).  The type assertion
`decl.(*ast.GenDecl)` panics on any other declaration. -/
def parsePacketType : Decl → Except Fault Annot
  | .genDecl doc _ =>
    match doc with
    | some comments => .ok (comments.foldl annotStep (Annot.mk StructKind "" 0 none))
    | none => .ok (Annot.mk StructKind "" 0 none)
  | _ => .error (.panic "interface conversion: ast.Decl is not *ast.GenDecl")

/-- Loop of `parseStructInfo` over `genDecl.Specs` (parser.go:122-129): stop at the first
type spec whose type is a struct type. -/
def findStruct : List Spec → String × Option StructType
  | [] => ("", none)
  | .typeSpec name (.structType fields) :: _ =>
    (name, some (StructType.mk (fields.map (fun f => Field.mk f.1 f.2))))
  | _ :: rest => findStruct rest

/-- The method `ProtoParser.parseStructInfo` (parser.go:120-131); name "" and a nil struct
when no spec is a struct type. -/
def parseStructInfo : Decl → Except Fault (String × Option StructType)
  | .genDecl _ specs => .ok (findStruct specs)
  | _ => .error (.panic "interface conversion: ast.Decl is not *ast.GenDecl")

/-! ### Field classifier -/

/-- The function `parseNameByType` (parser.go:279-293). -/
def parseNameByType : Expr → String
  | .structType _ => "struct"
  | .sliceExpr x => parseNameByType x
  | .arrayType _ elt => parseNameByType elt
  | .ident name => name
  | _ => "unknown"

/-- The `switch f.fieldType` of `parseFieldType` (parser.go:250-275). -/
def subElementKindOf (fieldType : String) : FieldKind :=
  if fieldType = "struct" then StructFieldKind
  else if fieldType = "byte" then ByteFieldKind
  else if fieldType = "uint8" then Uint8FieldKind
  else if fieldType = "uint16" then Uint16FieldKind
  else if fieldType = "uint32" then Uint32FieldKind
  else if fieldType = "uint64" then Uint64FieldKind
  else if fieldType = "int8" then Int8FieldKind
  else if fieldType = "int16" then Int16FieldKind
  else if fieldType = "int32" then Int32FieldKind
  else if fieldType = "int64" then Int64FieldKind
  else if fieldType = "string" then StringFieldKind
  else StructFieldKind

/-- The method `FieldLayout.parseFieldType` (parser.go:248-277); it never fails. -/
def parseFieldType (f : FieldLayout) : FieldLayout :=
  let fieldType := parseNameByType f.field.Type_
  FieldLayout.mk f.field f.kind f.name (subElementKindOf fieldType) fieldType

/-- The `switch t.Name` of `parseFieldKind` for an identifier (parser.go:215-238). -/
def identKind (name : String) : FieldKind :=
  if name = "byte" then ByteFieldKind
  else if name = "uint8" then Uint8FieldKind
  else if name = "uint16" then Uint16FieldKind
  else if name = "uint32" then Uint32FieldKind
  else if name = "uint64" then Uint64FieldKind
  else if name = "int8" then Int8FieldKind
  else if name = "int16" then Int16FieldKind
  else if name = "int32" then Int32FieldKind
  else if name = "int64" then Int64FieldKind
  else if name = "string" then StringFieldKind
  else StructFieldKind

/-- The method `FieldLayout.parseFieldKind` (parser.go:198-246). -/
def parseFieldKind (f : FieldLayout) : Except Fault FieldLayout :=
  match f.field.Type_ with
  | .structType _ => .ok (FieldLayout.mk f.field StructFieldKind f.name f.subElementKind f.fieldType)
  | .arrayType len _ =>
    let kind := if len.isNone then SliceFieldKind else ArrayFieldKind
    .ok (parseFieldType (FieldLayout.mk f.field kind f.name f.subElementKind f.fieldType))
  | .ident name =>
    .ok (FieldLayout.mk f.field (identKind name) f.name f.subElementKind f.fieldType)
  | _ => .error (.err "invalid type")

/-- The function `NewFieldLayout` (parser.go:185-196); `field.Names[0]` panics when the field
has no name. -/
def NewFieldLayout (field : Field) : Except Fault FieldLayout :=
  match field.Names with
  | [] => .error (.panic "index out of range [0] with length 0")
  | name :: _ =>
    match parseFieldKind (FieldLayout.mk field 0 name 0 "") with
    | .error e => .error e
    | .ok f => .ok (parseFieldType f)

/-! ### Layout builder -/

/-- Loop of the last branch of `parseField` (parser.go:168-179): the fields appended, in order,
or the first failure. -/
def parseFieldLoop : List Field → List FieldLayout → Except Fault (List FieldLayout)
  | [], acc => .ok acc
  | field :: rest, acc =>
    if field.Names.length = 0 then .error (.err "disallow anonymouse field")
    else match NewFieldLayout field with
      | .error e => .error e
      | .ok fieldLayout => parseFieldLoop rest (acc ++ [fieldLayout])

/-- The method `PacketLayout.parseField` (parser.go:150-183), returning the layout with its
`fields` filled in.  A nil `structType` is dereferenced in every branch but the first.
`Fields.NumFields()` counts at least one per entry of `Fields.List`, so it is zero exactly
when the list is empty. -/
def parseField (p : PacketLayout) : Except Fault PacketLayout :=
  if p.kind = SimplePacketKind then .ok p
  else if p.kind = VLFPacketKind then
    match p.structType with
    | none => .error (.panic "nil pointer dereference")
    | some st =>
      match st.Fields with
      | [] => .error (.err "VLFPacket Must have a slice field,")
      | field :: _ =>
        match NewFieldLayout field with
        | .error e => .error e
        | .ok fieldLayout =>
          if fieldLayout.kind ≠ SliceFieldKind then .error (.err "VLFPacket Must have a slice field,")
          else .ok (PacketLayout.mk p.structType p.kind p.name p.id p.idname (p.fields ++ [fieldLayout]))
  else
    match p.structType with
    | none => .error (.panic "nil pointer dereference")
    | some st =>
      match parseFieldLoop st.Fields p.fields with
      | .error e => .error e
      | .ok fields => .ok (PacketLayout.mk p.structType p.kind p.name p.id p.idname fields)

/-- Body of the loop of `Parse` for one declaration (parser.go:70-79). -/
def parseDecl (decl : Decl) : Except Fault PacketLayout :=
  match parsePacketType decl with
  | .error e => .error e
  | .ok a =>
    match a.err with
    | some e => .error (.err e)
    | none =>
      match parseStructInfo decl with
      | .error e => .error e
      | .ok (name, structType) => parseField (PacketLayout.mk structType a.kind name a.ID a.IDName [])

/-- Loop of `Parse` (parser.go:69-80) with `packets` the layouts appended so far. -/
def parseLoop : List Decl → List PacketLayout → Except Fault (List PacketLayout)
  | [], packets => .ok packets
  | decl :: rest, packets =>
    match parseDecl decl with
    | .error e => .error e
    | .ok layout => parseLoop rest (packets ++ [layout])

/-- The method `ProtoParser.Parse` (parser.go:67-82) on the declarations of the file: the
layouts in declaration order, or the first failure. -/
def Parse (decls : List Decl) : Except Fault (List PacketLayout) := parseLoop decls []

/-! ## Part 2: generator.go

### The byte stream

The generated code is written against `ReadStream` and `WriteStream`, which the repository
does not define. -/

/-- Modelled from the spec: the byte stream behind `ReadStream` and `WriteStream` (section 1:
primitives for fixed-width integers and raw buffers).  A stream is the list of bytes still
to be read, or the list of bytes written so far. -/
abbrev Stream := List Nat

/-- Failure of a generated method.  `stream` is an error returned by the stream,
`unknownPacket` is `ErrUnknownPacket`, `invalidCode` marks an emitted block that is not
valid Go (an undeclared name, a conversion or an operand the type checker rejects, a type
that is not declared), `badValue` a value that is not of the Go type of the layout, and
`outOfFuel` the bound on nested method calls. -/
inductive GoErr where
  | stream (msg : String)
  | unknownPacket
  | invalidCode (why : String)
  | badValue
  | outOfFuel
  deriving Repr, DecidableEq

/-- Big-endian bytes of `n`, `w` of them. -/
def encodeBE : Nat → Nat → List Nat
  | 0, _ => []
  | w + 1, n => encodeBE w (n / 256) ++ [n % 256]

/-- Number denoted by big-endian bytes. -/
def decodeBE (bs : List Nat) : Nat := bs.foldl (fun acc b => acc * 256 + b) 0

/-- Modelled from the spec: `stream.ReadBuff(n)`, the next `n` bytes, an error when fewer
remain. -/
def ReadBuff (n : Nat) (st : Stream) : Except GoErr (List Nat × Stream) :=
  if st.length < n then .error (.stream "EOF") else .ok (st.take n, st.drop n)

/-- Modelled from the spec: `stream.ReadByte`, `ReadUint16`, `ReadUint32`, `ReadUint64`
(`w` = 1, 2, 4, 8 bytes, fixed byte order). -/
def ReadUint (w : Nat) (st : Stream) : Except GoErr (Nat × Stream) :=
  if st.length < w then .error (.stream "EOF") else .ok (decodeBE (st.take w), st.drop w)

/-- Modelled from the spec: `stream.WriteByte`, `WriteUint16`, `WriteUint32`, `WriteUint64`:
the `w` bytes appended for the value `n` of that width. -/
def WriteUint (w : Nat) (n : Nat) : List Nat := encodeBE w (n % 2 ^ (8 * w))

/-- Go conversion of a signed value to the unsigned type of the same width, as in
`uint16(s.F)`. -/
def toUnsigned (w : Nat) (i : Int) : Nat := (i % (2 ^ (8 * w) : Int)).toNat

/-- Go conversion of an unsigned value to the signed type of the same width, as in
`int16(val)`. -/
def toSigned (w : Nat) (n : Nat) : Int :=
  if n % 2 ^ (8 * w) < 2 ^ (8 * w - 1) then ((n % 2 ^ (8 * w) : Nat) : Int)
  else ((n % 2 ^ (8 * w) : Nat) : Int) - (2 ^ (8 * w) : Int)

/-! ### Values of the generated types -/

/-- PacketHeader is the emitted `type PacketHeader struct` (generator.go:60-67). -/
structure PacketHeader where
  ID : Nat
  PacketType : Nat
  Len : Nat
  Version : Nat
  Ack : Nat
  Token : Nat
  deriving Repr, DecidableEq

/-- Value of a field or of a generated struct type: `uint` for byte and the unsigned kinds,
`int` for the signed kinds, `str` for a string (its bytes), `seq` for a slice or array,
`struct` for a generated type: the embedded header of a packet type (absent for a Struct
kind) and the fields in layout order. -/
inductive Value where
  | uint (n : Nat)
  | int (i : Int)
  | str (bytes : List Nat)
  | seq (elems : List Value)
  | struct (header : Option PacketHeader) (fields : List Value)
  deriving Repr

/-- The emitted `PacketHeader.Length` (generator.go:83). -/
def PacketHeader.Length (_ : PacketHeader) : Nat := 36

/-- The emitted `PacketHeader.Write` (generator.go:110-131): the bytes appended. -/
def PacketHeader.Write (h : PacketHeader) : List Nat :=
  WriteUint 4 h.ID ++ WriteUint 4 h.PacketType ++ WriteUint 4 h.Len ++ WriteUint 4 h.Version
    ++ WriteUint 4 h.Ack ++ WriteUint 4 h.Token

/-- The emitted `PacketHeader.Read` (generator.go:87-108). -/
def PacketHeader.Read (st : Stream) : Except GoErr (PacketHeader × Stream) :=
  match ReadUint 4 st with
  | .error e => .error e
  | .ok (id, st) =>
  match ReadUint 4 st with
  | .error e => .error e
  | .ok (packetType, st) =>
  match ReadUint 4 st with
  | .error e => .error e
  | .ok (len, st) =>
  match ReadUint 4 st with
  | .error e => .error e
  | .ok (version, st) =>
  match ReadUint 4 st with
  | .error e => .error e
  | .ok (ack, st) =>
  match ReadUint 4 st with
  | .error e => .error e
  | .ok (token, st) => .ok (PacketHeader.mk id packetType len version ack token, st)

/-- The function `getArrayTypeLength` (generator.go:174-182). -/
def getArrayTypeLength (field : Field) : Except String Int :=
  match field.Type_ with
  | .arrayType (some (.basicLit value)) _ => Atoi value
  | _ => .error "invalid field"

/-- The declared type a field type name refers to: the first layout of that name. -/
def lookupType (env : List PacketLayout) (name : String) : Option PacketLayout :=
  env.find? (fun q => q.name == name)

/-- Zero value of the Go type named `typeName` in a field declaration; `call` gives the zero
value of a declared struct type.  An inline `struct` body is emitted as the bare word
`struct`, and a name with no declaration is not a type. -/
def zeroOfTypeName (env : List PacketLayout) (call : PacketLayout → Except GoErr Value)
    (typeName : String) : Except GoErr Value :=
  let k := subElementKindOf typeName
  if k = StringFieldKind then .ok (.str [])
  else if k = Int8FieldKind ∨ k = Int16FieldKind ∨ k = Int32FieldKind ∨ k = Int64FieldKind then
    .ok (.int 0)
  else if k = StructFieldKind then
    if typeName = "struct" then .error (.invalidCode "field type emitted as the word struct")
    else match lookupType env typeName with
      | some q => call q
      | none => .error (.invalidCode "undeclared type")
  else .ok (.uint 0)

/-- Zero value of one field as declared by `generateStructData` (generator.go:189-201):
`name [N]T`, `name []T` or `name T` with `T` the field type name. -/
def zeroField (env : List PacketLayout) (call : PacketLayout → Except GoErr Value)
    (f : FieldLayout) : Except GoErr Value :=
  if f.kind = ArrayFieldKind then
    match getArrayTypeLength f.field with
    | .error _ => .error (.invalidCode "array bound is not a decimal literal")
    | .ok n =>
      match zeroOfTypeName env call f.fieldType with
      | .error e => .error e
      | .ok z => .ok (.seq (List.replicate n.toNat z))
  else if f.kind = SliceFieldKind then .ok (.seq [])
  else zeroOfTypeName env call f.fieldType

/-- Zero values of a list of fields, in order. -/
def zeroFields (env : List PacketLayout) (call : PacketLayout → Except GoErr Value) :
    List FieldLayout → Except GoErr (List Value)
  | [] => .ok []
  | f :: fs =>
    match zeroField env call f with
    | .error e => .error e
    | .ok z =>
      match zeroFields env call fs with
      | .error e => .error e
      | .ok zs => .ok (z :: zs)

/-- Header with every field zero. -/
def zeroHeader : PacketHeader := PacketHeader.mk 0 0 0 0 0 0

/-- Zero value of the struct type emitted for `p` (generator.go:184-204): the embedded header
unless the kind is Struct, then the fields. -/
def zeroStruct (env : List PacketLayout) (call : PacketLayout → Except GoErr Value)
    (p : PacketLayout) : Except GoErr Value :=
  match zeroFields env call p.fields with
  | .error e => .error e
  | .ok zs => .ok (.struct (if p.kind ≠ StructKind then some zeroHeader else none) zs)

/-- Zero value with a bound on the nesting of struct types. -/
def zeroValueFuel (env : List PacketLayout) : Nat → PacketLayout → Except GoErr Value
  | 0, p => zeroStruct env (fun _ => .error .outOfFuel) p
  | n + 1, p => zeroStruct env (zeroValueFuel env n) p

/-- Zero value of the type emitted for `p`.  Struct types that nest by value deeper than the
number of declared types contain themselves, which Go rejects. -/
def zeroValue (env : List PacketLayout) (p : PacketLayout) : Except GoErr Value :=
  zeroValueFuel env env.length p

/-! ### Length -/

/-- Sum of `g` over the elements: the emitted `for` loops that add to `totalLength`. -/
def sumLengths (g : Value → Except GoErr Nat) : List Value → Except GoErr Nat
  | [] => .ok 0
  | v :: vs =>
    match g v with
    | .error e => .error e
    | .ok n =>
      match sumLengths g vs with
      | .error e => .error e
      | .ok m => .ok (n + m)

/-- The text `s.F[i].Length()`: the method of the declared element type. -/
def elemStructLength (env : List PacketLayout) (call : PacketLayout → Value → Except GoErr Nat)
    (typeName : String) (v : Value) : Except GoErr Nat :=
  match lookupType env typeName with
  | some q => call q v
  | none => .error (.invalidCode "undeclared type")

/-- The text `totalLength += 4; totalLength += len(s.F[i])` for a string element. -/
def elemStringLength (v : Value) : Except GoErr Nat :=
  match v with
  | .str bytes => .ok (4 + bytes.length)
  | _ => .error .badValue

/-- Contribution of one field to `totalLength`, following the loop body of
`generatePacketLengthCode` (generator.go:351-386); `v` is the value of `s.F`.  When
`getArrayTypeLength` fails, `generateStructData` has failed before and no type is
emitted. -/
def fieldLength (env : List PacketLayout) (call : PacketLayout → Value → Except GoErr Nat)
    (f : FieldLayout) (v : Value) : Except GoErr Nat :=
  match FieldKindLengthMap f.kind with
  | some w => .ok w
  | none =>
    if f.kind = StructFieldKind then elemStructLength env call f.fieldType v
    else if f.kind = SliceFieldKind then
      match v with
      | .seq elems =>
        if f.subElementKind = StructFieldKind then
          match sumLengths (elemStructLength env call f.fieldType) elems with
          | .error e => .error e
          | .ok n => .ok (4 + n)
        else if f.subElementKind = StringFieldKind then
          match sumLengths elemStringLength elems with
          | .error e => .error e
          | .ok n => .ok (4 + n)
        else
          match FieldKindLengthMap f.subElementKind with
          | some w => .ok (4 + elems.length * w)
          | none => .error (.invalidCode "no width for the element kind")
      | _ => .error .badValue
    else if f.kind = ArrayFieldKind then
      match getArrayTypeLength f.field with
      | .error _ => .error (.invalidCode "array bound is not a decimal literal")
      | .ok arrayIndex =>
        match v with
        | .seq elems =>
          if elems.length ≠ arrayIndex.toNat then .error .badValue
          else if f.subElementKind = StructFieldKind then
            sumLengths (elemStructLength env call f.fieldType) elems
          else if f.subElementKind = StringFieldKind then
            sumLengths elemStringLength elems
          else
            match FieldKindLengthMap f.subElementKind with
            | some w => .ok (arrayIndex.toNat * w)
            | none => .error (.invalidCode "no width for the element kind")
        | _ => .error .badValue
    else if f.kind = StringFieldKind then
      match v with
      | .str bytes => .ok (4 + bytes.length)
      | _ => .error .badValue
    else .ok 0

/-- The loop of `generatePacketLengthCode` over `p.fields`, adding to `totalLength`. -/
def fieldsLength (env : List PacketLayout) (call : PacketLayout → Value → Except GoErr Nat) :
    List FieldLayout → List Value → Nat → Except GoErr Nat
  | [], [], totalLength => .ok totalLength
  | f :: fs, v :: vs, totalLength =>
    match fieldLength env call f v with
    | .error e => .error e
    | .ok n => fieldsLength env call fs vs (totalLength + n)
  | _, _, _ => .error .badValue

/-- The `Length` method emitted for `p`, selected as in `Generate` (generator.go:34-43):
`generateSimplePacket` emits `return s.PacketHeader.Length()` (generator.go:245); the other
three kinds use `generatePacketLengthCode` (generator.go:346-389), which starts from the
header length unless the kind is Struct. -/
def lengthMethod (env : List PacketLayout) (call : PacketLayout → Value → Except GoErr Nat)
    (p : PacketLayout) (v : Value) : Except GoErr Nat :=
  match v with
  | .struct header fields =>
    if p.kind = SimplePacketKind then
      match header with
      | some h => .ok h.Length
      | none => .error .badValue
    else if p.kind = GenericPacketKind ∨ p.kind = VLFPacketKind then
      match header with
      | some h => fieldsLength env call p.fields fields h.Length
      | none => .error .badValue
    else if p.kind = StructKind then fieldsLength env call p.fields fields 0
    else .error (.invalidCode "no type is emitted for this kind")
  | _ => .error .badValue

/-- The emitted `Length()` of the type of `p` on the value `v`; `fuel` bounds the nesting of
calls to the `Length` of field and element types. -/
def Length (env : List PacketLayout) : Nat → PacketLayout → Value → Except GoErr Nat
  | 0, p, v => lengthMethod env (fun _ _ => .error .outOfFuel) p v
  | n + 1, p, v => lengthMethod env (Length env n) p v

/-! ### Write -/

/-- Bytes of a slice of bytes, the operand of `stream.WriteBuff(s.F)`. -/
def bytesOf : List Value → Except GoErr (List Nat)
  | [] => .ok []
  | .uint n :: vs =>
    match bytesOf vs with
    | .error e => .error e
    | .ok bs => .ok (n % 256 :: bs)
  | _ :: _ => .error .badValue

/-- Write a signed value through the unsigned primitive of its width. -/
def writeInt (w : Nat) (v : Value) : Except GoErr (List Nat) :=
  match v with
  | .int i => .ok (WriteUint w (toUnsigned w i))
  | _ => .error .badValue

/-- Write an unsigned value with the primitive of its width. -/
def writeUintValue (w : Nat) (v : Value) : Except GoErr (List Nat) :=
  match v with
  | .uint n => .ok (WriteUint w n)
  | _ => .error .badValue

/-- Write a string: `WriteUint32(uint32(len(s)))` then `WriteBuff([]byte(s))`. -/
def writeString (v : Value) : Except GoErr (List Nat) :=
  match v with
  | .str bytes => .ok (WriteUint 4 bytes.length ++ bytes)
  | _ => .error .badValue

/-- The text `s.F.Write(stream)`: the method of the declared type. -/
def writeStructRef (env : List PacketLayout)
    (call : PacketLayout → Value → Except GoErr (List Nat)) (typeName : String) (v : Value) :
    Except GoErr (List Nat) :=
  match lookupType env typeName with
  | some q => call q v
  | none => .error (.invalidCode "undeclared type")

/-- Body of the element loop of `generateArrayFieldWriteCode` (generator.go:535-577) for one
element; an element kind with no case leaves the loop body empty. -/
def writeElem (env : List PacketLayout) (call : PacketLayout → Value → Except GoErr (List Nat))
    (fieldKind : FieldKind) (typeName : String) (v : Value) : Except GoErr (List Nat) :=
  if fieldKind = StructFieldKind then writeStructRef env call typeName v
  else if fieldKind = StringFieldKind then writeString v
  else if fieldKind = Int8FieldKind then writeInt 1 v
  else if fieldKind = Int16FieldKind then writeInt 2 v
  else if fieldKind = Int32FieldKind then writeInt 4 v
  else if fieldKind = Int64FieldKind then writeInt 8 v
  else if fieldKind = Uint8FieldKind then writeUintValue 1 v
  else if fieldKind = Uint16FieldKind then writeUintValue 2 v
  else if fieldKind = Uint32FieldKind then writeUintValue 4 v
  else if fieldKind = Uint64FieldKind then writeUintValue 8 v
  else .ok []

/-- The element loop `for i := 0; i < len(s.F); i++`: the bytes of each element in index
order. -/
def writeElems (g : Value → Except GoErr (List Nat)) : List Value → Except GoErr (List Nat)
  | [] => .ok []
  | v :: vs =>
    match g v with
    | .error e => .error e
    | .ok bs =>
      match writeElems g vs with
      | .error e => .error e
      | .ok rest => .ok (bs ++ rest)

/-- The block emitted by `generateArrayFieldWriteCode` (generator.go:522-580).  For a Byte
element the whole field is handed to `WriteBuff`, which takes a byte slice: an array
operand is not accepted there. -/
def writeArrayField (env : List PacketLayout)
    (call : PacketLayout → Value → Except GoErr (List Nat)) (fieldKind : FieldKind)
    (typeName : String) (slice : Bool) (v : Value) : Except GoErr (List Nat) :=
  match v with
  | .seq elems =>
    let count := if slice then WriteUint 4 elems.length else []
    if fieldKind = ByteFieldKind then
      if slice then
        match bytesOf elems with
        | .error e => .error e
        | .ok bs => .ok (count ++ bs)
      else .error (.invalidCode "array passed to WriteBuff")
    else
      match writeElems (writeElem env call fieldKind typeName) elems with
      | .error e => .error e
      | .ok bs => .ok (count ++ bs)
  | _ => .error .badValue

/-- Bytes written for one field, following the `switch f.kind` of `generateWriteCode`
(generator.go:588-643); a kind with no case emits nothing. -/
def writeField (env : List PacketLayout) (call : PacketLayout → Value → Except GoErr (List Nat))
    (f : FieldLayout) (v : Value) : Except GoErr (List Nat) :=
  if f.kind = StructFieldKind then writeStructRef env call f.fieldType v
  else if f.kind = SliceFieldKind then writeArrayField env call f.subElementKind f.fieldType true v
  else if f.kind = ArrayFieldKind then writeArrayField env call f.subElementKind f.fieldType false v
  else if f.kind = StringFieldKind then writeString v
  else if f.kind = ByteFieldKind then writeUintValue 1 v
  else if f.kind = Int8FieldKind then writeInt 1 v
  else if f.kind = Int16FieldKind then writeInt 2 v
  else if f.kind = Int32FieldKind then writeInt 4 v
  else if f.kind = Int64FieldKind then writeInt 8 v
  else if f.kind = Uint8FieldKind then writeUintValue 1 v
  else if f.kind = Uint16FieldKind then writeUintValue 2 v
  else if f.kind = Uint32FieldKind then writeUintValue 4 v
  else if f.kind = Uint64FieldKind then writeUintValue 8 v
  else .ok []

/-- The loop of `generateWriteCode` over `p.fields`: the bytes of the fields in order. -/
def writeFields (env : List PacketLayout) (call : PacketLayout → Value → Except GoErr (List Nat)) :
    List FieldLayout → List Value → Except GoErr (List Nat)
  | [], [] => .ok []
  | f :: fs, v :: vs =>
    match writeField env call f v with
    | .error e => .error e
    | .ok bs =>
      match writeFields env call fs vs with
      | .error e => .error e
      | .ok rest => .ok (bs ++ rest)
  | _, _ => .error .badValue

/-- The `Write` method emitted for `p`: `generateSimplePacket` emits
`return s.PacketHeader.Write(stream)` (generator.go:248); the other kinds use
`generateWriteCode` (generator.go:582-647), which writes the header first unless the kind
is Struct.  The result is the bytes appended to the stream. -/
def writeMethod (env : List PacketLayout) (call : PacketLayout → Value → Except GoErr (List Nat))
    (p : PacketLayout) (v : Value) : Except GoErr (List Nat) :=
  match v with
  | .struct header fields =>
    if p.kind = SimplePacketKind then
      match header with
      | some h => .ok h.Write
      | none => .error .badValue
    else if p.kind = GenericPacketKind ∨ p.kind = VLFPacketKind then
      match header with
      | some h =>
        match writeFields env call p.fields fields with
        | .error e => .error e
        | .ok bs => .ok (h.Write ++ bs)
      | none => .error .badValue
    else if p.kind = StructKind then writeFields env call p.fields fields
    else .error (.invalidCode "no type is emitted for this kind")
  | _ => .error .badValue

/-- The emitted `Write(stream)` of the type of `p` on the value `v`: the bytes it appends;
`fuel` bounds the nesting of calls to the `Write` of field and element types. -/
def Write (env : List PacketLayout) : Nat → PacketLayout → Value → Except GoErr (List Nat)
  | 0, p, v => writeMethod env (fun _ _ => .error .outOfFuel) p v
  | n + 1, p, v => writeMethod env (Write env n) p v

/-! ### Read

`Read` has a pointer receiver and assigns into the fields of `s`: the model takes the value
of the receiver before the call and returns its value after the call together with the
rest of the stream.  The definitions give the effect of the emitted statements; that Go
also wants the variable of `var err error` to be used by one of them is not checked. -/

/-- Read an unsigned value of `w` bytes into the field. -/
def readUintValue (w : Nat) (st : Stream) : Except GoErr (Value × Stream) :=
  match ReadUint w st with
  | .error e => .error e
  | .ok (val, st) => .ok (.uint val, st)

/-- Read `w` bytes and convert to the signed type of that width. -/
def readInt (w : Nat) (st : Stream) : Except GoErr (Value × Stream) :=
  match ReadUint w st with
  | .error e => .error e
  | .ok (val, st) => .ok (.int (toSigned w val), st)

/-- Read a string: a 32-bit size, then `ReadBuff(int(size))`. -/
def readString (st : Stream) : Except GoErr (Value × Stream) :=
  match ReadUint 4 st with
  | .error e => .error e
  | .ok (size, st) =>
    match ReadBuff size st with
    | .error e => .error e
    | .ok (buff, st) => .ok (.str buff, st)

/-- The text `s.F.Read(stream)`: the method of the declared type, on the current value. -/
def readStructRef (env : List PacketLayout)
    (call : PacketLayout → Value → Stream → Except GoErr (Value × Stream)) (typeName : String)
    (cur : Value) (st : Stream) : Except GoErr (Value × Stream) :=
  match lookupType env typeName with
  | some q => call q cur st
  | none => .error (.invalidCode "undeclared type")

/-- Body of the element loop of `generateArrayFieldReadCode` (generator.go:405-451) for one
element with current value `cur`.  The Int8 and Uint8 cases are emitted with the word
`returne`; an element kind with no case leaves the loop body empty. -/
def readElem (env : List PacketLayout)
    (call : PacketLayout → Value → Stream → Except GoErr (Value × Stream))
    (fieldKind : FieldKind) (typeName : String) (cur : Value) (st : Stream) :
    Except GoErr (Value × Stream) :=
  if fieldKind = StructFieldKind then readStructRef env call typeName cur st
  else if fieldKind = StringFieldKind then readString st
  else if fieldKind = Int8FieldKind then .error (.invalidCode "returne")
  else if fieldKind = Int16FieldKind then readInt 2 st
  else if fieldKind = Int32FieldKind then readInt 4 st
  else if fieldKind = Int64FieldKind then readInt 8 st
  else if fieldKind = Uint8FieldKind then .error (.invalidCode "returne")
  else if fieldKind = Uint16FieldKind then readUintValue 2 st
  else if fieldKind = Uint32FieldKind then readUintValue 4 st
  else if fieldKind = Uint64FieldKind then readUintValue 8 st
  else .ok (cur, st)

/-- The element loop `for i := 0; i < len(s.F); i++` over the current elements, in index
order. -/
def readElems (g : Value → Stream → Except GoErr (Value × Stream)) :
    List Value → Stream → Except GoErr (List Value × Stream)
  | [], st => .ok ([], st)
  | cur :: rest, st =>
    match g cur st with
    | .error e => .error e
    | .ok (v, st) =>
      match readElems g rest st with
      | .error e => .error e
      | .ok (vs, st) => .ok (v :: vs, st)

/-- The block emitted by `generateArrayFieldReadCode` (generator.go:391-454).

With `slice` the block declares `size`, reads it and sets `s.F = make([]T, size)`.  For a
Byte, Int8 or Uint8 element it then emits `stream.ReadBuff(int(size))` and
`s.F = []T(buff[:])`: without `slice` the name `size` is not declared, and for `T = int8`
the conversion from a byte slice is not one Go has.  Otherwise the loop reads each element
of `s.F` in place. -/
def readArrayField (env : List PacketLayout)
    (call : PacketLayout → Value → Stream → Except GoErr (Value × Stream))
    (fieldKind : FieldKind) (typeName : String) (slice : Bool) (cur : Value) (st : Stream) :
    Except GoErr (Value × Stream) :=
  if fieldKind = ByteFieldKind ∨ fieldKind = Int8FieldKind ∨ fieldKind = Uint8FieldKind then
    if slice then
      if fieldKind = Int8FieldKind then .error (.invalidCode "conversion of a byte slice to []int8")
      else
        match ReadUint 4 st with
        | .error e => .error e
        | .ok (size, st) =>
          match ReadBuff size st with
          | .error e => .error e
          | .ok (buff, st) => .ok (.seq (buff.map Value.uint), st)
    else .error (.invalidCode "size is not declared")
  else if slice then
    match ReadUint 4 st with
    | .error e => .error e
    | .ok (size, st) =>
      match zeroOfTypeName env (zeroValue env) typeName with
      | .error e => .error e
      | .ok z =>
        match readElems (readElem env call fieldKind typeName) (List.replicate size z) st with
        | .error e => .error e
        | .ok (vs, st) => .ok (.seq vs, st)
  else
    match cur with
    | .seq elems =>
      match readElems (readElem env call fieldKind typeName) elems st with
      | .error e => .error e
      | .ok (vs, st) => .ok (.seq vs, st)
    | _ => .error .badValue

/-- Effect of the block emitted for one field by the `switch f.kind` of `generateReadCode`
(generator.go:459-516) on the field value `cur`; a kind with no case emits nothing. -/
def readField (env : List PacketLayout)
    (call : PacketLayout → Value → Stream → Except GoErr (Value × Stream))
    (f : FieldLayout) (cur : Value) (st : Stream) : Except GoErr (Value × Stream) :=
  if f.kind = StructFieldKind then readStructRef env call f.fieldType cur st
  else if f.kind = SliceFieldKind then
    readArrayField env call f.subElementKind f.fieldType true cur st
  else if f.kind = ArrayFieldKind then
    readArrayField env call f.subElementKind f.fieldType false cur st
  else if f.kind = StringFieldKind then readString st
  else if f.kind = ByteFieldKind then readUintValue 1 st
  else if f.kind = Int8FieldKind then readInt 1 st
  else if f.kind = Int16FieldKind then readInt 2 st
  else if f.kind = Int32FieldKind then readInt 4 st
  else if f.kind = Int64FieldKind then readInt 8 st
  else if f.kind = Uint8FieldKind then readUintValue 1 st
  else if f.kind = Uint16FieldKind then readUintValue 2 st
  else if f.kind = Uint32FieldKind then readUintValue 4 st
  else if f.kind = Uint64FieldKind then readUintValue 8 st
  else .ok (cur, st)

/-- The loop of `generateReadCode` over `p.fields`, in order. -/
def readFields (env : List PacketLayout)
    (call : PacketLayout → Value → Stream → Except GoErr (Value × Stream)) :
    List FieldLayout → List Value → Stream → Except GoErr (List Value × Stream)
  | [], [], st => .ok ([], st)
  | f :: fs, cur :: rest, st =>
    match readField env call f cur st with
    | .error e => .error e
    | .ok (v, st) =>
      match readFields env call fs rest st with
      | .error e => .error e
      | .ok (vs, st) => .ok (v :: vs, st)
  | _, _, _ => .error .badValue

/-- The `Read` method emitted for `p`: `generateSimplePacket` emits `return nil`
(generator.go:247); the other kinds use `generateReadCode` (generator.go:456-520), which
reads the fields and never the embedded header. -/
def readMethod (env : List PacketLayout)
    (call : PacketLayout → Value → Stream → Except GoErr (Value × Stream))
    (p : PacketLayout) (recv : Value) (st : Stream) : Except GoErr (Value × Stream) :=
  if p.kind = SimplePacketKind then .ok (recv, st)
  else if p.kind = GenericPacketKind ∨ p.kind = VLFPacketKind ∨ p.kind = StructKind then
    match recv with
    | .struct header fields =>
      match readFields env call p.fields fields st with
      | .error e => .error e
      | .ok (vs, st) => .ok (.struct header vs, st)
    | _ => .error .badValue
  else .error (.invalidCode "no type is emitted for this kind")

/-- The emitted `Read(stream)` of the type of `p` with receiver value `recv`: the receiver
after the call and the rest of the stream; `fuel` bounds the nesting of calls to the
`Read` of field and element types. -/
def Read (env : List PacketLayout) :
    Nat → PacketLayout → Value → Stream → Except GoErr (Value × Stream)
  | 0, p, recv, st => readMethod env (fun _ _ _ => .error .outOfFuel) p recv st
  | n + 1, p, recv, st => readMethod env (Read env n) p recv st

/-! ### The id table -/

/-- Lower-case hexadecimal digit for a value below 16. -/
def hexChar (d : Nat) : Char :=
  if d < 10 then Char.ofNat ('0'.toNat + d) else Char.ofNat ('a'.toNat + (d - 10))

/-- Hexadecimal digits of `n`, most significant first, in front of `acc`; `fuel` bounds the
number of digits. -/
def hexCore : Nat → Nat → List Char → List Char
  | 0, _, acc => acc
  | fuel + 1, n, acc =>
    if n / 16 = 0 then hexChar (n % 16) :: acc
    else hexCore fuel (n / 16) (hexChar (n % 16) :: acc)

/-- Hexadecimal digits of `n` (one digit `0` for zero). -/
def hexDigits (n : Nat) : List Char := hexCore (n + 1) n []

/-- Model of `fmt.Sprintf("%08x", v)` for an `int`: at least eight characters, zero padded;
a negative value is printed as a minus sign followed by the padded magnitude. -/
def fmtHex08 (v : Int) : String :=
  if 0 ≤ v then
    let ds := hexDigits v.toNat
    String.mk (List.replicate (8 - ds.length) '0' ++ ds)
  else
    let ds := hexDigits (-v).toNat
    String.mk ('-' :: (List.replicate (7 - ds.length) '0' ++ ds))

/-- Name of the constant emitted for `p`: `strings.ToUpper(p.idname)`. -/
def idConstName (p : PacketLayout) : String := toUpper p.idname

/-- Literal text emitted for `p` by the format `0x%08x` (generator.go:147). -/
def idConstLiteral (p : PacketLayout) : String := "0x" ++ fmtHex08 p.id

/-- Line emitted for `p` by `fmt.Sprintf("%s = 0x%08x\n", ...)` (generator.go:147). -/
def idLine (p : PacketLayout) : String := idConstName p ++ " = " ++ idConstLiteral p ++ "\n"

/-- Loop of `addPacketID` (generator.go:145-149), appending to `content`. -/
def addPacketIDLoop : List PacketLayout → String → String
  | [], content => content
  | p :: ps, content =>
    if p.kind ≠ StructKind then addPacketIDLoop ps (content ++ idLine p)
    else addPacketIDLoop ps content

/-- The function `addPacketID` (generator.go:142-155). -/
def addPacketID (packets : List PacketLayout) : String :=
  if packets.length ≠ 0 then addPacketIDLoop packets "const (\n" ++ ")"
  else ""

/-- Value denoted by a Go integer literal: `0x` and hexadecimal digits, a leading `0` and octal
digits, or decimal digits; `none` when the text is not such a literal. -/
def goIntLit (s : String) : Option Nat := parseUintBase0 s.data

/-- Character of an identifier written in ASCII: a letter, a digit or the underscore. -/
def isIdentChar (c : Char) : Bool := c.isAlpha || c.isDigit || c == '_'

/-- The text is a Go identifier written in ASCII that can name a constant: it is not empty,
does not start with a digit and is not the blank identifier `_`.  Keywords are lower-case
and do not occur among upper-cased names. -/
def isIdentifier (s : String) : Bool :=
  match s.data with
  | [] => false
  | c :: cs => !c.isDigit && (c :: cs).all isIdentChar && !(c == '_' && cs.isEmpty)

/-- Value of the name `name` where the file emitted for `env` uses it as an operand (the
constructor's `PacketType:NAME` and the factory's `case NAME:`).  The `const` block of
`addPacketID` declares one constant per layout that is not a Struct kind; the only other
package-level names that can be written in upper case are the emitted type names.  The
name has a value when it is an identifier, no emitted type has the same name, exactly one
line of the block declares it and the text after `=` on that line is an integer literal. -/
def constValue (env : List PacketLayout) (name : String) : Except GoErr Nat :=
  if isIdentifier name = false then .error (.invalidCode "the constant name is not an identifier")
  else if env.any (fun q => q.name == name) then
    .error (.invalidCode "the name is declared as a type and as a constant")
  else
    match env.filter (fun q => decide (q.kind ≠ StructKind) && idConstName q == name) with
    | [] => .error (.invalidCode "undeclared name")
    | [q] =>
      match goIntLit (idConstLiteral q) with
      | none => .error (.invalidCode "the id constant is not an integer literal")
      | some c => .ok c
    | _ :: _ :: _ => .error (.invalidCode "the constant is declared twice")

/-! ### The packet factory -/

/-- Loop of `generatePacketFactory` (generator.go:681-686): the layouts for which a `case` is
emitted, in emission order.  The case for `p` has the label `strings.ToUpper(p.idname)` and
the body `newPacket = &p.name{PacketHeader:header}`. -/
def factoryCasesLoop : List PacketLayout → List PacketLayout → List PacketLayout
  | [], code => code
  | p :: ps, code =>
    if p.kind = StructKind then factoryCasesLoop ps code
    else factoryCasesLoop ps (code ++ [p])

/-- Cases of the emitted `switch header.PacketType`. -/
def factoryCases (packets : List PacketLayout) : List PacketLayout := factoryCasesLoop packets []

/-- Instance behind a `Packet` interface value: a pointer to a value of a generated type. -/
structure Instance where
  layout : PacketLayout
  value : Value
  deriving Repr

/-- PacketCacher is the emitted interface (generator.go:655-658); only `Get` is called by
`CreatePacket`.  `none` is a nil result. -/
abbrev PacketCacher := Nat → PacketHeader → Option Instance

/-- The composite literal `&T{PacketHeader:header}`: the zero value of `T` with the header
set. -/
def withHeader (header : PacketHeader) : Value → Value
  | .struct _ fields => .struct (some header) fields
  | v => v

/-- The `case` labels of the emitted `switch header.PacketType` with their values, in emission
order.  The switch is valid Go when every label has a value, the value fits the `uint32`
operand `header.PacketType`, and no two labels have the same value (a duplicate case). -/
def switchTable (env : List PacketLayout) : List PacketLayout → Except GoErr (List (Nat × PacketLayout))
  | [] => .ok []
  | p :: ps =>
    match constValue env (idConstName p) with
    | .error e => .error e
    | .ok c =>
      if 2 ^ 32 ≤ c then .error (.invalidCode "constant overflows uint32")
      else
        match switchTable env ps with
        | .error e => .error e
        | .ok rest =>
          if rest.any (fun r => r.1 == c) then .error (.invalidCode "duplicate case in switch")
          else .ok ((c, p) :: rest)

/-- The `switch header.PacketType` over a valid table: the case whose constant equals the
packet type. -/
def dispatch (table : List (Nat × PacketLayout)) (header : PacketHeader) : Option PacketLayout :=
  (table.find? (fun r => r.1 == header.PacketType)).map (fun r => r.2)

/-- The call `newPacket.Read(stream)` and the two `return` statements after it
(generator.go:694-697). -/
def readBody (env : List PacketLayout) (fuel : Nat) (newPacket : Instance) (st : Stream) :
    Option Instance × Option GoErr :=
  match Read env fuel newPacket.layout newPacket.value st with
  | .error e => (none, some e)
  | .ok (v, _) => (some (Instance.mk newPacket.layout v), none)

/-- The statement `if p.Cacher != nil { newPacket = p.Cacher.Get(header.PacketType, &header) }`
(generator.go:675-677): the value of `newPacket` after it. -/
def cacheGet (cacher : Option PacketCacher) (header : PacketHeader) : Option Instance :=
  match cacher with
  | some c => c header.PacketType header
  | none => none

/-- The emitted `CreatePacket` (generator.go:670-698) with a `case` for each layout of
`cases`.  The result is the Go pair `(newPacket, err)`; `cacher = none` is a nil `Cacher`.
When the `switch` is not valid Go the function does not exist, and every call is
`invalidCode`. -/
def CreatePacketWith (env : List PacketLayout) (cases : List PacketLayout) (fuel : Nat)
    (cacher : Option PacketCacher) (st : Stream) : Option Instance × Option GoErr :=
  match switchTable env cases with
  | .error e => (none, some e)
  | .ok table =>
    match PacketHeader.Read st with
    | .error e => (none, some e)
    | .ok (header, st) =>
      match cacheGet cacher header with
      | some inst => readBody env fuel inst st
      | none =>
        match dispatch table header with
        | none => (none, some .unknownPacket)
        | some p =>
          match zeroValue env p with
          | .error e => (none, some e)
          | .ok z => readBody env fuel (Instance.mk p (withHeader header z)) st

/-- The `CreatePacket` emitted by `generatePacketFactory(packets)`. -/
def CreatePacket (packets : List PacketLayout) (fuel : Nat) (cacher : Option PacketCacher)
    (st : Stream) : Option Instance × Option GoErr :=
  CreatePacketWith packets (factoryCases packets) fuel cacher st

/-! ### AdjustLength and the constructor -/

/-- Header after the assignment `s.PacketHeader.Len = uint32(n)`. -/
def setLen (h : PacketHeader) (n : Nat) : PacketHeader :=
  PacketHeader.mk h.ID h.PacketType (n % 2 ^ 32) h.Version h.Ack h.Token

/-- The body `s.PacketHeader.Len = uint32(s.Length())` (generator.go:246 and 339) on the
receiver `v`. -/
def storeLength (env : List PacketLayout) (fuel : Nat) (p : PacketLayout) (v : Value) :
    Except GoErr Value :=
  match Length env fuel p v with
  | .error e => .error e
  | .ok n =>
    match v with
    | .struct (some h) fields => .ok (.struct (some (setLen h n)) fields)
    | _ => .error .badValue

/-- The emitted `AdjustLength()` of the type of `p`: the receiver after the call.
`generateSimplePacket` emits `s.Len = uint32(s.Length())` (generator.go:246); the other
kinds use `generatePacketAdjustLengthCode` (generator.go:337-344), which emits the same
assignment unless the kind is Struct, where the body is empty. -/
def AdjustLength (env : List PacketLayout) (fuel : Nat) (p : PacketLayout) (v : Value) :
    Except GoErr Value :=
  if p.kind = SimplePacketKind then storeLength env fuel p v
  else if p.kind = GenericPacketKind ∨ p.kind = VLFPacketKind ∨ p.kind = StructKind then
    if p.kind ≠ StructKind then storeLength env fuel p v
    else .ok v
  else .error (.invalidCode "no type is emitted for this kind")

/-- The function `New<Name>` emitted by `generateNewPacketFunc` (generator.go:649-651):
`return &T{PacketHeader: PacketHeader{PacketType: NAME}}` with `NAME` the text
`strings.ToUpper(p.idname)`.  It is emitted for the SimplePacket, GenericPacket and
VLFPacket kinds only.  `NAME` must have a value in the emitted file and the value must fit
the `uint32` field; every other field is the zero value. -/
def NewPacket (env : List PacketLayout) (p : PacketLayout) : Except GoErr Value :=
  if p.kind = SimplePacketKind ∨ p.kind = GenericPacketKind ∨ p.kind = VLFPacketKind then
    match constValue env (idConstName p) with
    | .error e => .error e
    | .ok c =>
      if c < 2 ^ 32 then
        match zeroValue env p with
        | .error e => .error e
        | .ok z => .ok (withHeader (PacketHeader.mk 0 c 0 0 0 0) z)
      else .error (.invalidCode "constant overflows uint32")
  else .error (.invalidCode "no constructor is emitted for this kind")

/-! ### Generate -/

/-- Member of an emitted type: the struct declaration, the constructor `New<Name>` and the
four methods. -/
inductive Member where
  | data
  | newFunc
  | length
  | adjustLength
  | read
  | write
  deriving Repr, DecidableEq

/-- Loop of `generateStructData` (generator.go:189-201): the field declarations
`name [N]T`, `name []T` or `name T`, as (name, type text); an array bound that is not a
decimal literal is an error. -/
def structDataLoop : List FieldLayout → Except Fault (List (String × String))
  | [] => .ok []
  | f :: fs =>
    if f.kind = ArrayFieldKind then
      match getArrayTypeLength f.field with
      | .error e => .error (.err e)
      | .ok index =>
        match structDataLoop fs with
        | .error e => .error e
        | .ok rest => .ok ((f.name, "[" ++ toString index ++ "]" ++ f.fieldType) :: rest)
    else if f.kind = SliceFieldKind then
      match structDataLoop fs with
      | .error e => .error e
      | .ok rest => .ok ((f.name, "[]" ++ f.fieldType) :: rest)
    else
      match structDataLoop fs with
      | .error e => .error e
      | .ok rest => .ok ((f.name, f.fieldType) :: rest)

/-- The function `generateStructData` (generator.go:184-204): whether `PacketHeader` is
embedded, and the field declarations. -/
def generateStructData (p : PacketLayout) : Except Fault (Bool × List (String × String)) :=
  match structDataLoop p.fields with
  | .error e => .error e
  | .ok fields => .ok (decide (p.kind ≠ StructKind), fields)

/-- The function `generateStruct` (generator.go:206-237): the members it emits, in order. -/
def generateStruct (p : PacketLayout) : Except Fault (List Member) :=
  match generateStructData p with
  | .error e => .error e
  | .ok _ => .ok [.data, .length, .adjustLength, .read, .write]

/-- The function `generateSimplePacket` (generator.go:239-257): the members it emits, in
order. -/
def generateSimplePacket (p : PacketLayout) : Except Fault (List Member) :=
  match generateStructData p with
  | .error e => .error e
  | .ok _ => .ok [.data, .length, .adjustLength, .read, .write, .newFunc]

/-- The function `generateGenericPacket` (generator.go:259-296): the members it emits, in
order. -/
def generateGenericPacket (p : PacketLayout) : Except Fault (List Member) :=
  match generateStructData p with
  | .error e => .error e
  | .ok _ => .ok [.data, .newFunc, .length, .adjustLength, .read, .write]

/-- The function `generateVLFPacket` (generator.go:298-335): the members it emits, in
order. -/
def generateVLFPacket (p : PacketLayout) : Except Fault (List Member) :=
  match generateStructData p with
  | .error e => .error e
  | .ok _ => .ok [.data, .newFunc, .length, .adjustLength, .read, .write]

/-- The `switch p.kind` of `Generate` (generator.go:34-43); a kind with no case leaves the
packet content empty. -/
def generatePacket (p : PacketLayout) : Except Fault (List Member) :=
  if p.kind = StructKind then generateStruct p
  else if p.kind = GenericPacketKind then generateGenericPacket p
  else if p.kind = SimplePacketKind then generateSimplePacket p
  else if p.kind = VLFPacketKind then generateVLFPacket p
  else .ok []

/-- Loop of `Generate` over `parser.packets` (generator.go:31-48). -/
def generateLoop : List PacketLayout → Except Fault (List (PacketLayout × List Member))
  | [] => .ok []
  | p :: ps =>
    match generatePacket p with
    | .error e => .error e
    | .ok members =>
      match generateLoop ps with
      | .error e => .error e
      | .ok rest => .ok ((p, members) :: rest)

/-- Content assembled by `Generate`: the id table, the emitted types with their members,
and the cases of the factory. -/
structure Generated where
  idTable : String
  types : List (PacketLayout × List Member)
  cases : List PacketLayout
  deriving Repr

/-- The text `strings.ToUpper(p.idname)` can be read as one identifier where it is emitted
(before `=` in the `const` block, after `PacketType:` and after `case`): it is not empty,
does not start with a digit, and each character is a letter, a digit, the underscore or a
character outside ASCII, which is taken for a letter. -/
def constNameParses (name : String) : Bool :=
  match name.data with
  | [] => false
  | c :: cs => !c.isDigit && (c :: cs).all (fun d => isIdentChar d || decide (128 ≤ d.toNat))

/-- Line breaks around the block `generateReadCode` emits for a field of kind `k`
(generator.go:459-516): whether the block begins with a line break and whether it ends
with one; `none` when the kind has no case. -/
def readBlockBreaks (k : FieldKind) : Option (Bool × Bool) :=
  if k = StructFieldKind then some (true, false)
  else if k = SliceFieldKind ∨ k = ArrayFieldKind then some (true, true)
  else if k = StringFieldKind ∨ k = ByteFieldKind ∨ k = Int8FieldKind ∨ k = Int16FieldKind
      ∨ k = Int32FieldKind ∨ k = Int64FieldKind ∨ k = Uint8FieldKind ∨ k = Uint16FieldKind
      ∨ k = Uint32FieldKind ∨ k = Uint64FieldKind then some (false, true)
  else none

/-- Line breaks around the block `generateWriteCode` emits for a field of kind `k`
(generator.go:588-643). -/
def writeBlockBreaks (k : FieldKind) : Option (Bool × Bool) :=
  if k = StructFieldKind then some (false, false)
  else if k = SliceFieldKind ∨ k = ArrayFieldKind then some (true, true)
  else if k = StringFieldKind ∨ k = ByteFieldKind ∨ k = Int8FieldKind ∨ k = Int16FieldKind
      ∨ k = Int32FieldKind ∨ k = Int64FieldKind ∨ k = Uint8FieldKind ∨ k = Uint16FieldKind
      ∨ k = Uint32FieldKind ∨ k = Uint64FieldKind then some (true, false)
  else none

/-- Each emitted block is an `if` statement or a braced block, and Go ends a statement at a
line break only: two consecutive blocks can be read when the first ends with a line break
or the second begins with one.  The text before the first block ends with a line break and
the text after the last begins with one. -/
def blocksParse : List (Bool × Bool) → Bool
  | a :: b :: rest => (a.2 || b.1) && blocksParse (b :: rest)
  | _ => true

/-- The text emitted for `p` is syntactically valid Go: the type name is present, no field
type is the bare word `struct` (emitted for an inline struct body), the blocks of `Read`
and `Write` are separated by line breaks, and for a kind other than Struct the constant
name can be read as an identifier and the id is not negative (the format `0x%08x` prints
`0x-...` for a negative value).  Type and field names are identifiers of the parsed
file. -/
def packetParses (p : PacketLayout) : Bool :=
  p.name != ""
    && p.fields.all (fun f => f.fieldType != "struct")
    && (decide (p.kind = SimplePacketKind)
      || (blocksParse (p.fields.filterMap (fun f => readBlockBreaks f.kind))
        && blocksParse (p.fields.filterMap (fun f => writeBlockBreaks f.kind))))
    && (decide (p.kind = StructKind) || (constNameParses (idConstName p) && decide (0 ≤ p.id)))

/-- Model of the final `format.Source` (generator.go:55) on the content assembled for
`packets`: it fails when the text of some packet is not syntactically valid Go.  The fixed
parts of the content are valid; the message of the error is not modelled. -/
def formatSource (packets : List PacketLayout) : Except Fault Unit :=
  if packets.all packetParses then .ok () else .error (.err "format.Source: syntax error")

/-- The function `Generate` (generator.go:11-56) on the declarations of the parsed file: the
content it assembles, or the first failure.  Reading the file is outside this function. -/
def Generate (decls : List Decl) : Except Fault Generated :=
  match Parse decls with
  | .error e => .error e
  | .ok packets =>
    match generateLoop packets with
    | .error e => .error e
    | .ok types =>
      match formatSource packets with
      | .error e => .error e
      | .ok _ => .ok (Generated.mk (addPacketID packets) types (factoryCases packets))

/-! ### Notions of the specification -/

/-- Text the classifier splits: the comment lower-cased, with `/` and the space character
removed (parser.go:91-93). -/
def normalize (comment : String) : String := removeChar ' ' (removeChar '/' (toLower comment))

/-- A comment line matches the annotation grammar `@<kind>:<idname>,<idvalue>`: the part
before the first `:` is one of the three kind keywords and the part after it has an id
name and an id value separated by `,`. -/
def matchesGrammar (comment : String) : Bool :=
  match split (normalize comment) ':' with
  | head :: second :: _ =>
    decide (head = "@simplepacket" ∨ head = "@packet" ∨ head = "@vlfpacket")
      && decide (2 ≤ (split second ',').length)
  | _ => false

/-- Id value text of a comment line: the part between the first and second `,` of the part
after the first `:`; `none` when the line has no such part. -/
def idValueText (comment : String) : Option String :=
  match split (normalize comment) ':' with
  | _ :: second :: _ =>
    match split second ',' with
    | _ :: p1 :: _ => some p1
    | _ => none
  | _ => none

/-- The line with a space character inserted before position `i`. -/
def insertSpace (comment : String) (i : Nat) : String :=
  String.mk (comment.data.take i ++ ' ' :: comment.data.drop i)

/-- Two lines have the same characters up to the case of ASCII letters. -/
def sameUpToCase (s t : String) : Prop := s.data.map Char.toLower = t.data.map Char.toLower

/-- The ten primitive keywords with their kinds (specification, section 4.2). -/
def scalarKinds : List (String × FieldKind) :=
  [("byte", ByteFieldKind), ("uint8", Uint8FieldKind), ("uint16", Uint16FieldKind),
   ("uint32", Uint32FieldKind), ("uint64", Uint64FieldKind), ("int8", Int8FieldKind),
   ("int16", Int16FieldKind), ("int32", Int32FieldKind), ("int64", Int64FieldKind),
   ("string", StringFieldKind)]

/-- Kind the specification gives an identifier: the scalar kind of a primitive keyword,
Struct for any other name. -/
def specIdentKind (name : String) : FieldKind := (scalarKinds.lookup name).getD StructFieldKind

/-- A type expression is an unsupported shape: not an inline struct body, not an array or
slice type, not an identifier. -/
def unsupportedShape : Expr → Bool
  | .structType _ => false
  | .arrayType _ _ => false
  | .ident _ => false
  | _ => true

/-- A line of a Go `const` block read as `NAME = literal`: the longest run of identifier
characters at the start of the line is the name and must be an identifier, ` = ` follows,
and the text up to the line break is an integer literal.  The result is the name and the
value the literal denotes; `none` when the line is not such a declaration. -/
def parseConstSpec (line : String) : Option (String × Nat) :=
  let name := String.mk (line.data.takeWhile isIdentChar)
  match line.data.dropWhile isIdentChar with
  | ' ' :: '=' :: ' ' :: lit =>
    if isIdentifier name = true ∧ lit.getLast? = some '\n' then
      (goIntLit (String.mk lit.dropLast)).map (fun v => (name, v))
    else none
  | _ => none

/-- An embedded header is zero-valued: absent, or every field zero. -/
def isZeroHeader : Option PacketHeader → Bool
  | none => true
  | some h => h.ID == 0 && h.PacketType == 0 && h.Len == 0 && h.Version == 0 && h.Ack == 0
      && h.Token == 0

/-- The value is zero-valued with nesting at most `depth`: the number 0, the empty string,
a sequence of zero-valued elements, a struct with a zero-valued header and zero-valued
fields. -/
def isZeroValue : Nat → Value → Bool
  | _, .uint n => n == 0
  | _, .int i => decide (i = 0)
  | _, .str bytes => bytes.isEmpty
  | 0, .seq elems => elems.isEmpty
  | d + 1, .seq elems => elems.all (isZeroValue d)
  | 0, .struct header fields => isZeroHeader header && fields.isEmpty
  | d + 1, .struct header fields => isZeroHeader header && fields.all (isZeroValue d)

/-- The value is the zero value of the Go type named `typeName`: the empty string for
`string`, 0 of the signed kind for `int8` to `int64`, 0 of the unsigned kind for `byte` and
`uint8` to `uint64`, a zero-valued struct for any other name. -/
def isZeroOfType (depth : Nat) (typeName : String) (v : Value) : Bool :=
  let k := specIdentKind typeName
  if k = StringFieldKind then
    match v with
    | .str bytes => bytes.isEmpty
    | _ => false
  else if k = Int8FieldKind ∨ k = Int16FieldKind ∨ k = Int32FieldKind ∨ k = Int64FieldKind then
    match v with
    | .int i => decide (i = 0)
    | _ => false
  else if k = StructFieldKind then
    match v with
    | .struct header fields => isZeroValue depth (.struct header fields)
    | _ => false
  else
    match v with
    | .uint n => n == 0
    | _ => false

/-- The value is the zero value of the field declared for `f`: the nil slice for `F []T`,
the array of N zero values of `T` for `F [N]T`, the zero value of `T` for `F T`. -/
def isZeroField (depth : Nat) (f : FieldLayout) (v : Value) : Bool :=
  if f.kind = SliceFieldKind then
    match v with
    | .seq elems => elems.isEmpty
    | _ => false
  else if f.kind = ArrayFieldKind then
    match v, getArrayTypeLength f.field with
    | .seq elems, .ok n => decide (elems.length = n.toNat) && elems.all (isZeroOfType depth f.fieldType)
    | _, _ => false
  else isZeroOfType depth f.fieldType v

/-- The values are the zero values of the fields, one for each field, in order. -/
def fieldsZero (depth : Nat) : List FieldLayout → List Value → Bool
  | [], [] => true
  | f :: fs, v :: vs => isZeroField depth f v && fieldsZero depth fs vs
  | _, _ => false

/-- Concatenation of the lines of a table, in order. -/
def joinLines : List String → String
  | [] => ""
  | l :: ls => l ++ joinLines ls

/-! ## Example declarations -/

/-- Source `type Tag struct { Code [2]uint8 }`. -/
def tagDecl : Decl :=
  .genDecl none
    [.typeSpec "Tag" (.structType [(["Code"], .arrayType (some (.basicLit "2")) (.ident "uint8"))])]

/-- Layout that `Parse` builds for `tagDecl`. -/
def tagLayout : PacketLayout :=
  PacketLayout.mk
    (some (StructType.mk [Field.mk ["Code"] (.arrayType (some (.basicLit "2")) (.ident "uint8"))]))
    StructKind "Tag" 0 ""
    [FieldLayout.mk (Field.mk ["Code"] (.arrayType (some (.basicLit "2")) (.ident "uint8")))
      ArrayFieldKind "Code" Uint8FieldKind "uint8"]

/-- Value of `Tag` with `Code = [2]uint8{1, 2}`. -/
def tagValue : Value := .struct none [.seq [.uint 1, .uint 2]]

/-- Source of the header-only packet
`// @SimplePacket: PKTTYPE_PING, 0x00000001` over `type Ping struct {}`. -/
def pingDecl : Decl :=
  .genDecl (some ["// @SimplePacket: PKTTYPE_PING, 0x00000001"]) [.typeSpec "Ping" (.structType [])]

/-- Layout that `Parse` builds for `pingDecl`. -/
def pingLayout : PacketLayout :=
  PacketLayout.mk (some (StructType.mk [])) SimplePacketKind "Ping" 1 "pkttype_ping" []

/-- Header of a `Ping` as `NewPing` presets it, with an ID and a token filled in. -/
def pingHeader : PacketHeader := PacketHeader.mk 7 1 0 0 0 9

/-- Source `// @Packet: PKTTYPE_OUTER, 0x00000002` over `type Outer struct { Inner Ping }`. -/
def outerDecl : Decl :=
  .genDecl (some ["// @Packet: PKTTYPE_OUTER, 0x00000002"])
    [.typeSpec "Outer" (.structType [(["Inner"], .ident "Ping")])]

/-- Layout that `Parse` builds for `outerDecl`. -/
def outerLayout : PacketLayout :=
  PacketLayout.mk (some (StructType.mk [Field.mk ["Inner"] (.ident "Ping")]))
    GenericPacketKind "Outer" 2 "pkttype_outer"
    [FieldLayout.mk (Field.mk ["Inner"] (.ident "Ping")) StructFieldKind "Inner" StructFieldKind "Ping"]

/-- An `Outer` whose header has packet type 2 and whose `Inner` is a `Ping` with
`pingHeader`. -/
def outerValue : Value :=
  .struct (some (PacketHeader.mk 5 2 0 0 0 0)) [.struct (some pingHeader) []]

/-- The `Outer` that `CreatePacket` returns for the bytes of `outerValue`: the header of
`Inner` is all zero. -/
def outerDecoded : Value :=
  .struct (some (PacketHeader.mk 5 2 0 0 0 0)) [.struct (some zeroHeader) []]

/-- The 48 bytes `Write` emits for `outerValue`: the header of `Outer`, then the header of
`Inner`. -/
def outerBytes : List Nat :=
  [0, 0, 0, 5, 0, 0, 0, 2, 0, 0, 0, 0, 0, 0, 0, 0, 0, 0, 0, 0, 0, 0, 0, 0,
   0, 0, 0, 7, 0, 0, 0, 1, 0, 0, 0, 0, 0, 0, 0, 0, 0, 0, 0, 0, 0, 0, 0, 9]

/-- Source `type Wrap struct { P Ping }`, a Struct kind with a field of the packet type
`Ping`. -/
def wrapDecl : Decl :=
  .genDecl none [.typeSpec "Wrap" (.structType [(["P"], .ident "Ping")])]

/-- Layout that `Parse` builds for `wrapDecl`. -/
def wrapLayout : PacketLayout :=
  PacketLayout.mk (some (StructType.mk [Field.mk ["P"] (.ident "Ping")])) StructKind "Wrap" 0 ""
    [FieldLayout.mk (Field.mk ["P"] (.ident "Ping")) StructFieldKind "P" StructFieldKind "Ping"]

/-- A `Wrap` holding a `Ping` with `pingHeader`. -/
def wrapValue : Value := .struct none [.struct (some pingHeader) []]

/-- Source of a SimplePacket that declares a named field, an embedded field and a map field:
`// @SimplePacket: PKTTYPE_VIRDISKFINDBS, 0x00000001` over
`type DiscoverBarServerRequest struct { A uint32; Embedded; M map[string]int }`. -/
def simpleWithFieldsDecl : Decl :=
  .genDecl (some ["// @SimplePacket: PKTTYPE_VIRDISKFINDBS, 0x00000001"])
    [.typeSpec "DiscoverBarServerRequest"
      (.structType [(["A"], .ident "uint32"), ([], .ident "Embedded"),
        (["M"], .mapType (.ident "string") (.ident "int"))])]

/-- Source of a VLFPacket with two fields, the first a slice:
`// @VLFPacket: PKTTYPE_QUERY_ALL_IMAGE_INFOS_ACK, 0x80000002` over
`type QueryAllImageInfosAck struct { Infos []ImageInfo; Extra uint32 }`. -/
def vlfTwoFieldsDecl : Decl :=
  .genDecl (some ["// @VLFPacket: PKTTYPE_QUERY_ALL_IMAGE_INFOS_ACK, 0x80000002"])
    [.typeSpec "QueryAllImageInfosAck"
      (.structType [(["Infos"], .arrayType none (.ident "ImageInfo")), (["Extra"], .ident "uint32")])]

/-- Struct type of `vlfTwoFieldsDecl`. -/
def vlfTwoFieldsStruct : StructType :=
  StructType.mk [Field.mk ["Infos"] (.arrayType none (.ident "ImageInfo")),
    Field.mk ["Extra"] (.ident "uint32")]

/-- Layout that `Parse` builds for `vlfTwoFieldsDecl`: only `Infos` is kept. -/
def vlfTwoFieldsLayout : PacketLayout :=
  PacketLayout.mk (some vlfTwoFieldsStruct) VLFPacketKind "QueryAllImageInfosAck" 0x80000002
    "pkttype_query_all_image_infos_ack"
    [FieldLayout.mk (Field.mk ["Infos"] (.arrayType none (.ident "ImageInfo")))
      SliceFieldKind "Infos" StructFieldKind "ImageInfo"]

/-- Source of a VLFPacket whose only field is an array:
`// @VLFPacket: PKTTYPE_FIXED, 0x80000003` over `type Fixed struct { Infos [4]uint32 }`. -/
def vlfArrayDecl : Decl :=
  .genDecl (some ["// @VLFPacket: PKTTYPE_FIXED, 0x80000003"])
    [.typeSpec "Fixed" (.structType [(["Infos"], .arrayType (some (.basicLit "4")) (.ident "uint32"))])]

/-- Source `// @Packet: PKTTYPE_TAGGED, 0x00000003` over
`type Tagged struct { Code [2]uint8 }`. -/
def taggedDecl : Decl :=
  .genDecl (some ["// @Packet: PKTTYPE_TAGGED, 0x00000003"])
    [.typeSpec "Tagged" (.structType [(["Code"], .arrayType (some (.basicLit "2")) (.ident "uint8"))])]

/-- Layout that `Parse` builds for `taggedDecl`. -/
def taggedLayout : PacketLayout :=
  PacketLayout.mk
    (some (StructType.mk [Field.mk ["Code"] (.arrayType (some (.basicLit "2")) (.ident "uint8"))]))
    GenericPacketKind "Tagged" 3 "pkttype_tagged"
    [FieldLayout.mk (Field.mk ["Code"] (.arrayType (some (.basicLit "2")) (.ident "uint8")))
      ArrayFieldKind "Code" Uint8FieldKind "uint8"]

/-- A `Tagged` with packet type 3 and `Code = [2]uint8{1, 2}`. -/
def taggedValue : Value := .struct (some (PacketHeader.mk 5 3 0 0 0 0)) [.seq [.uint 1, .uint 2]]

/-- The 26 bytes `Write` emits for `taggedValue`. -/
def taggedBytes : List Nat :=
  [0, 0, 0, 5, 0, 0, 0, 3, 0, 0, 0, 0, 0, 0, 0, 0, 0, 0, 0, 0, 0, 0, 0, 0, 1, 2]

/-- Source `type ImageInfo struct { ImageName string; ImageSize uint32; NumSnapshot uint32 }`
(doc.go:15-19). -/
def imageInfoDecl : Decl :=
  .genDecl none
    [.typeSpec "ImageInfo"
      (.structType [(["ImageName"], .ident "string"), (["ImageSize"], .ident "uint32"),
        (["NumSnapshot"], .ident "uint32")])]

/-- Layout that `Parse` builds for `imageInfoDecl`. -/
def imageInfoLayout : PacketLayout :=
  PacketLayout.mk
    (some (StructType.mk [Field.mk ["ImageName"] (.ident "string"),
      Field.mk ["ImageSize"] (.ident "uint32"), Field.mk ["NumSnapshot"] (.ident "uint32")]))
    StructKind "ImageInfo" 0 ""
    [FieldLayout.mk (Field.mk ["ImageName"] (.ident "string")) StringFieldKind "ImageName"
        StringFieldKind "string",
     FieldLayout.mk (Field.mk ["ImageSize"] (.ident "uint32")) Uint32FieldKind "ImageSize"
        Uint32FieldKind "uint32",
     FieldLayout.mk (Field.mk ["NumSnapshot"] (.ident "uint32")) Uint32FieldKind "NumSnapshot"
        Uint32FieldKind "uint32"]

/-- Source `// @VLFPacket: PKTTYPE_QUERY_ALL_IMAGE_INFOS_ACK, 0x80000002` over
`type QueryAllImageInfosAck struct { Infos []ImageInfo }` (doc.go:24-27). -/
def ackDecl : Decl :=
  .genDecl (some ["// @VLFPacket: PKTTYPE_QUERY_ALL_IMAGE_INFOS_ACK, 0x80000002"])
    [.typeSpec "QueryAllImageInfosAck" (.structType [(["Infos"], .arrayType none (.ident "ImageInfo"))])]

/-- Layout that `Parse` builds for `ackDecl`. -/
def ackLayout : PacketLayout :=
  PacketLayout.mk (some (StructType.mk [Field.mk ["Infos"] (.arrayType none (.ident "ImageInfo"))]))
    VLFPacketKind "QueryAllImageInfosAck" 0x80000002 "pkttype_query_all_image_infos_ack"
    [FieldLayout.mk (Field.mk ["Infos"] (.arrayType none (.ident "ImageInfo")))
      SliceFieldKind "Infos" StructFieldKind "ImageInfo"]

/-- Value of an `ImageInfo` with the given name bytes, size and snapshot count. -/
def imageInfoValue (info : List Nat × Nat × Nat) : Value :=
  .struct none [.str info.1, .uint info.2.1, .uint info.2.2]

/-- Sum over the elements of `4 + len(ImageName) + 4 + 4`. -/
def imageInfosSize : List (List Nat × Nat × Nat) → Nat
  | [] => 0
  | info :: rest => (4 + info.1.length + 4 + 4) + imageInfosSize rest

/-- Source of a packet with a negative id: `// @Packet: PKTTYPE_NEG, -1` over
`type Neg struct {}`. -/
def negDecl : Decl :=
  .genDecl (some ["// @Packet: PKTTYPE_NEG, -1"]) [.typeSpec "Neg" (.structType [])]

/-- Layout that `Parse` builds for `negDecl`. -/
def negLayout : PacketLayout :=
  PacketLayout.mk (some (StructType.mk [])) GenericPacketKind "Neg" (-1) "pkttype_neg" []

/-- Source `type Pair struct { A, B uint32 }`: one field entry with two names. -/
def pairDecl : Decl :=
  .genDecl none [.typeSpec "Pair" (.structType [(["A", "B"], .ident "uint32")])]

/-- Layout that `Parse` builds for `pairDecl`: the field `A` alone. -/
def pairLayout : PacketLayout :=
  PacketLayout.mk (some (StructType.mk [Field.mk ["A", "B"] (.ident "uint32")])) StructKind "Pair" 0 ""
    [FieldLayout.mk (Field.mk ["A", "B"] (.ident "uint32")) Uint32FieldKind "A" Uint32FieldKind
      "uint32"]

/-- Source of a plain struct under an ordinary comment:
`// Note: see header, v2` over `type Plain struct { A uint32 }`. -/
def noteDecl : Decl :=
  .genDecl (some ["// Note: see header, v2"]) [.typeSpec "Plain" (.structType [(["A"], .ident "uint32")])]

/-- The struct of `noteDecl` with no comment. -/
def plainDecl : Decl :=
  .genDecl (some []) [.typeSpec "Plain" (.structType [(["A"], .ident "uint32")])]

/-- Layout that `Parse` builds for `plainDecl`. -/
def plainLayout : PacketLayout :=
  PacketLayout.mk (some (StructType.mk [Field.mk ["A"] (.ident "uint32")])) StructKind "Plain" 0 ""
    [FieldLayout.mk (Field.mk ["A"] (.ident "uint32")) Uint32FieldKind "A" Uint32FieldKind "uint32"]

/-- Source of a struct under a line with a kind keyword and no id part:
`// @Packet: PKT_A` over `type Plain struct { A uint32 }`. -/
def kindOnlyDecl : Decl :=
  .genDecl (some ["// @Packet: PKT_A"]) [.typeSpec "Plain" (.structType [(["A"], .ident "uint32")])]

/-- Source of a packet whose first annotation line has a malformed id and whose second is
well formed: `// @Packet: PKT_A, zz` and `// @Packet: PKT_B, 1` over `type Two struct {}`. -/
def badThenGoodDecl : Decl :=
  .genDecl (some ["// @Packet: PKT_A, zz", "// @Packet: PKT_B, 1"]) [.typeSpec "Two" (.structType [])]

/-- Layout that `Parse` builds for `badThenGoodDecl`. -/
def badThenGoodLayout : PacketLayout :=
  PacketLayout.mk (some (StructType.mk [])) GenericPacketKind "Two" 1 "pkt_b" []

/-- Source of a VLFPacket whose second field is a map:
`// @VLFPacket: PKTTYPE_QUERY_ALL_IMAGE_INFOS_ACK, 0x80000002` over
`type QueryAllImageInfosAck struct { Infos []ImageInfo; M map[string]int }`. -/
def vlfMapSecondDecl : Decl :=
  .genDecl (some ["// @VLFPacket: PKTTYPE_QUERY_ALL_IMAGE_INFOS_ACK, 0x80000002"])
    [.typeSpec "QueryAllImageInfosAck"
      (.structType [(["Infos"], .arrayType none (.ident "ImageInfo")),
        (["M"], .mapType (.ident "string") (.ident "int"))])]

/-- Layout that `Parse` builds for `vlfMapSecondDecl`. -/
def vlfMapSecondLayout : PacketLayout :=
  PacketLayout.mk
    (some (StructType.mk [Field.mk ["Infos"] (.arrayType none (.ident "ImageInfo")),
      Field.mk ["M"] (.mapType (.ident "string") (.ident "int"))]))
    VLFPacketKind "QueryAllImageInfosAck" 0x80000002 "pkttype_query_all_image_infos_ack"
    [FieldLayout.mk (Field.mk ["Infos"] (.arrayType none (.ident "ImageInfo")))
      SliceFieldKind "Infos" StructFieldKind "ImageInfo"]

/-- Source `type WithMap struct { A uint32; M map[string]int }`. -/
def withMapDecl : Decl :=
  .genDecl none
    [.typeSpec "WithMap"
      (.structType [(["A"], .ident "uint32"), (["M"], .mapType (.ident "string") (.ident "int"))])]

/-- Source `type Arr struct { Code [2]T }` for the element type name `T`. -/
def arrDecl (elemType : String) : Decl :=
  .genDecl none
    [.typeSpec "Arr" (.structType [(["Code"], .arrayType (some (.basicLit "2")) (.ident elemType))])]

/-- Layout that `Parse` builds for `arrDecl T` when `T` has the element kind `k`. -/
def arrLayout (elemType : String) (k : FieldKind) : PacketLayout :=
  PacketLayout.mk
    (some (StructType.mk [Field.mk ["Code"] (.arrayType (some (.basicLit "2")) (.ident elemType))]))
    StructKind "Arr" 0 ""
    [FieldLayout.mk (Field.mk ["Code"] (.arrayType (some (.basicLit "2")) (.ident elemType)))
      ArrayFieldKind "Code" k elemType]

/-- The thirteen field kinds (parser.go:23-37). -/
def fieldKinds : List FieldKind :=
  [SliceFieldKind, ArrayFieldKind, StructFieldKind, ByteFieldKind, Uint8FieldKind,
   Uint16FieldKind, Uint32FieldKind, Uint64FieldKind, Int8FieldKind, Int16FieldKind,
   Int32FieldKind, Int64FieldKind, StringFieldKind]

/-- The eleven kinds that are not containers. -/
def elementKinds : List FieldKind :=
  [StructFieldKind, ByteFieldKind, Uint8FieldKind, Uint16FieldKind, Uint32FieldKind,
   Uint64FieldKind, Int8FieldKind, Int16FieldKind, Int32FieldKind, Int64FieldKind,
   StringFieldKind]

/-- Source `import "fmt"`: a general declaration with an import spec and no comment. -/
def importDecl : Decl := .genDecl none [.importSpec]

/-- Source `const Max = 8` or `var count int`: a general declaration with a value spec. -/
def valueDecl : Decl := .genDecl none [.valueSpec]

/-- Source `type Id uint32`: a type declaration that is not a struct type. -/
def namedTypeDecl : Decl := .genDecl none [.typeSpec "Id" (.ident "uint32")]

/-- Source `func main() {}`: a function declaration. -/
def mainFuncDecl : Decl := .funcDecl none

/-- Source of a VLFPacket whose first field is embedded:
`// @VLFPacket: PKTTYPE_EMBED, 0x80000004` over `type Embed struct { Base; Infos []uint32 }`. -/
def vlfEmbeddedDecl : Decl :=
  .genDecl (some ["// @VLFPacket: PKTTYPE_EMBED, 0x80000004"])
    [.typeSpec "Embed"
      (.structType [([], .ident "Base"), (["Infos"], .arrayType none (.ident "uint32"))])]

/-- Source `// @Packet: PKTTYPE_LOGIN, 0x00000003` over
`type Login struct { DiskType uint32; DiskID uint32 }`, a GenericPacket with two fields. -/
def loginDecl : Decl :=
  .genDecl (some ["// @Packet: PKTTYPE_LOGIN, 0x00000003"])
    [.typeSpec "Login" (.structType [(["DiskType"], .ident "uint32"), (["DiskID"], .ident "uint32")])]

/-- Layout that `Parse` builds for `loginDecl`. -/
def loginLayout : PacketLayout :=
  PacketLayout.mk
    (some (StructType.mk [Field.mk ["DiskType"] (.ident "uint32"), Field.mk ["DiskID"] (.ident "uint32")]))
    GenericPacketKind "Login" 3 "pkttype_login"
    [FieldLayout.mk (Field.mk ["DiskType"] (.ident "uint32")) Uint32FieldKind "DiskType"
        Uint32FieldKind "uint32",
     FieldLayout.mk (Field.mk ["DiskID"] (.ident "uint32")) Uint32FieldKind "DiskID"
        Uint32FieldKind "uint32"]

/-- Source `type Session struct { Req Login }`, a Struct kind with a field of the packet type
`Login`. -/
def sessionDecl : Decl :=
  .genDecl none [.typeSpec "Session" (.structType [(["Req"], .ident "Login")])]

/-- Layout that `Parse` builds for `sessionDecl`. -/
def sessionLayout : PacketLayout :=
  PacketLayout.mk (some (StructType.mk [Field.mk ["Req"] (.ident "Login")])) StructKind "Session" 0 ""
    [FieldLayout.mk (Field.mk ["Req"] (.ident "Login")) StructFieldKind "Req" StructFieldKind "Login"]

/-- Header of the `Login` held by `sessionValue`. -/
def loginHeader : PacketHeader := PacketHeader.mk 1 3 0 0 0 0

/-- A `Session` whose `Req` is a `Login` with `DiskType = 2` and `DiskID = 5`. -/
def sessionValue : Value := .struct none [.struct (some loginHeader) [.uint 2, .uint 5]]

/-- Source of a VLFPacket with no field:
`// @VLFPacket: PKTTYPE_EMPTY, 0x80000005` over `type Empty struct {}`. -/
def vlfEmptyDecl : Decl :=
  .genDecl (some ["// @VLFPacket: PKTTYPE_EMPTY, 0x80000005"]) [.typeSpec "Empty" (.structType [])]

/-- Source of a VLFPacket whose first field is a map:
`// @VLFPacket: PKTTYPE_MAPPED, 0x80000006` over `type Mapped struct { M map[string]int }`. -/
def vlfMapFirstDecl : Decl :=
  .genDecl (some ["// @VLFPacket: PKTTYPE_MAPPED, 0x80000006"])
    [.typeSpec "Mapped" (.structType [(["M"], .mapType (.ident "string") (.ident "int"))])]

/-- Source of a struct whose comment has two lines that match the annotation grammar and then
an ordinary remark: `// @SimplePacket: PKT_A, 1`, `// @Packet: PKT_B, 0x10` and
`// Note: see header, v2` over `type Plain struct { A uint32 }`. -/
def matchesThenNoteDecl : Decl :=
  .genDecl (some ["// @SimplePacket: PKT_A, 1", "// @Packet: PKT_B, 0x10", "// Note: see header, v2"])
    [.typeSpec "Plain" (.structType [(["A"], .ident "uint32")])]

/-- The declaration of `matchesThenNoteDecl` without the remark. -/
def twoMatchesDecl : Decl :=
  .genDecl (some ["// @SimplePacket: PKT_A, 1", "// @Packet: PKT_B, 0x10"])
    [.typeSpec "Plain" (.structType [(["A"], .ident "uint32")])]

/-- Layout that `Parse` builds for `twoMatchesDecl`. -/
def twoMatchesLayout : PacketLayout :=
  PacketLayout.mk (some (StructType.mk [Field.mk ["A"] (.ident "uint32")])) GenericPacketKind "Plain"
    16 "pkt_b"
    [FieldLayout.mk (Field.mk ["A"] (.ident "uint32")) Uint32FieldKind "A" Uint32FieldKind "uint32"]

/-- Source of a packet with an empty id name: `// @Packet: , 5` over `type Anon struct {}`. -/
def emptyNameDecl : Decl :=
  .genDecl (some ["// @Packet: , 5"]) [.typeSpec "Anon" (.structType [])]

/-- Layout that `Parse` builds for `emptyNameDecl`. -/
def emptyNameLayout : PacketLayout :=
  PacketLayout.mk (some (StructType.mk [])) GenericPacketKind "Anon" 5 "" []

/-- Source of a packet whose id name starts with a digit: `// @Packet: 9LIVES, 5` over
`type Cat struct { Age uint8 }`. -/
def digitNameDecl : Decl :=
  .genDecl (some ["// @Packet: 9LIVES, 5"]) [.typeSpec "Cat" (.structType [(["Age"], .ident "uint8")])]

/-- Layout that `Parse` builds for `digitNameDecl`. -/
def digitNameLayout : PacketLayout :=
  PacketLayout.mk (some (StructType.mk [Field.mk ["Age"] (.ident "uint8")])) GenericPacketKind "Cat" 5
    "9lives"
    [FieldLayout.mk (Field.mk ["Age"] (.ident "uint8")) Uint8FieldKind "Age" Uint8FieldKind "uint8"]

/-- Source `// @Packet: PKTTYPE_REPORT, 0x00000007` over
`type Report struct { Name string; Codes [2]int16; Last Login; Tags []uint32 }`. -/
def reportDecl : Decl :=
  .genDecl (some ["// @Packet: PKTTYPE_REPORT, 0x00000007"])
    [.typeSpec "Report"
      (.structType [(["Name"], .ident "string"),
        (["Codes"], .arrayType (some (.basicLit "2")) (.ident "int16")),
        (["Last"], .ident "Login"), (["Tags"], .arrayType none (.ident "uint32"))])]

/-- Layout that `Parse` builds for `reportDecl`. -/
def reportLayout : PacketLayout :=
  PacketLayout.mk
    (some (StructType.mk [Field.mk ["Name"] (.ident "string"),
      Field.mk ["Codes"] (.arrayType (some (.basicLit "2")) (.ident "int16")),
      Field.mk ["Last"] (.ident "Login"), Field.mk ["Tags"] (.arrayType none (.ident "uint32"))]))
    GenericPacketKind "Report" 7 "pkttype_report"
    [FieldLayout.mk (Field.mk ["Name"] (.ident "string")) StringFieldKind "Name" StringFieldKind
        "string",
     FieldLayout.mk (Field.mk ["Codes"] (.arrayType (some (.basicLit "2")) (.ident "int16")))
        ArrayFieldKind "Codes" Int16FieldKind "int16",
     FieldLayout.mk (Field.mk ["Last"] (.ident "Login")) StructFieldKind "Last" StructFieldKind
        "Login",
     FieldLayout.mk (Field.mk ["Tags"] (.arrayType none (.ident "uint32"))) SliceFieldKind "Tags"
        Uint32FieldKind "uint32"]

/-- A cacher that holds a `Ping` for the packet type 1 and nothing else. -/
def pingCacher : PacketCacher :=
  fun id header => if id = 1 then some (Instance.mk pingLayout (.struct (some header) [])) else none

/-- A header of packet type `t` as 24 stream bytes, the other fields zero. -/
def headerBytes (t : Nat) : List Nat :=
  [0, 0, 0, 0, 0, 0, 0, t, 0, 0, 0, 0, 0, 0, 0, 0, 0, 0, 0, 0, 0, 0, 0, 0]

/-- Source `// @Packet: PKT_A, 1` over `type First struct { A uint32 }`. -/
def dupFirstDecl : Decl :=
  .genDecl (some ["// @Packet: PKT_A, 1"]) [.typeSpec "First" (.structType [(["A"], .ident "uint32")])]

/-- Source `// @Packet: PKT_A, 2` over `type Second struct { B uint32 }`: the id name of
`dupFirstDecl` with another id. -/
def dupSecondDecl : Decl :=
  .genDecl (some ["// @Packet: PKT_A, 2"]) [.typeSpec "Second" (.structType [(["B"], .ident "uint32")])]

/-- Layout that `Parse` builds for `dupFirstDecl`. -/
def dupFirstLayout : PacketLayout :=
  PacketLayout.mk (some (StructType.mk [Field.mk ["A"] (.ident "uint32")])) GenericPacketKind "First"
    1 "pkt_a"
    [FieldLayout.mk (Field.mk ["A"] (.ident "uint32")) Uint32FieldKind "A" Uint32FieldKind "uint32"]

/-- Layout that `Parse` builds for `dupSecondDecl`. -/
def dupSecondLayout : PacketLayout :=
  PacketLayout.mk (some (StructType.mk [Field.mk ["B"] (.ident "uint32")])) GenericPacketKind "Second"
    2 "pkt_a"
    [FieldLayout.mk (Field.mk ["B"] (.ident "uint32")) Uint32FieldKind "B" Uint32FieldKind "uint32"]

/-! ## Theorems -/

theorem encodeBE_length (w n : Nat) : (encodeBE w n).length = w := by
  induction w generalizing n with
  | zero => rfl
  | succ k ih => simp [encodeBE, ih]

theorem WriteUint_length (w n : Nat) : (WriteUint w n).length = w := by
  simp [WriteUint, encodeBE_length]

theorem PacketHeader_Write_length (h : PacketHeader) : h.Write.length = 24 := by
  simp [PacketHeader.Write, WriteUint_length]

/-- C1: the round trip fails on two Struct-kind types.  For `Tag` with the array field
`Code [2]uint8`, `Write` emits the two element bytes, and on no receiver, stream or call
depth does `Read` return a value, because the block emitted for the array refers to
`size`, which only the slice form declares.  For `Wrap` with the field `P Ping`, `Write`
emits the 24 header bytes of `P`, and `Read` returns with receiver and stream untouched:
it consumes none of those bytes and does not restore `P`. -/
theorem Read_fails_after_Write_on_uint8_array :
    Parse [tagDecl] = .ok [tagLayout] ∧
    Write [tagLayout] 0 tagLayout tagValue = .ok [1, 2] ∧
    (∀ (fuel : Nat) (recv : Value) (st : Stream),
      ∃ e, Read [tagLayout] fuel tagLayout recv st = .error e) ∧
    Parse [pingDecl, wrapDecl] = .ok [pingLayout, wrapLayout] ∧
    Write [pingLayout, wrapLayout] 1 wrapLayout wrapValue = .ok pingHeader.Write ∧
    pingHeader.Write.length = 24 ∧
    (∀ (v : Value) (st : Stream),
      Read [pingLayout, wrapLayout] 1 wrapLayout (.struct none [v]) st
        = .ok (.struct none [v], st)) := by
  refine ⟨rfl, rfl, ?_, rfl, rfl, rfl, fun v st => rfl⟩
  intro fuel recv st
  have key : ∀ call, ∃ e, readMethod [tagLayout] call tagLayout recv st = .error e := by
    intro call
    cases recv with
    | struct header fields =>
      cases fields with
      | nil => exact ⟨_, rfl⟩
      | cons cur rest => exact ⟨_, rfl⟩
    | uint n => exact ⟨_, rfl⟩
    | int i => exact ⟨_, rfl⟩
    | str bytes => exact ⟨_, rfl⟩
    | seq elems => exact ⟨_, rfl⟩
  cases fuel with
  | zero => exact key _
  | succ n => exact key _

/-- C2: `CreatePacket` does not return the instance that was written, on two packets.  For
`Outer` (id 2) with the field `Inner Ping`, `Write` emits the header of `Outer` and the
header of `Inner`; `CreatePacket` on these bytes returns, without error, an `Outer` whose
`Inner` header is all zero, which differs from the instance written.  For `Tagged` (id 3)
with the array field `Code [2]uint8`, `Write` emits the header and the two elements, and
`CreatePacket` on these bytes returns no packet: the block emitted for the array refers
to the undeclared `size`. -/
theorem CreatePacket_returns_other_instance :
    Parse [pingDecl, outerDecl] = .ok [pingLayout, outerLayout] ∧
    Write [pingLayout, outerLayout] 1 outerLayout outerValue = .ok outerBytes ∧
    CreatePacket [pingLayout, outerLayout] 1 none outerBytes
      = (some (Instance.mk outerLayout outerDecoded), none) ∧
    outerDecoded ≠ outerValue ∧
    Parse [taggedDecl] = .ok [taggedLayout] ∧
    Write [taggedLayout] 0 taggedLayout taggedValue = .ok taggedBytes ∧
    CreatePacket [taggedLayout] 0 none taggedBytes
      = (none, some (.invalidCode "size is not declared")) := by
  refine ⟨rfl, rfl, rfl, ?_, rfl, rfl, rfl⟩
  simp [outerDecoded, outerValue, zeroHeader, pingHeader]

/-- C3: for the Struct-kind type `Wrap` with the field `P Ping`, `Length()` returns 36 while
`Write` emits 24 bytes. -/
theorem Length_differs_from_bytes_written :
    Parse [pingDecl, wrapDecl] = .ok [pingLayout, wrapLayout] ∧
    wrapLayout.kind = StructKind ∧
    Length [pingLayout, wrapLayout] 1 wrapLayout wrapValue = .ok 36 ∧
    (Write [pingLayout, wrapLayout] 1 wrapLayout wrapValue).map List.length = .ok 24 := by
  exact ⟨rfl, rfl, rfl, rfl⟩

/-- C4: for every instance of the SimplePacket `Ping` (id 0x00000001), `Write` emits the six
header fields, 24 bytes, while `Length()` of the same instance returns 36. -/
theorem SimplePacket_Write_emits_24_bytes (h : PacketHeader) :
    Parse [pingDecl] = .ok [pingLayout] ∧
    Write [pingLayout] 0 pingLayout (.struct (some h) []) = .ok h.Write ∧
    h.Write.length = 24 ∧
    Length [pingLayout] 0 pingLayout (.struct (some h) []) = .ok 36 := by
  exact ⟨rfl, rfl, PacketHeader_Write_length h, rfl⟩

theorem parseDecl_ok_iff (decl : Decl) (p : PacketLayout) :
    parseDecl decl = .ok p ↔
      ∃ a name st, parsePacketType decl = .ok a ∧ a.err = none ∧
        parseStructInfo decl = .ok (name, st) ∧
        parseField (PacketLayout.mk st a.kind name a.ID a.IDName []) = .ok p := by
  unfold parseDecl
  constructor
  · intro h
    split at h
    · cases h
    · rename_i a ha
      split at h
      · cases h
      · rename_i herr
        split at h
        · cases h
        · rename_i name st hinfo
          exact ⟨a, name, st, ha, herr, hinfo, h⟩
  · rintro ⟨a, name, st, ha, herr, hinfo, h⟩
    simp [ha, herr, hinfo, h]

theorem parseField_frame (q p : PacketLayout) (h : parseField q = .ok p) :
    p.structType = q.structType ∧ p.kind = q.kind ∧ p.name = q.name ∧ p.id = q.id ∧
      p.idname = q.idname := by
  unfold parseField at h
  split at h
  · cases h; exact ⟨rfl, rfl, rfl, rfl, rfl⟩
  · split at h
    · split at h
      · cases h
      · split at h
        · cases h
        · split at h
          · cases h
          · split at h
            · cases h
            · cases h; exact ⟨rfl, rfl, rfl, rfl, rfl⟩
    · split at h
      · cases h
      · split at h
        · cases h
        · cases h; exact ⟨rfl, rfl, rfl, rfl, rfl⟩

theorem NewFieldLayout_field (f : Field) (fl : FieldLayout) (h : NewFieldLayout f = .ok fl) :
    fl.field = f ∧ f.Names.head? = some fl.name := by
  unfold NewFieldLayout at h
  split at h
  · cases h
  · rename_i name rest hn
    split at h
    · cases h
    · rename_i g hg
      cases h
      unfold parseFieldKind at hg
      simp only at hg
      split at hg
      · cases hg; simp [parseFieldType, hn]
      · cases hg; simp [parseFieldType, hn]
      · cases hg; simp [parseFieldType, hn]
      · cases hg

theorem Read_SimplePacket (env : List PacketLayout) (fuel : Nat) (p : PacketLayout)
    (hkind : p.kind = SimplePacketKind) (recv : Value) (st : Stream) :
    Read env fuel p recv st = .ok (recv, st) := by
  cases fuel <;> simp [Read, readMethod, hkind]

theorem Length_SimplePacket (env : List PacketLayout) (fuel : Nat) (p : PacketLayout)
    (hkind : p.kind = SimplePacketKind) (h : PacketHeader) (fields : List Value) :
    Length env fuel p (.struct (some h) fields) = .ok 36 := by
  cases fuel <;> simp [Length, lengthMethod, hkind, PacketHeader.Length]

theorem parsePacketType_ok_parseStructInfo (decl : Decl) (a : Annot)
    (h : parsePacketType decl = .ok a) : ∃ info, parseStructInfo decl = .ok info := by
  cases decl with
  | genDecl doc specs => exact ⟨_, rfl⟩
  | funcDecl doc => cases h
  | badDecl => cases h

theorem parseLoop_error_of_mem (decls : List Decl) (d : Decl) (hd : d ∈ decls)
    (hfail : ∃ e, parseDecl d = .error e) (packets : List PacketLayout) :
    ∃ e, parseLoop decls packets = .error e := by
  induction decls generalizing packets with
  | nil => cases hd
  | cons x xs ih =>
    unfold parseLoop
    cases hx : parseDecl x with
    | error e => exact ⟨e, rfl⟩
    | ok layout =>
      simp only
      rcases List.mem_cons.mp hd with rfl | hmem
      · obtain ⟨e, he⟩ := hfail
        rw [he] at hx
        cases hx
      · exact ih hmem _

/-- C5: a declaration that the annotation classifier gives the kind SimplePacket builds,
whatever its specs and fields are, into a layout with no fields; the `Read` emitted for it
returns success and leaves receiver and stream as they were, and its `Length()` returns
36. -/
theorem SimplePacket_layout_is_header_only (decl : Decl) (a : Annot)
    (hannot : parsePacketType decl = .ok a) (hkind : a.kind = SimplePacketKind)
    (herr : a.err = none) :
    ∃ p, parseDecl decl = .ok p ∧ p.kind = SimplePacketKind ∧ p.fields = [] ∧
      (∀ env fuel recv st, Read env fuel p recv st = .ok (recv, st)) ∧
      (∀ env fuel h fields, Length env fuel p (.struct (some h) fields) = .ok 36) := by
  obtain ⟨⟨name, st⟩, hinfo⟩ := parsePacketType_ok_parseStructInfo decl a hannot
  refine ⟨PacketLayout.mk st a.kind name a.ID a.IDName [], ?_, hkind, rfl, ?_, ?_⟩
  · rw [parseDecl_ok_iff]
    exact ⟨a, name, st, hannot, herr, hinfo, by simp [parseField, hkind]⟩
  · intro env fuel recv st
    exact Read_SimplePacket env fuel _ hkind recv st
  · intro env fuel h fields
    exact Length_SimplePacket env fuel _ hkind h fields

theorem parseField_VLF_ok (q p : PacketLayout) (hkind : q.kind = VLFPacketKind)
    (h : parseField q = .ok p) :
    ∃ s f rest fl, q.structType = some s ∧ s.Fields = f :: rest ∧ NewFieldLayout f = .ok fl ∧
      fl.kind = SliceFieldKind ∧ p.fields = q.fields ++ [fl] := by
  unfold parseField at h
  have h0 : ¬ q.kind = SimplePacketKind := by rw [hkind]; decide
  rw [if_neg h0, if_pos hkind] at h
  split at h
  · cases h
  · rename_i s hs
    split at h
    · cases h
    · rename_i f rest hf
      split at h
      · cases h
      · rename_i fl hfl
        split at h
        · cases h
        · rename_i hslice
          cases h
          exact ⟨s, f, rest, fl, hs, hf, hfl, not_not.mp hslice, rfl⟩

/-- C7: a VLFPacket layout that was built has exactly one field; it is the layout of the
first declared field of the struct, under that field's first name, and its kind is
Slice. -/
theorem VLFPacket_layout_keeps_first_slice (decl : Decl) (p : PacketLayout)
    (hbuilt : parseDecl decl = .ok p) (hkind : p.kind = VLFPacketKind) :
    ∃ s f rest fl, parseStructInfo decl = .ok (p.name, some s) ∧ s.Fields = f :: rest ∧
      NewFieldLayout f = .ok fl ∧ p.fields = [fl] ∧ fl.kind = SliceFieldKind ∧
      fl.field = f ∧ f.Names.head? = some fl.name := by
  obtain ⟨a, name, st, _, _, hinfo, hp⟩ := (parseDecl_ok_iff decl p).mp hbuilt
  obtain ⟨hst, hk, hname, _, _⟩ := parseField_frame _ p hp
  have hk' : (PacketLayout.mk st a.kind name a.ID a.IDName []).kind = VLFPacketKind := by
    rw [← hk]; exact hkind
  obtain ⟨s, f, rest, fl, hs, hf, hfl, hslice, hfields⟩ := parseField_VLF_ok _ p hk' hp
  simp only at hs hname
  subst hs
  obtain ⟨hfield, hhead⟩ := NewFieldLayout_field f fl hfl
  refine ⟨s, f, rest, fl, ?_, hf, hfl, ?_, hslice, hfield, hhead⟩
  · rw [hinfo, hname]
  · simpa using hfields


/-- C5 witness: the SimplePacket with a named, an embedded and a map field. -/
theorem SimplePacket_layout_is_header_only_witness :
    parsePacketType simpleWithFieldsDecl
        = .ok (Annot.mk SimplePacketKind "pkttype_virdiskfindbs" 1 none) ∧
    ∃ p, parseDecl simpleWithFieldsDecl = .ok p ∧ p.kind = SimplePacketKind ∧ p.fields = [] ∧
      (∀ env fuel recv st, Read env fuel p recv st = .ok (recv, st)) ∧
      (∀ env fuel h fields, Length env fuel p (.struct (some h) fields) = .ok 36) :=
  ⟨rfl, SimplePacket_layout_is_header_only simpleWithFieldsDecl
    (Annot.mk SimplePacketKind "pkttype_virdiskfindbs" 1 none) rfl rfl rfl⟩

/-- C6 counterexample: the VLFPacket declaration with the two fields `Infos []ImageInfo` and
`Extra uint32` builds. -/
theorem VLFPacket_with_two_fields_builds :
    parseStructInfo vlfTwoFieldsDecl = .ok ("QueryAllImageInfosAck", some vlfTwoFieldsStruct) ∧
    vlfTwoFieldsStruct.Fields.length = 2 ∧
    vlfTwoFieldsLayout.kind = VLFPacketKind ∧
    Parse [vlfTwoFieldsDecl] = .ok [vlfTwoFieldsLayout] :=
  ⟨rfl, rfl, rfl, rfl⟩

/-- C7 witness: the two-field VLFPacket keeps `Infos` alone. -/
theorem VLFPacket_layout_keeps_first_slice_witness :
    parseDecl vlfTwoFieldsDecl = .ok vlfTwoFieldsLayout ∧
    vlfTwoFieldsLayout.kind = VLFPacketKind ∧
    ∃ s f rest fl, parseStructInfo vlfTwoFieldsDecl = .ok (vlfTwoFieldsLayout.name, some s) ∧
      s.Fields = f :: rest ∧ NewFieldLayout f = .ok fl ∧ vlfTwoFieldsLayout.fields = [fl] ∧
      fl.kind = SliceFieldKind ∧ fl.field = f ∧ f.Names.head? = some fl.name :=
  ⟨rfl, rfl, VLFPacket_layout_keeps_first_slice vlfTwoFieldsDecl vlfTwoFieldsLayout rfl rfl⟩

theorem factoryCasesLoop_eq (packets code : List PacketLayout) :
    factoryCasesLoop packets code
      = code ++ packets.filter (fun p => decide (p.kind ≠ StructKind)) := by
  induction packets generalizing code with
  | nil => simp [factoryCasesLoop]
  | cons p ps ih =>
    unfold factoryCasesLoop
    by_cases h : p.kind = StructKind
    · simp [h, ih]
    · simp [h, ih]

theorem addPacketIDLoop_eq (packets : List PacketLayout) (content : String) :
    addPacketIDLoop packets content
      = content ++ joinLines ((packets.filter (fun p => decide (p.kind ≠ StructKind))).map idLine) := by
  induction packets generalizing content with
  | nil => simp [addPacketIDLoop, joinLines]
  | cons p ps ih =>
    unfold addPacketIDLoop
    by_cases h : p.kind = StructKind
    · simp [h, ih]
    · simp [h, ih, joinLines, String.append_assoc]

/-- C9: the id table emitted by `addPacketID` consists of the lines of the layouts whose kind
is not Struct, one line each, in declaration order, and the `switch` of the factory has
one case for each of the same layouts in the same order; a Struct-kind layout has
neither. -/
theorem tables_list_non_Struct_layouts_in_order (packets : List PacketLayout) :
    addPacketID packets
      = (if packets.length ≠ 0 then
          "const (\n"
            ++ joinLines ((packets.filter (fun p => decide (p.kind ≠ StructKind))).map idLine)
            ++ ")"
         else "") ∧
    factoryCases packets = packets.filter (fun p => decide (p.kind ≠ StructKind)) := by
  constructor
  · unfold addPacketID
    rw [addPacketIDLoop_eq]
  · simp [factoryCases, factoryCasesLoop_eq]

theorem digitVal_hexChar (d : Nat) (h : d < 16) : digitVal (hexChar d) = some d := by
  interval_cases d <;> rfl

theorem parseDigits_hexCore (fuel n : Nat) (acc : List Char) (h : n < fuel) :
    parseDigits 16 (hexCore fuel n acc) 0 = parseDigits 16 acc n := by
  induction fuel generalizing n acc with
  | zero => omega
  | succ k ih =>
    unfold hexCore
    have hd : digitVal (hexChar (n % 16)) = some (n % 16) := digitVal_hexChar _ (Nat.mod_lt _ (by decide))
    have hlt : n % 16 < 16 := Nat.mod_lt _ (by decide)
    by_cases h0 : n / 16 = 0
    · have hn : n % 16 = n := by omega
      rw [hn] at hd hlt
      simp [h0, parseDigits, hn, hd, hlt]
    · have hk : n / 16 < k := by omega
      simp only [h0, if_false]
      rw [ih (n / 16) _ hk]
      have hn : n / 16 * 16 + n % 16 = n := by omega
      simp [parseDigits, hd, hlt, hn]

theorem parseDigits_zeros (k : Nat) (ds : List Char) :
    parseDigits 16 (List.replicate k '0' ++ ds) 0 = parseDigits 16 ds 0 := by
  induction k with
  | zero => simp
  | succ k ih =>
    have hd : digitVal '0' = some 0 := rfl
    simp [List.replicate_succ, parseDigits, hd, ih]

theorem hexCore_ne_nil (fuel n : Nat) (acc : List Char) (h : acc ≠ [] ∨ 0 < fuel) :
    hexCore fuel n acc ≠ [] := by
  induction fuel generalizing n acc with
  | zero =>
    rcases h with h | h
    · simpa [hexCore] using h
    · omega
  | succ k ih =>
    unfold hexCore
    split
    · simp
    · exact ih _ _ (Or.inl (by simp))

theorem goIntLit_idConstLiteral (p : PacketLayout) (hid : 0 ≤ p.id) :
    goIntLit (idConstLiteral p) = some p.id.toNat := by
  have hne : hexDigits p.id.toNat ≠ [] := hexCore_ne_nil _ _ _ (Or.inr (by omega))
  have hrest : (List.replicate (8 - (hexDigits p.id.toNat).length) '0' ++ hexDigits p.id.toNat).isEmpty
      = false := by
    cases hds : hexDigits p.id.toNat with
    | nil => exact absurd hds hne
    | cons c cs => simp
  simp only [goIntLit, idConstLiteral, fmtHex08, hid, if_true, String.data_append]
  show parseUintBase0 ('0' :: 'x' :: _) = _
  simp only [parseUintBase0, List.append_eq, List.nil_append, hrest]
  rw [parseDigits_zeros]
  simp [hexDigits, parseDigits_hexCore, parseDigits]

theorem joinLines_map_mem (f : PacketLayout → String) (l : List PacketLayout) (p : PacketLayout)
    (hmem : p ∈ l) : ∃ before after, joinLines (l.map f) = before ++ f p ++ after := by
  induction l with
  | nil => cases hmem
  | cons x xs ih =>
    rcases List.mem_cons.mp hmem with rfl | hxs
    · exact ⟨"", joinLines (xs.map f), by simp [joinLines]⟩
    · obtain ⟨b, a, hba⟩ := ih hxs
      exact ⟨f x ++ b, a, by simp [joinLines, hba, String.append_assoc]⟩

theorem factoryCases_mem (packets : List PacketLayout) (p : PacketLayout) :
    p ∈ factoryCases packets ↔ p ∈ packets ∧ p.kind ≠ StructKind := by
  simp [factoryCases, factoryCasesLoop_eq, List.mem_filter]

theorem readBody_err_iff (env : List PacketLayout) (fuel : Nat) (inst : Instance) (st : Stream)
    (e : GoErr) :
    (readBody env fuel inst st).2 = some e ↔ Read env fuel inst.layout inst.value st = .error e := by
  unfold readBody
  cases h : Read env fuel inst.layout inst.value st with
  | error e' => simp
  | ok r => simp

theorem readBody_no_partial (env : List PacketLayout) (fuel : Nat) (inst : Instance) (st : Stream)
    (e : GoErr) (h : (readBody env fuel inst st).2 = some e) : (readBody env fuel inst st).1 = none := by
  unfold readBody at h ⊢
  cases hr : Read env fuel inst.layout inst.value st with
  | error e' => simp
  | ok r => simp [hr] at h

theorem Length_imageInfo (info : List Nat × Nat × Nat) :
    Length [imageInfoLayout, ackLayout] 0 imageInfoLayout (imageInfoValue info)
      = .ok (4 + info.1.length + 4 + 4) := by
  have h1 : fieldLength [imageInfoLayout, ackLayout] (fun _ _ => .error .outOfFuel)
      (FieldLayout.mk (Field.mk ["ImageName"] (.ident "string")) StringFieldKind "ImageName"
        StringFieldKind "string") (.str info.1) = .ok (4 + info.1.length) := rfl
  have h2 : ∀ v, fieldLength [imageInfoLayout, ackLayout] (fun _ _ => .error .outOfFuel)
      (FieldLayout.mk (Field.mk ["ImageSize"] (.ident "uint32")) Uint32FieldKind "ImageSize"
        Uint32FieldKind "uint32") v = .ok 4 := fun _ => rfl
  have h3 : ∀ v, fieldLength [imageInfoLayout, ackLayout] (fun _ _ => .error .outOfFuel)
      (FieldLayout.mk (Field.mk ["NumSnapshot"] (.ident "uint32")) Uint32FieldKind "NumSnapshot"
        Uint32FieldKind "uint32") v = .ok 4 := fun _ => rfl
  have hk1 : ¬ imageInfoLayout.kind = SimplePacketKind := by decide
  have hk2 : ¬ (imageInfoLayout.kind = GenericPacketKind ∨ imageInfoLayout.kind = VLFPacketKind) := by
    decide
  have hk3 : imageInfoLayout.kind = StructKind := rfl
  have hf : imageInfoLayout.fields
      = [FieldLayout.mk (Field.mk ["ImageName"] (.ident "string")) StringFieldKind "ImageName"
          StringFieldKind "string",
         FieldLayout.mk (Field.mk ["ImageSize"] (.ident "uint32")) Uint32FieldKind "ImageSize"
          Uint32FieldKind "uint32",
         FieldLayout.mk (Field.mk ["NumSnapshot"] (.ident "uint32")) Uint32FieldKind "NumSnapshot"
          Uint32FieldKind "uint32"] := rfl
  simp only [Length, lengthMethod, imageInfoValue, if_neg hk1, if_neg hk2, if_pos hk3, hf,
    fieldsLength, h1, h2, h3]
  congr 1
  omega

theorem sumLengths_imageInfos (infos : List (List Nat × Nat × Nat)) :
    sumLengths (elemStructLength [imageInfoLayout, ackLayout]
        (Length [imageInfoLayout, ackLayout] 0) "ImageInfo") (infos.map imageInfoValue)
      = .ok (imageInfosSize infos) := by
  induction infos with
  | nil => rfl
  | cons info rest ih =>
    have hone : elemStructLength [imageInfoLayout, ackLayout]
        (Length [imageInfoLayout, ackLayout] 0) "ImageInfo" (imageInfoValue info)
          = .ok (4 + info.1.length + 4 + 4) := by
      have hl : lookupType [imageInfoLayout, ackLayout] "ImageInfo" = some imageInfoLayout := rfl
      simp only [elemStructLength, hl]
      exact Length_imageInfo info
    simp only [List.map_cons, sumLengths, hone, ih, imageInfosSize]

/-- Scenario A of the specification (supports C3): for every header and every list of
elements, `Length()` of a `QueryAllImageInfosAck` is 36 + 4 + the sum over the elements of
(4 + len(ImageName) + 4 + 4). -/
theorem Length_QueryAllImageInfosAck (h : PacketHeader) (infos : List (List Nat × Nat × Nat)) :
    Parse [imageInfoDecl, ackDecl] = .ok [imageInfoLayout, ackLayout] ∧
    Length [imageInfoLayout, ackLayout] 1 ackLayout (.struct (some h) [.seq (infos.map imageInfoValue)])
      = .ok (36 + 4 + imageInfosSize infos) := by
  refine ⟨rfl, ?_⟩
  have hf : ackLayout.fields
      = [FieldLayout.mk (Field.mk ["Infos"] (.arrayType none (.ident "ImageInfo")))
          SliceFieldKind "Infos" StructFieldKind "ImageInfo"] := rfl
  have hfield : fieldLength [imageInfoLayout, ackLayout] (Length [imageInfoLayout, ackLayout] 0)
      (FieldLayout.mk (Field.mk ["Infos"] (.arrayType none (.ident "ImageInfo")))
          SliceFieldKind "Infos" StructFieldKind "ImageInfo") (.seq (infos.map imageInfoValue))
        = .ok (4 + imageInfosSize infos) := by
    have hmap : FieldKindLengthMap SliceFieldKind = none := rfl
    have h1 : ¬ SliceFieldKind = StructFieldKind := by decide
    unfold fieldLength
    simp only [hmap, if_neg h1, if_true, sumLengths_imageInfos]
  have hkind1 : ¬ ackLayout.kind = SimplePacketKind := by decide
  have hkind2 : ackLayout.kind = GenericPacketKind ∨ ackLayout.kind = VLFPacketKind := Or.inr rfl
  have hstep : Length [imageInfoLayout, ackLayout] 1 ackLayout
      (.struct (some h) [.seq (infos.map imageInfoValue)])
        = lengthMethod [imageInfoLayout, ackLayout] (Length [imageInfoLayout, ackLayout] 0) ackLayout
            (.struct (some h) [.seq (infos.map imageInfoValue)]) := rfl
  rw [hstep]
  simp only [lengthMethod, if_neg hkind1, if_pos hkind2, hf, fieldsLength, hfield,
    PacketHeader.Length]
  congr 1
  omega

theorem lookup_cons_of_ne (name k : String) (v : FieldKind) (l : List (String × FieldKind))
    (h : name ≠ k) : List.lookup name ((k, v) :: l) = List.lookup name l := by
  have hb : (name == k) = false := by simpa using h
  simp only [List.lookup, hb]

theorem identKind_eq_specIdentKind (name : String) : identKind name = specIdentKind name := by
  unfold identKind specIdentKind scalarKinds
  by_cases h1 : name = "byte"
  · subst h1; rfl
  rw [if_neg h1, lookup_cons_of_ne _ _ _ _ h1]
  by_cases h2 : name = "uint8"
  · subst h2; rfl
  rw [if_neg h2, lookup_cons_of_ne _ _ _ _ h2]
  by_cases h3 : name = "uint16"
  · subst h3; rfl
  rw [if_neg h3, lookup_cons_of_ne _ _ _ _ h3]
  by_cases h4 : name = "uint32"
  · subst h4; rfl
  rw [if_neg h4, lookup_cons_of_ne _ _ _ _ h4]
  by_cases h5 : name = "uint64"
  · subst h5; rfl
  rw [if_neg h5, lookup_cons_of_ne _ _ _ _ h5]
  by_cases h6 : name = "int8"
  · subst h6; rfl
  rw [if_neg h6, lookup_cons_of_ne _ _ _ _ h6]
  by_cases h7 : name = "int16"
  · subst h7; rfl
  rw [if_neg h7, lookup_cons_of_ne _ _ _ _ h7]
  by_cases h8 : name = "int32"
  · subst h8; rfl
  rw [if_neg h8, lookup_cons_of_ne _ _ _ _ h8]
  by_cases h9 : name = "int64"
  · subst h9; rfl
  rw [if_neg h9, lookup_cons_of_ne _ _ _ _ h9]
  by_cases h10 : name = "string"
  · subst h10; rfl
  rw [if_neg h10, lookup_cons_of_ne _ _ _ _ h10]
  rfl

theorem subElementKindOf_eq_identKind (name : String) : subElementKindOf name = identKind name := by
  by_cases h : name = "struct"
  · subst h; rfl
  · unfold subElementKindOf identKind
    rw [if_neg h]

theorem subElementKindOf_eq_specIdentKind (name : String) :
    subElementKindOf name = specIdentKind name := by
  rw [subElementKindOf_eq_identKind, identKind_eq_specIdentKind]

/-- C11: for a field with a name the classifier returns Struct for an inline struct body,
the kind the specification gives an identifier (the scalar kind of a primitive keyword,
Struct for any other name) for an identifier, Array for `[N]T` and Slice for `[]T`
whatever `T` is; for a container whose element type is an identifier or a struct body
the element kind is the kind of that identifier, or Struct. -/
theorem field_classifier_kinds (name : String) (rest : List String) :
    (∀ body, ∃ fl, NewFieldLayout (Field.mk (name :: rest) (.structType body)) = .ok fl ∧
      fl.kind = StructFieldKind) ∧
    (∀ t, ∃ fl, NewFieldLayout (Field.mk (name :: rest) (.ident t)) = .ok fl ∧
      fl.kind = specIdentKind t) ∧
    (∀ len t, ∃ fl, NewFieldLayout (Field.mk (name :: rest) (.arrayType (some len) (.ident t)))
        = .ok fl ∧ fl.kind = ArrayFieldKind ∧ fl.subElementKind = specIdentKind t) ∧
    (∀ len body, ∃ fl,
      NewFieldLayout (Field.mk (name :: rest) (.arrayType (some len) (.structType body)))
        = .ok fl ∧ fl.kind = ArrayFieldKind ∧ fl.subElementKind = StructFieldKind) ∧
    (∀ t, ∃ fl, NewFieldLayout (Field.mk (name :: rest) (.arrayType none (.ident t)))
        = .ok fl ∧ fl.kind = SliceFieldKind ∧ fl.subElementKind = specIdentKind t) ∧
    (∀ body, ∃ fl,
      NewFieldLayout (Field.mk (name :: rest) (.arrayType none (.structType body)))
        = .ok fl ∧ fl.kind = SliceFieldKind ∧ fl.subElementKind = StructFieldKind) ∧
    (∀ len elt, ∃ fl, NewFieldLayout (Field.mk (name :: rest) (.arrayType (some len) elt)) = .ok fl ∧
      fl.kind = ArrayFieldKind) ∧
    (∀ elt, ∃ fl, NewFieldLayout (Field.mk (name :: rest) (.arrayType none elt)) = .ok fl ∧
      fl.kind = SliceFieldKind) := by
  refine ⟨?_, ?_, ?_, ?_, ?_, ?_, fun len elt => ⟨_, rfl, rfl⟩, fun elt => ⟨_, rfl, rfl⟩⟩
  · intro body
    exact ⟨_, rfl, rfl⟩
  · intro t
    exact ⟨_, rfl, identKind_eq_specIdentKind t⟩
  · intro len t
    exact ⟨_, rfl, rfl, subElementKindOf_eq_specIdentKind t⟩
  · intro len body
    exact ⟨_, rfl, rfl, rfl⟩
  · intro t
    exact ⟨_, rfl, rfl, subElementKindOf_eq_specIdentKind t⟩
  · intro body
    exact ⟨_, rfl, rfl, rfl⟩

theorem NewFieldLayout_unsupported (f : Field) (fname : String) (frest : List String)
    (hnames : f.Names = fname :: frest) (hshape : unsupportedShape f.Type_ = true) :
    NewFieldLayout f = .error (.err "invalid type") := by
  obtain ⟨names, typ⟩ := f
  simp only at hnames hshape
  subst hnames
  cases typ <;> first | rfl | (simp [unsupportedShape] at hshape)

theorem parseFieldLoop_error_of_mem (fields : List Field) (f : Field) (hmem : f ∈ fields)
    (hfail : ∃ e, NewFieldLayout f = .error e) (acc : List FieldLayout) :
    ∃ e, parseFieldLoop fields acc = .error e := by
  induction fields generalizing acc with
  | nil => cases hmem
  | cons x xs ih =>
    unfold parseFieldLoop
    by_cases hx : x.Names.length = 0
    · rw [if_pos hx]
      exact ⟨_, rfl⟩
    · simp only [hx, if_false]
      cases hnew : NewFieldLayout x with
      | error e => exact ⟨e, rfl⟩
      | ok fl =>
        simp only
        rcases List.mem_cons.mp hmem with rfl | hxs
        · obtain ⟨e, he⟩ := hfail
          rw [he] at hnew
          cases hnew
        · exact ih hxs _

theorem parseField_fields_ok (q p : PacketLayout) (s : StructType)
    (hsimple : q.kind ≠ SimplePacketKind) (hvlf : q.kind ≠ VLFPacketKind)
    (hst : q.structType = some s) (h : parseField q = .ok p) :
    parseFieldLoop s.Fields q.fields = .ok p.fields := by
  unfold parseField at h
  rw [if_neg hsimple, if_neg hvlf, hst] at h
  simp only at h
  split at h
  · cases h
  · rename_i fields hloop
    cases h
    exact hloop

/-- C12 (amended): a named field of an unsupported shape is not classified: `NewFieldLayout`
returns an error.  A struct declaration of a kind other than SimplePacket that declares
such a field fails to build, and `Parse` fails on every file that contains it, provided
that for a VLFPacket the field is the first one. -/
theorem unsupported_field_fails (decl : Decl) (a : Annot) (name : String) (s : StructType)
    (f : Field) (fname : String) (frest : List String)
    (hannot : parsePacketType decl = .ok a) (hinfo : parseStructInfo decl = .ok (name, some s))
    (hkind : a.kind ≠ SimplePacketKind)
    (hnames : f.Names = fname :: frest) (hshape : unsupportedShape f.Type_ = true)
    (hmem : f ∈ s.Fields) (hfirst : a.kind = VLFPacketKind → ∃ rest, s.Fields = f :: rest) :
    NewFieldLayout f = .error (.err "invalid type") ∧
    (∃ e, parseDecl decl = .error e) ∧
    ∀ pre post, ∃ e, Parse (pre ++ decl :: post) = .error e := by
  have hnew := NewFieldLayout_unsupported f fname frest hnames hshape
  have hfail : ∃ e, parseDecl decl = .error e := by
    cases hres : parseDecl decl with
    | error e => exact ⟨e, rfl⟩
    | ok p =>
      exfalso
      obtain ⟨a2, name2, st2, ha2, _, hinfo2, hp⟩ := (parseDecl_ok_iff decl p).mp hres
      rw [hannot] at ha2
      cases ha2
      rw [hinfo] at hinfo2
      cases hinfo2
      by_cases hv : a.kind = VLFPacketKind
      · obtain ⟨s2, f2, rest2, fl, hs, hf, hfl, _, _⟩ := parseField_VLF_ok _ p hv hp
        cases hs
        obtain ⟨rest, hrest⟩ := hfirst hv
        rw [hrest] at hf
        cases hf
        rw [hnew] at hfl
        cases hfl
      · have hloop := parseField_fields_ok _ p s hkind hv rfl hp
        obtain ⟨e, he⟩ := parseFieldLoop_error_of_mem s.Fields f hmem ⟨_, hnew⟩ []
        rw [he] at hloop
        cases hloop
  exact ⟨hnew, hfail, fun pre post => parseLoop_error_of_mem _ decl (by simp) hfail []⟩

theorem annotStep_eq (a : Annot) (comment : String) :
    annotStep a comment =
      match split (normalize comment) ':' with
      | head :: second :: _ =>
        match split second ',' with
        | p0 :: p1 :: _ =>
          Annot.mk (if head = "@simplepacket" then SimplePacketKind
            else if head = "@packet" then GenericPacketKind
            else if head = "@vlfpacket" then VLFPacketKind
            else a.kind) p0 (ParseInt p1).1 (ParseInt p1).2
        | _ =>
          Annot.mk (if head = "@simplepacket" then SimplePacketKind
            else if head = "@packet" then GenericPacketKind
            else if head = "@vlfpacket" then VLFPacketKind
            else a.kind) a.IDName a.ID a.err
      | _ => a := by
  unfold annotStep normalize
  rfl

theorem annotStep_congr (a : Annot) (s t : String) (h : normalize s = normalize t) :
    annotStep a s = annotStep a t := by
  rw [annotStep_eq, annotStep_eq, h]

theorem annotStep_of_matches (a b : Annot) (line : String) (h : matchesGrammar line = true) :
    annotStep a line = annotStep b line := by
  rw [annotStep_eq, annotStep_eq]
  unfold matchesGrammar at h
  generalize split (normalize line) ':' = segs at h ⊢
  rcases segs with _ | ⟨head, _ | ⟨second, tl⟩⟩
  · cases h
  · cases h
  · simp only [Bool.and_eq_true, decide_eq_true_eq] at h
    obtain ⟨hhead, hlen⟩ := h
    simp only
    generalize split second ',' = params at hlen ⊢
    rcases params with _ | ⟨p0, _ | ⟨p1, pt⟩⟩
    · simp at hlen
    · simp at hlen
    · rcases hhead with h1 | h1 | h1 <;> simp [h1]

theorem annotStep_no_colon (a : Annot) (line : String)
    (h : (split (normalize line) ':').length < 2) : annotStep a line = a := by
  rw [annotStep_eq]
  generalize split (normalize line) ':' = segs at h ⊢
  rcases segs with _ | ⟨head, _ | ⟨second, tl⟩⟩
  · rfl
  · rfl
  · simp only [List.length_cons] at h
    omega

theorem annotStep_err_of_idValue (a : Annot) (line t : String) (h : idValueText line = some t) :
    (annotStep a line).err = (ParseInt t).2 := by
  rw [annotStep_eq]
  unfold idValueText at h
  generalize split (normalize line) ':' = segs at h ⊢
  rcases segs with _ | ⟨head, _ | ⟨second, tl⟩⟩
  · cases h
  · cases h
  · simp only at h ⊢
    generalize split second ',' = params at h ⊢
    rcases params with _ | ⟨p0, _ | ⟨p1, pt⟩⟩
    · cases h
    · cases h
    · cases h
      rfl

theorem foldl_annotStep_no_colon (post : List String) (a : Annot)
    (h : ∀ l ∈ post, (split (normalize l) ':').length < 2) : post.foldl annotStep a = a := by
  induction post generalizing a with
  | nil => rfl
  | cons l ls ih =>
    rw [List.foldl_cons, annotStep_no_colon a l (h l (by simp))]
    exact ih a (fun x hx => h x (by simp [hx]))

/-- Supports C14: when a comment line matches the annotation grammar and only lines without a
colon follow it, the result of the classifier (kind, id name, id and error) is the result
for that line alone, whatever lines come before it. -/
theorem last_matching_line_wins (pre post : List String) (last : String) (specs : List Spec)
    (hlast : matchesGrammar last = true)
    (hpost : ∀ l ∈ post, (split (normalize l) ':').length < 2) :
    parsePacketType (.genDecl (some (pre ++ last :: post)) specs)
      = parsePacketType (.genDecl (some [last]) specs) := by
  simp only [parsePacketType, List.foldl_append, List.foldl_cons, List.foldl_nil]
  rw [foldl_annotStep_no_colon post _ hpost]
  rw [annotStep_of_matches _ (Annot.mk StructKind "" 0 none) last hlast]

theorem normalize_insertSpace (s : String) (i : Nat) : normalize (insertSpace s i) = normalize s := by
  have h : s.data = s.data.take i ++ s.data.drop i := (List.take_append_drop i s.data).symm
  unfold normalize removeChar toLower insertSpace
  simp only
  congr 1
  conv_rhs => rw [h]
  simp [List.filter_append, List.filter_cons]
  rw [← List.filter_append, List.take_append_drop]

theorem normalize_sameUpToCase (s t : String) (h : sameUpToCase s t) : normalize s = normalize t := by
  unfold sameUpToCase at h
  unfold normalize toLower
  rw [h]

theorem parseLoop_append (before rest : List Decl) (acc : List PacketLayout) :
    parseLoop (before ++ rest) acc =
      match parseLoop before acc with
      | .error e => .error e
      | .ok packets => parseLoop rest packets := by
  induction before generalizing acc with
  | nil => rfl
  | cons d ds ih =>
    simp only [List.cons_append, parseLoop]
    cases parseDecl d with
    | error e => rfl
    | ok layout => exact ih _

theorem parseDecl_error_of_annot_err (decl : Decl) (a : Annot) (e : String)
    (ha : parsePacketType decl = .ok a) (he : a.err = some e) :
    parseDecl decl = .error (.err e) := by
  simp [parseDecl, ha, he]

/-- C17 (amended): replacing a comment line by one that differs only in the case of letters,
or by the line with a space inserted, leaves the result of the classifier unchanged:
kind, id name, id and error. -/
theorem annotation_ignores_case_and_spaces (pre post : List String) (s t : String)
    (specs : List Spec) (h : sameUpToCase s t ∨ ∃ i, t = insertSpace s i) :
    parsePacketType (.genDecl (some (pre ++ s :: post)) specs)
      = parsePacketType (.genDecl (some (pre ++ t :: post)) specs) := by
  have hn : normalize s = normalize t := by
    rcases h with h | ⟨i, rfl⟩
    · exact normalize_sameUpToCase s t h
    · exact (normalize_insertSpace s i).symm
  simp only [parsePacketType, List.foldl_append, List.foldl_cons]
  rw [annotStep_congr _ s t hn]

/-- C19: on an instance whose `Length()` is `n`, the `AdjustLength` of a SimplePacket,
GenericPacket or VLFPacket type stores `n` modulo 2^32 in `Len` and leaves the other header
fields and the body fields as they were; the `AdjustLength` of a Struct-kind type returns
every receiver unchanged. -/
theorem AdjustLength_stores_Length (env : List PacketLayout) (fuel : Nat) (p : PacketLayout)
    (h : PacketHeader) (fields : List Value) (n : Nat)
    (hlen : Length env fuel p (.struct (some h) fields) = .ok n) :
    ((p.kind = SimplePacketKind ∨ p.kind = GenericPacketKind ∨ p.kind = VLFPacketKind) →
      AdjustLength env fuel p (.struct (some h) fields)
        = .ok (.struct (some (PacketHeader.mk h.ID h.PacketType (n % 2 ^ 32) h.Version h.Ack h.Token))
            fields)) ∧
    (p.kind = StructKind → ∀ v, AdjustLength env fuel p v = .ok v) := by
  constructor
  · intro hkind
    have hstore : storeLength env fuel p (.struct (some h) fields)
        = .ok (.struct (some (PacketHeader.mk h.ID h.PacketType (n % 2 ^ 32) h.Version h.Ack h.Token))
            fields) := by
      simp [storeLength, hlen, setLen]
    unfold AdjustLength
    rcases hkind with hk | hk | hk
    · rw [if_pos hk, hstore]
    · have h1 : ¬ p.kind = SimplePacketKind := by rw [hk]; decide
      have h2 : p.kind ≠ StructKind := by rw [hk]; decide
      rw [if_neg h1, if_pos (Or.inl hk), if_pos h2, hstore]
    · have h1 : ¬ p.kind = SimplePacketKind := by rw [hk]; decide
      have h2 : p.kind ≠ StructKind := by rw [hk]; decide
      rw [if_neg h1, if_pos (Or.inr (Or.inl hk)), if_pos h2, hstore]
  · intro hk v
    have h1 : ¬ p.kind = SimplePacketKind := by rw [hk]; decide
    unfold AdjustLength
    rw [if_neg h1, if_pos (Or.inr (Or.inr hk))]
    simp [hk]

theorem generateStruct_members (q : PacketLayout) (ms : List Member)
    (h : generateStruct q = .ok ms) : Member.newFunc ∉ ms := by
  unfold generateStruct at h
  split at h
  · cases h
  · cases h
    decide

theorem parseFieldLoop_names (fields : List Field) (acc r : List FieldLayout)
    (h : parseFieldLoop fields acc = .ok r) :
    r.map (fun fl => some fl.name)
      = acc.map (fun fl => some fl.name) ++ fields.map (fun f => f.Names.head?) := by
  induction fields generalizing acc with
  | nil =>
    simp only [parseFieldLoop] at h
    cases h
    simp
  | cons x xs ih =>
    unfold parseFieldLoop at h
    split at h
    · cases h
    · split at h
      · cases h
      · rename_i fl hfl
        rw [ih _ h]
        obtain ⟨_, hhead⟩ := NewFieldLayout_field x fl hfl
        simp [hhead]

/-- Supports C13: the layout built for a Struct or GenericPacket declaration has one field for
each entry of the declared field list, in order, under the first name of the entry. -/
theorem layout_keeps_first_name_of_each_entry (decl : Decl) (p : PacketLayout) (s : StructType)
    (hbuilt : parseDecl decl = .ok p) (hst : p.structType = some s)
    (hkind : p.kind = StructKind ∨ p.kind = GenericPacketKind) :
    p.fields.map (fun fl => some fl.name) = s.Fields.map (fun f => f.Names.head?) := by
  obtain ⟨a, name, st, _, _, _, hp⟩ := (parseDecl_ok_iff decl p).mp hbuilt
  obtain ⟨hst2, hk, _, _, _⟩ := parseField_frame _ p hp
  simp only at hst2 hk
  have h1 : a.kind ≠ SimplePacketKind := by
    rw [← hk]; rcases hkind with h | h <;> rw [h] <;> decide
  have h2 : a.kind ≠ VLFPacketKind := by
    rw [← hk]; rcases hkind with h | h <;> rw [h] <;> decide
  have hs : st = some s := by rw [← hst2, hst]
  have hloop := parseField_fields_ok _ p s h1 h2 hs hp
  simpa using parseFieldLoop_names _ _ _ hloop

theorem Read_arr_fails (t : String) (k : FieldKind)
    (hk : k = ByteFieldKind ∨ k = Int8FieldKind ∨ k = Uint8FieldKind) (fuel : Nat) (recv : Value)
    (st : Stream) : ∃ e, Read [arrLayout t k] fuel (arrLayout t k) recv st = .error e := by
  have key : ∀ call, ∃ e, readMethod [arrLayout t k] call (arrLayout t k) recv st = .error e := by
    intro call
    rcases hk with rfl | rfl | rfl <;>
    · cases recv with
      | struct header fields =>
        cases fields with
        | nil => exact ⟨_, rfl⟩
        | cons cur rest => exact ⟨_, rfl⟩
      | uint n => exact ⟨_, rfl⟩
      | int i => exact ⟨_, rfl⟩
      | str bytes => exact ⟨_, rfl⟩
      | seq elems => exact ⟨_, rfl⟩
  cases fuel with
  | zero => exact key _
  | succ n => exact key _

/-- C18: for the array fields `Code [2]byte`, `Code [2]int8` and `Code [2]uint8` the emitted
`Read` returns no value on any receiver and stream, because the block refers to `size`,
which is declared only for a slice; `Write` of the `int8` array emits the two elements
with no count.  For `Code [2]uint16` both directions work. -/
theorem Read_of_byte_sized_array_fails :
    Parse [arrDecl "byte"] = .ok [arrLayout "byte" ByteFieldKind] ∧
    Parse [arrDecl "int8"] = .ok [arrLayout "int8" Int8FieldKind] ∧
    Parse [arrDecl "uint8"] = .ok [arrLayout "uint8" Uint8FieldKind] ∧
    (∀ fuel recv st, ∃ e,
      Read [arrLayout "byte" ByteFieldKind] fuel (arrLayout "byte" ByteFieldKind) recv st = .error e) ∧
    (∀ fuel recv st, ∃ e,
      Read [arrLayout "int8" Int8FieldKind] fuel (arrLayout "int8" Int8FieldKind) recv st = .error e) ∧
    (∀ fuel recv st, ∃ e,
      Read [arrLayout "uint8" Uint8FieldKind] fuel (arrLayout "uint8" Uint8FieldKind) recv st
        = .error e) ∧
    Write [arrLayout "int8" Int8FieldKind] 0 (arrLayout "int8" Int8FieldKind)
      (.struct none [.seq [.int 1, .int (-2)]]) = .ok [1, 254] ∧
    Write [arrLayout "uint16" Uint16FieldKind] 0 (arrLayout "uint16" Uint16FieldKind)
      (.struct none [.seq [.uint 1, .uint 2]]) = .ok [0, 1, 0, 2] ∧
    Read [arrLayout "uint16" Uint16FieldKind] 0 (arrLayout "uint16" Uint16FieldKind)
      (.struct none [.seq [.uint 0, .uint 0]]) [0, 1, 0, 2]
        = .ok (.struct none [.seq [.uint 1, .uint 2]], []) :=
  ⟨rfl, rfl, rfl, Read_arr_fails "byte" _ (Or.inl rfl), Read_arr_fails "int8" _ (Or.inr (Or.inl rfl)),
    Read_arr_fails "uint8" _ (Or.inr (Or.inr rfl)), rfl, rfl, rfl⟩

/-- C12 counterexample: a VLFPacket whose second field is a map builds; the map field is not
classified. -/
theorem unsupported_second_field_of_VLFPacket_builds :
    unsupportedShape (.mapType (.ident "string") (.ident "int")) = true ∧
    parseStructInfo vlfMapSecondDecl
      = .ok ("QueryAllImageInfosAck",
          some (StructType.mk [Field.mk ["Infos"] (.arrayType none (.ident "ImageInfo")),
            Field.mk ["M"] (.mapType (.ident "string") (.ident "int"))])) ∧
    Parse [vlfMapSecondDecl] = .ok [vlfMapSecondLayout] :=
  ⟨rfl, rfl, rfl⟩

/-- C12 witness: the struct `WithMap` with the field `M map[string]int`. -/
theorem unsupported_field_fails_witness :
    NewFieldLayout (Field.mk ["M"] (.mapType (.ident "string") (.ident "int")))
      = .error (.err "invalid type") ∧
    (∃ e, parseDecl withMapDecl = .error e) ∧
    ∀ pre post, ∃ e, Parse (pre ++ withMapDecl :: post) = .error e :=
  unsupported_field_fails withMapDecl (Annot.mk StructKind "" 0 none) "WithMap"
    (StructType.mk [Field.mk ["A"] (.ident "uint32"),
      Field.mk ["M"] (.mapType (.ident "string") (.ident "int"))])
    (Field.mk ["M"] (.mapType (.ident "string") (.ident "int"))) "M" []
    rfl rfl (by decide) rfl rfl
    (List.mem_cons_of_mem _ (List.mem_cons_self _ _))
    (fun h => absurd h (by decide))

/-- C13: for `type Pair struct { A, B uint32 }` the declared names are `A` and `B`, and the
layout that is built has the field `A` alone. -/
theorem second_name_of_field_entry_is_dropped :
    parseStructInfo pairDecl
      = .ok ("Pair", some (StructType.mk [Field.mk ["A", "B"] (.ident "uint32")])) ∧
    Parse [pairDecl] = .ok [pairLayout] ∧
    pairLayout.fields.map (fun fl => fl.name) = ["A"] :=
  ⟨rfl, rfl, rfl⟩

/-- Supports C14: a SimplePacket line, then a Packet line, then a remark without a colon. -/
theorem last_matching_line_wins_example :
    matchesGrammar "// @Packet: PKT_B, 0x10" = true ∧
    parsePacketType
        (.genDecl (some (["// @SimplePacket: PKT_A, 1"] ++ "// @Packet: PKT_B, 0x10"
          :: ["// trailing remark"])) [])
      = parsePacketType (.genDecl (some ["// @Packet: PKT_B, 0x10"]) []) ∧
    parsePacketType (.genDecl (some ["// @Packet: PKT_B, 0x10"]) [])
      = .ok (Annot.mk GenericPacketKind "pkt_b" 16 none) :=
  ⟨rfl,
    last_matching_line_wins ["// @SimplePacket: PKT_A, 1"] ["// trailing remark"]
      "// @Packet: PKT_B, 0x10" [] rfl
      (by
        intro l hl
        rw [List.mem_singleton] at hl
        subst hl
        decide),
    rfl⟩

/-- C15: a comment line that does not match the annotation grammar is not ignored.  Under
the line `// Note: see header, v2` the classifier returns the id name `seeheader` and the
error of parsing `v2`, and `Parse` fails, while the same struct without the line builds as
a Struct kind; the line `// @Packet: PKT_A`, which has no id part, sets the kind. -/
theorem ordinary_comment_line_is_not_ignored :
    matchesGrammar "// Note: see header, v2" = false ∧
    parsePacketType noteDecl = .ok (Annot.mk StructKind "seeheader" 0 (some "invalid syntax")) ∧
    parsePacketType plainDecl = .ok (Annot.mk StructKind "" 0 none) ∧
    Parse [noteDecl] = .error (.err "invalid syntax") ∧
    Parse [plainDecl] = .ok [plainLayout] ∧
    matchesGrammar "// @Packet: PKT_A" = false ∧
    parsePacketType kindOnlyDecl = .ok (Annot.mk GenericPacketKind "" 0 none) :=
  ⟨rfl, rfl, rfl, rfl, rfl, rfl, rfl⟩

/-- C16 counterexample: the first annotation line has the malformed id `zz`, the second line
is well formed; classification succeeds and `Parse` and `Generate` return a result. -/
theorem malformed_id_followed_by_good_line_builds :
    matchesGrammar "// @Packet: PKT_A, zz" = true ∧
    idValueText "// @Packet: PKT_A, zz" = some "zz" ∧
    (ParseInt "zz").2 = some "invalid syntax" ∧
    parsePacketType badThenGoodDecl = .ok (Annot.mk GenericPacketKind "pkt_b" 1 none) ∧
    Parse [badThenGoodDecl] = .ok [badThenGoodLayout] ∧
    (∃ g, Generate [badThenGoodDecl] = .ok g) :=
  ⟨rfl, rfl, rfl, rfl, rfl, ⟨_, rfl⟩⟩

/-- C17 counterexample: a tab before the kind keyword changes the classified kind. -/
theorem tab_changes_the_kind :
    parsePacketType (.genDecl (some ["// @Packet: PKT_A, 1"]) [])
      = .ok (Annot.mk GenericPacketKind "pkt_a" 1 none) ∧
    parsePacketType (.genDecl (some ["//\t@Packet: PKT_A, 1"]) [])
      = .ok (Annot.mk StructKind "pkt_a" 1 none) :=
  ⟨rfl, rfl⟩

/-- C17 witness: the same line in another letter case, and with a space inserted. -/
theorem annotation_ignores_case_and_spaces_witness :
    sameUpToCase "// @Packet: PKT_A, 1" "// @PACKET: pkt_a, 1" ∧
    parsePacketType (.genDecl (some ([] ++ "// @Packet: PKT_A, 1" :: [])) [])
      = parsePacketType (.genDecl (some ([] ++ "// @PACKET: pkt_a, 1" :: [])) []) ∧
    insertSpace "// @Packet: PKT_A, 1" 6 = "// @Pa cket: PKT_A, 1" ∧
    parsePacketType (.genDecl (some ([] ++ "// @Packet: PKT_A, 1" :: [])) [])
      = parsePacketType (.genDecl (some ([] ++ insertSpace "// @Packet: PKT_A, 1" 6 :: [])) []) :=
  ⟨rfl,
    annotation_ignores_case_and_spaces [] [] "// @Packet: PKT_A, 1" "// @PACKET: pkt_a, 1" []
      (Or.inl rfl),
    rfl,
    annotation_ignores_case_and_spaces [] [] "// @Packet: PKT_A, 1"
      (insertSpace "// @Packet: PKT_A, 1" 6) [] (Or.inr ⟨6, rfl⟩)⟩

/-- C19 witness: `AdjustLength` on a `Ping` stores 36 in `Len`. -/
theorem AdjustLength_stores_Length_witness :
    Length [pingLayout] 0 pingLayout (.struct (some pingHeader) []) = .ok 36 ∧
    AdjustLength [pingLayout] 0 pingLayout (.struct (some pingHeader) [])
      = .ok (.struct (some (PacketHeader.mk 7 1 36 0 0 9)) []) :=
  ⟨rfl,
    (AdjustLength_stores_Length [pingLayout] 0 pingLayout pingHeader [] 36 rfl).1 (Or.inl rfl)⟩

/-- C21: `Parse` aborts with a run-time panic instead of returning layouts or an error: on a
function declaration through the type assertion `decl.(*ast.GenDecl)`; on an import, a
constant or variable declaration and a type declaration that is not a struct through the
nil `structType`; on a VLFPacket whose first field is embedded through `field.Names[0]`;
and on a file whose second declaration is an import. -/
theorem Parse_panics :
    Parse [mainFuncDecl] = .error (.panic "interface conversion: ast.Decl is not *ast.GenDecl") ∧
    Parse [importDecl] = .error (.panic "nil pointer dereference") ∧
    Parse [valueDecl] = .error (.panic "nil pointer dereference") ∧
    Parse [namedTypeDecl] = .error (.panic "nil pointer dereference") ∧
    Parse [vlfEmbeddedDecl] = .error (.panic "index out of range [0] with length 0") ∧
    Parse [imageInfoDecl, importDecl] = .error (.panic "nil pointer dereference") :=
  ⟨rfl, rfl, rfl, rfl, rfl, rfl⟩

/-- C22: a field declared as a container of a container of `T` is accepted, and its layout
has the kind of the outer container (Slice without a bound, Array with one) and the kind,
element kind, element type name and name of the layout of the single-level container of
`T` with the same outer shape, for every element type `T`. -/
theorem nested_container_classified_as_single (name : String) (rest : List String)
    (outer inner : Option Expr) (elt : Expr) :
    ∃ fl2 fl1,
      NewFieldLayout (Field.mk (name :: rest) (.arrayType outer (.arrayType inner elt))) = .ok fl2 ∧
      NewFieldLayout (Field.mk (name :: rest) (.arrayType outer elt)) = .ok fl1 ∧
      fl2.kind = (if outer.isNone then SliceFieldKind else ArrayFieldKind) ∧
      fl2.kind = fl1.kind ∧ fl2.subElementKind = fl1.subElementKind ∧
      fl2.fieldType = fl1.fieldType ∧ fl2.name = fl1.name :=
  ⟨_, _, rfl, rfl, rfl, rfl, rfl, rfl, rfl⟩

theorem identKind_mem_elementKinds (name : String) : identKind name ∈ elementKinds := by
  unfold identKind
  split_ifs <;> decide

theorem subElementKindOf_mem_elementKinds (name : String) :
    subElementKindOf name ∈ elementKinds := by
  rw [subElementKindOf_eq_identKind]
  exact identKind_mem_elementKinds name

theorem elementKinds_subset (k : FieldKind) (h : k ∈ elementKinds) : k ∈ fieldKinds := by
  simp only [elementKinds, List.mem_cons, List.mem_singleton, List.not_mem_nil, or_false] at h
  rcases h with h | h | h | h | h | h | h | h | h | h | h <;> subst h <;> decide

/-- C23: in every field layout the classifier returns, the kind is one of the thirteen field
kinds, the element kind is one of the eleven kinds that are not containers, and when the
kind is neither Slice nor Array the element kind equals the kind. -/
theorem field_layout_kinds (f : Field) (fl : FieldLayout) (h : NewFieldLayout f = .ok fl) :
    fl.kind ∈ fieldKinds ∧ fl.subElementKind ∈ elementKinds ∧
    (fl.kind ≠ SliceFieldKind → fl.kind ≠ ArrayFieldKind → fl.subElementKind = fl.kind) := by
  obtain ⟨names, typ⟩ := f
  cases names with
  | nil => cases h
  | cons name rest =>
    cases typ with
    | structType body =>
      cases h
      refine ⟨?_, ?_, fun _ _ => rfl⟩
      · show StructFieldKind ∈ fieldKinds
        decide
      · show StructFieldKind ∈ elementKinds
        decide
    | arrayType len elt =>
      cases h
      refine ⟨?_, subElementKindOf_mem_elementKinds _, ?_⟩
      · cases len
        · show SliceFieldKind ∈ fieldKinds
          decide
        · show ArrayFieldKind ∈ fieldKinds
          decide
      · intro h1 h2
        cases len
        · exact absurd rfl h1
        · exact absurd rfl h2
    | ident t =>
      cases h
      refine ⟨elementKinds_subset _ (identKind_mem_elementKinds t),
        subElementKindOf_mem_elementKinds _, fun _ _ => subElementKindOf_eq_identKind t⟩
    | basicLit v => cases h
    | sliceExpr x => cases h
    | starExpr x => cases h
    | selectorExpr x sel => cases h
    | mapType k v => cases h
    | funcType => cases h
    | interfaceType => cases h
    | chanType v => cases h
    | ellipsis => cases h

/-- C24: a named slice or array field whose element type is not an identifier, a struct body,
an array or slice type (nor a slice expression, which is not a type) is classified without
error: the kind is Slice or Array by the bound, the element kind is Struct and the element
type name is `unknown`. -/
theorem container_of_other_element_is_unknown (name : String) (rest : List String)
    (len : Option Expr) (elt : Expr) (hshape : unsupportedShape elt = true)
    (htype : ∀ x, elt ≠ .sliceExpr x) :
    ∃ fl, NewFieldLayout (Field.mk (name :: rest) (.arrayType len elt)) = .ok fl ∧
      fl.kind = (if len.isNone then SliceFieldKind else ArrayFieldKind) ∧
      fl.subElementKind = StructFieldKind ∧ fl.fieldType = "unknown" := by
  cases elt with
  | structType body => simp [unsupportedShape] at hshape
  | arrayType l e => simp [unsupportedShape] at hshape
  | ident t => simp [unsupportedShape] at hshape
  | sliceExpr x => exact absurd rfl (htype x)
  | basicLit v => exact ⟨_, rfl, rfl, rfl, rfl⟩
  | starExpr x => exact ⟨_, rfl, rfl, rfl, rfl⟩
  | selectorExpr x sel => exact ⟨_, rfl, rfl, rfl, rfl⟩
  | mapType k v => exact ⟨_, rfl, rfl, rfl, rfl⟩
  | funcType => exact ⟨_, rfl, rfl, rfl, rfl⟩
  | interfaceType => exact ⟨_, rfl, rfl, rfl, rfl⟩
  | chanType v => exact ⟨_, rfl, rfl, rfl, rfl⟩
  | ellipsis => exact ⟨_, rfl, rfl, rfl, rfl⟩

/-- C25: for a Struct-kind field whose type name is declared as a packet type `P`, the block
of the enclosing `Write` emits the 24 header bytes of the field value followed by the bytes
of the fields of `P` (the header alone when `P` is a SimplePacket), the enclosing
`Length()` counts 36 plus the fields of `P`, and the block of the enclosing `Read` reads
the fields of `P` only and leaves the header of the field value as it was (it reads nothing
when `P` is a SimplePacket). -/
theorem packet_typed_field_is_written_with_header_and_read_without (env : List PacketLayout)
    (f : FieldLayout) (P : PacketLayout) (n : Nat) (h : PacketHeader) (fs : List Value)
    (st : Stream) (hk : f.kind = StructFieldKind) (hl : lookupType env f.fieldType = some P)
    (hP : P.kind = SimplePacketKind ∨ P.kind = GenericPacketKind ∨ P.kind = VLFPacketKind) :
    writeField env (Write env (n + 1)) f (.struct (some h) fs)
      = (if P.kind = SimplePacketKind then .ok h.Write
         else match writeFields env (Write env n) P.fields fs with
           | .error e => .error e
           | .ok bs => .ok (h.Write ++ bs)) ∧
    h.Write.length = 24 ∧
    fieldLength env (Length env (n + 1)) f (.struct (some h) fs)
      = (if P.kind = SimplePacketKind then .ok 36
         else fieldsLength env (Length env n) P.fields fs 36) ∧
    readField env (Read env (n + 1)) f (.struct (some h) fs) st
      = (if P.kind = SimplePacketKind then .ok (.struct (some h) fs, st)
         else match readFields env (Read env n) P.fields fs st with
           | .error e => .error e
           | .ok (vs, st2) => .ok (.struct (some h) vs, st2)) := by
  have hmap : FieldKindLengthMap f.kind = none := by rw [hk]; rfl
  have hw : writeField env (Write env (n + 1)) f (.struct (some h) fs)
      = writeMethod env (Write env n) P (.struct (some h) fs) := by
    simp only [writeField, hk, if_true, writeStructRef, hl]
    rfl
  have hlen : fieldLength env (Length env (n + 1)) f (.struct (some h) fs)
      = lengthMethod env (Length env n) P (.struct (some h) fs) := by
    simp only [fieldLength, hmap, hk, if_true, elemStructLength, hl]
    rfl
  have hr : readField env (Read env (n + 1)) f (.struct (some h) fs) st
      = readMethod env (Read env n) P (.struct (some h) fs) st := by
    simp only [readField, hk, if_true, readStructRef, hl]
    rfl
  rw [hw, hlen, hr]
  refine ⟨?_, PacketHeader_Write_length h, ?_, ?_⟩
  · rcases hP with hs | hg | hv
    · simp [writeMethod, hs]
    · have h1 : ¬ P.kind = SimplePacketKind := by rw [hg]; decide
      simp only [writeMethod, if_neg h1, hg, true_or, if_true]
    · have h1 : ¬ P.kind = SimplePacketKind := by rw [hv]; decide
      simp only [writeMethod, if_neg h1, hv, or_true, if_true]
  · rcases hP with hs | hg | hv
    · simp [lengthMethod, hs, PacketHeader.Length]
    · have h1 : ¬ P.kind = SimplePacketKind := by rw [hg]; decide
      simp only [lengthMethod, if_neg h1, hg, true_or, if_true, PacketHeader.Length]
    · have h1 : ¬ P.kind = SimplePacketKind := by rw [hv]; decide
      simp only [lengthMethod, if_neg h1, hv, or_true, if_true, PacketHeader.Length]
  · rcases hP with hs | hg | hv
    · simp [readMethod, hs]
    · have h1 : ¬ P.kind = SimplePacketKind := by rw [hg]; decide
      simp only [readMethod, if_neg h1, hg, true_or, if_true]
    · have h1 : ¬ P.kind = SimplePacketKind := by rw [hv]; decide
      simp only [readMethod, if_neg h1, hv, true_or, or_true, if_true]

/-- C25 witness: `Session` has the field `Req Login`, `Login` a GenericPacket with two
`uint32` fields.  `Write` emits 32 bytes for the field (24 of the header of `Req`, 8 of its
fields) and `Length()` counts 44; `Read` consumes the first 8 of the 32 bytes, stores the
header words 1 and 3 as the fields and leaves the header of `Req` zero. -/
theorem packet_typed_field_is_written_with_header_and_read_without_witness :
    Parse [loginDecl, sessionDecl] = .ok [loginLayout, sessionLayout] ∧
    lookupType [loginLayout, sessionLayout] "Login" = some loginLayout ∧
    writeField [loginLayout, sessionLayout] (Write [loginLayout, sessionLayout] (0 + 1))
        (FieldLayout.mk (Field.mk ["Req"] (.ident "Login")) StructFieldKind "Req" StructFieldKind
          "Login") (.struct (some loginHeader) [.uint 2, .uint 5])
      = (if loginLayout.kind = SimplePacketKind then .ok loginHeader.Write
         else match writeFields [loginLayout, sessionLayout] (Write [loginLayout, sessionLayout] 0)
             loginLayout.fields [.uint 2, .uint 5] with
           | .error e => .error e
           | .ok bs => .ok (loginHeader.Write ++ bs)) ∧
    Write [loginLayout, sessionLayout] 2 sessionLayout sessionValue
      = .ok ([0, 0, 0, 1, 0, 0, 0, 3, 0, 0, 0, 0, 0, 0, 0, 0, 0, 0, 0, 0, 0, 0, 0, 0]
          ++ [0, 0, 0, 2, 0, 0, 0, 5]) ∧
    Length [loginLayout, sessionLayout] 2 sessionLayout sessionValue = .ok 44 ∧
    Read [loginLayout, sessionLayout] 2 sessionLayout
        (.struct none [.struct (some zeroHeader) [.uint 0, .uint 0]])
        ([0, 0, 0, 1, 0, 0, 0, 3, 0, 0, 0, 0, 0, 0, 0, 0, 0, 0, 0, 0, 0, 0, 0, 0]
          ++ [0, 0, 0, 2, 0, 0, 0, 5])
      = .ok (.struct none [.struct (some zeroHeader) [.uint 1, .uint 3]],
          [0, 0, 0, 0, 0, 0, 0, 0, 0, 0, 0, 0, 0, 0, 0, 0] ++ [0, 0, 0, 2, 0, 0, 0, 5]) :=
  ⟨rfl, rfl,
    (packet_typed_field_is_written_with_header_and_read_without [loginLayout, sessionLayout]
      (FieldLayout.mk (Field.mk ["Req"] (.ident "Login")) StructFieldKind "Req" StructFieldKind
        "Login") loginLayout 0 loginHeader [.uint 2, .uint 5] [] rfl rfl (Or.inr (Or.inl rfl))).1,
    rfl, rfl, rfl⟩

/-- C23 witness: the layout of the field `Infos []ImageInfo`. -/
theorem field_layout_kinds_witness :
    NewFieldLayout (Field.mk ["Infos"] (.arrayType none (.ident "ImageInfo")))
      = .ok (FieldLayout.mk (Field.mk ["Infos"] (.arrayType none (.ident "ImageInfo")))
          SliceFieldKind "Infos" StructFieldKind "ImageInfo") ∧
    SliceFieldKind ∈ fieldKinds ∧ StructFieldKind ∈ elementKinds :=
  ⟨rfl,
    (field_layout_kinds (Field.mk ["Infos"] (.arrayType none (.ident "ImageInfo")))
      (FieldLayout.mk (Field.mk ["Infos"] (.arrayType none (.ident "ImageInfo")))
          SliceFieldKind "Infos" StructFieldKind "ImageInfo") rfl).1,
    (field_layout_kinds (Field.mk ["Infos"] (.arrayType none (.ident "ImageInfo")))
      (FieldLayout.mk (Field.mk ["Infos"] (.arrayType none (.ident "ImageInfo")))
          SliceFieldKind "Infos" StructFieldKind "ImageInfo") rfl).2.1⟩

/-- C24 witness: the field `Ptrs []*Node`. -/
theorem container_of_other_element_is_unknown_witness :
    unsupportedShape (.starExpr (.ident "Node")) = true ∧
    ∃ fl, NewFieldLayout (Field.mk ("Ptrs" :: []) (.arrayType none (.starExpr (.ident "Node"))))
        = .ok fl ∧
      fl.kind = (if (none : Option Expr).isNone then SliceFieldKind else ArrayFieldKind) ∧
      fl.subElementKind = StructFieldKind ∧ fl.fieldType = "unknown" :=
  ⟨rfl,
    container_of_other_element_is_unknown "Ptrs" [] none (.starExpr (.ident "Node")) rfl
      (fun _ hx => Expr.noConfusion hx)⟩

/-! ### VLFPacket declarations (C6) -/

theorem NewFieldLayout_error_of_named (f : Field) (e : Fault) (hn : f.Names ≠ [])
    (h : NewFieldLayout f = .error e) : e = .err "invalid type" := by
  obtain ⟨names, ty⟩ := f
  cases names with
  | nil => exact absurd rfl hn
  | cons name rest =>
    cases ty <;> simp [NewFieldLayout, parseFieldKind] at h <;> exact h.symm

theorem parseField_VLF_eq (q : PacketLayout) (s : StructType) (hkind : q.kind = VLFPacketKind)
    (hs : q.structType = some s) :
    parseField q =
      match s.Fields with
      | [] => .error (.err "VLFPacket Must have a slice field,")
      | field :: _ =>
        match NewFieldLayout field with
        | .error e => .error e
        | .ok fieldLayout =>
          if fieldLayout.kind ≠ SliceFieldKind then .error (.err "VLFPacket Must have a slice field,")
          else .ok (PacketLayout.mk q.structType q.kind q.name q.id q.idname (q.fields ++ [fieldLayout])) := by
  have h0 : ¬ q.kind = SimplePacketKind := by rw [hkind]; decide
  unfold parseField
  rw [if_neg h0, if_pos hkind, hs]

theorem Parse_stops_at (decl : Decl) (e : Fault) (h : parseDecl decl = .error e)
    (before after : List Decl) (packets : List PacketLayout)
    (hbefore : parseLoop before [] = .ok packets) :
    Parse (before ++ decl :: after) = .error e := by
  unfold Parse
  rw [parseLoop_append, hbefore]
  simp only [parseLoop, h]

theorem Generate_error_of_Parse_error (decls : List Decl) (e : Fault)
    (h : Parse decls = .error e) : Generate decls = .error e := by
  simp [Generate, h]

/-- C6 (amended): a struct declaration that the classifier accepts as a VLFPacket fails to
build, with an error and not a crash, when it has no field or when its first field is named
and the field classifier rejects it or gives it a kind other than Slice: the declaration
fails with the message `VLFPacket Must have a slice field,` or `invalid type`, `Parse`
returns that error as soon as the declarations before it are built, and neither `Parse` nor
`Generate` returns a result for any file that contains the declaration.  When the first
field is classified as Slice the declaration builds, whatever fields follow it, into a
layout with that one field. -/
theorem VLFPacket_build_fails (decl : Decl) (a : Annot) (name : String) (s : StructType)
    (hannot : parsePacketType decl = .ok a) (hkind : a.kind = VLFPacketKind)
    (herr : a.err = none) (hinfo : parseStructInfo decl = .ok (name, some s)) :
    ((s.Fields = [] ∨ ∃ f rest, s.Fields = f :: rest ∧ f.Names ≠ [] ∧
          ∀ fl, NewFieldLayout f = .ok fl → fl.kind ≠ SliceFieldKind) →
      ∃ msg, (msg = "VLFPacket Must have a slice field," ∨ msg = "invalid type") ∧
        parseDecl decl = .error (.err msg) ∧
        (∀ before after packets, parseLoop before [] = .ok packets →
          Parse (before ++ decl :: after) = .error (.err msg)) ∧
        (∀ before after, ∃ e, Parse (before ++ decl :: after) = .error e) ∧
        (∀ before after, ∃ e, Generate (before ++ decl :: after) = .error e)) ∧
    (∀ f rest fl, s.Fields = f :: rest → NewFieldLayout f = .ok fl → fl.kind = SliceFieldKind →
      parseDecl decl = .ok (PacketLayout.mk (some s) VLFPacketKind name a.ID a.IDName [fl])) := by
  have hdecl : parseDecl decl
      = parseField (PacketLayout.mk (some s) a.kind name a.ID a.IDName []) := by
    simp [parseDecl, hannot, herr, hinfo]
  have hfield := parseField_VLF_eq (PacketLayout.mk (some s) a.kind name a.ID a.IDName []) s hkind rfl
  rw [← hdecl] at hfield
  constructor
  · intro hbad
    have hmsg : ∃ msg, (msg = "VLFPacket Must have a slice field," ∨ msg = "invalid type") ∧
        parseDecl decl = .error (.err msg) := by
      rcases hbad with hnil | ⟨f, rest, hf, hnamed, hcls⟩
      · refine ⟨_, Or.inl rfl, ?_⟩
        rw [hfield, hnil]
      · rw [hf] at hfield
        simp only at hfield
        cases hnew : NewFieldLayout f with
        | error e =>
          have he := NewFieldLayout_error_of_named f e hnamed hnew
          subst he
          refine ⟨_, Or.inr rfl, ?_⟩
          rw [hfield, hnew]
        | ok fl =>
          refine ⟨_, Or.inl rfl, ?_⟩
          rw [hfield, hnew]
          simp only
          rw [if_pos (hcls fl hnew)]
    obtain ⟨msg, hm, hfail⟩ := hmsg
    refine ⟨msg, hm, hfail, ?_, ?_, ?_⟩
    · intro before after packets hbefore
      exact Parse_stops_at decl _ hfail before after packets hbefore
    · intro before after
      exact parseLoop_error_of_mem _ decl (by simp) ⟨_, hfail⟩ []
    · intro before after
      obtain ⟨e, he⟩ := parseLoop_error_of_mem (before ++ decl :: after) decl (by simp) ⟨_, hfail⟩ []
      exact ⟨e, Generate_error_of_Parse_error _ e he⟩
  · intro f rest fl hf hnew hslice
    rw [hfield, hf]
    simp only
    rw [hnew]
    simp only
    rw [if_neg (not_not.mpr hslice), hkind]
    rfl

/-- C6 witness: the VLFPacket with no field, the one whose only field is the array
`Infos [4]uint32` and the one whose first field is a map fail to build with an error; the
one with the two fields `Infos []ImageInfo` and `Extra uint32` builds with `Infos` alone. -/
theorem VLFPacket_build_fails_witness :
    parseDecl vlfEmptyDecl = .error (.err "VLFPacket Must have a slice field,") ∧
    parseDecl vlfArrayDecl = .error (.err "VLFPacket Must have a slice field,") ∧
    parseDecl vlfMapFirstDecl = .error (.err "invalid type") ∧
    (∃ msg, (msg = "VLFPacket Must have a slice field," ∨ msg = "invalid type") ∧
        parseDecl vlfArrayDecl = .error (.err msg) ∧
        (∀ before after packets, parseLoop before [] = .ok packets →
          Parse (before ++ vlfArrayDecl :: after) = .error (.err msg)) ∧
        (∀ before after, ∃ e, Parse (before ++ vlfArrayDecl :: after) = .error e) ∧
        (∀ before after, ∃ e, Generate (before ++ vlfArrayDecl :: after) = .error e)) ∧
    parseDecl vlfTwoFieldsDecl
      = .ok (PacketLayout.mk (some vlfTwoFieldsStruct) VLFPacketKind "QueryAllImageInfosAck"
          0x80000002 "pkttype_query_all_image_infos_ack"
          [FieldLayout.mk (Field.mk ["Infos"] (.arrayType none (.ident "ImageInfo")))
            SliceFieldKind "Infos" StructFieldKind "ImageInfo"]) :=
  ⟨rfl, rfl, rfl,
    (VLFPacket_build_fails vlfArrayDecl (Annot.mk VLFPacketKind "pkttype_fixed" 0x80000003 none)
      "Fixed"
      (StructType.mk [Field.mk ["Infos"] (.arrayType (some (.basicLit "4")) (.ident "uint32"))])
      rfl rfl rfl rfl).1
      (Or.inr ⟨_, _, rfl, by simp, by
        intro fl h
        have hfl : NewFieldLayout (Field.mk ["Infos"] (.arrayType (some (.basicLit "4")) (.ident "uint32")))
            = .ok (FieldLayout.mk (Field.mk ["Infos"] (.arrayType (some (.basicLit "4")) (.ident "uint32")))
                ArrayFieldKind "Infos" Uint32FieldKind "uint32") := rfl
        rw [hfl] at h
        cases h
        decide⟩),
    (VLFPacket_build_fails vlfTwoFieldsDecl
      (Annot.mk VLFPacketKind "pkttype_query_all_image_infos_ack" 0x80000002 none)
      "QueryAllImageInfosAck" vlfTwoFieldsStruct rfl rfl rfl rfl).2
      (Field.mk ["Infos"] (.arrayType none (.ident "ImageInfo")))
      [Field.mk ["Extra"] (.ident "uint32")]
      (FieldLayout.mk (Field.mk ["Infos"] (.arrayType none (.ident "ImageInfo")))
        SliceFieldKind "Infos" StructFieldKind "ImageInfo") rfl rfl rfl⟩

/-! ### Last matching line and malformed ids (C14, C16) -/

/-- C14: the result of the classifier is not that of the last line that matches the annotation
grammar.  The comment has the matching lines `// @SimplePacket: PKT_A, 1` and
`// @Packet: PKT_B, 0x10` and then the remark `// Note: see header, v2`, which does not
match.  The last matching line alone gives GenericPacket, `pkt_b`, 16 and no error; the
comment gives the id name `seeheader`, the id 0 and the error of parsing `v2`, and `Parse`
fails, while the same declaration without the remark builds. -/
theorem line_after_last_match_changes_result :
    matchesGrammar "// @SimplePacket: PKT_A, 1" = true ∧
    matchesGrammar "// @Packet: PKT_B, 0x10" = true ∧
    matchesGrammar "// Note: see header, v2" = false ∧
    parsePacketType (.genDecl (some ["// @Packet: PKT_B, 0x10"])
        [.typeSpec "Plain" (.structType [(["A"], .ident "uint32")])])
      = .ok (Annot.mk GenericPacketKind "pkt_b" 16 none) ∧
    parsePacketType matchesThenNoteDecl
      = .ok (Annot.mk GenericPacketKind "seeheader" 0 (some "invalid syntax")) ∧
    Parse [matchesThenNoteDecl] = .error (.err "invalid syntax") ∧
    parsePacketType twoMatchesDecl = .ok (Annot.mk GenericPacketKind "pkt_b" 16 none) ∧
    Parse [twoMatchesDecl] = .ok [twoMatchesLayout] :=
  ⟨rfl, rfl, rfl, rfl, rfl, rfl, rfl, rfl⟩

/-- C16 (amended): when a comment line matches the annotation grammar, its id value is one
that `strconv.ParseInt(s, 0, 64)` rejects, and every later line of the comment is one the
classifier skips (it has no colon), then the classifier returns the result of that line
alone, whose error is the error of `ParseInt`; the declaration fails with it, `Parse`
returns it as soon as the declarations before have been built, and neither `Parse` nor
`Generate` returns a result for any file that contains the declaration. -/
theorem malformed_id_stops_Parse (pre post : List String) (bad t e : String) (specs : List Spec)
    (hmatch : matchesGrammar bad = true)
    (hbad : idValueText bad = some t) (herr : (ParseInt t).2 = some e)
    (hpost : ∀ l ∈ post, (split (normalize l) ':').length < 2) :
    parsePacketType (.genDecl (some (pre ++ bad :: post)) specs)
      = parsePacketType (.genDecl (some [bad]) specs) ∧
    (∃ a, parsePacketType (.genDecl (some (pre ++ bad :: post)) specs) = .ok a ∧ a.err = some e) ∧
    parseDecl (.genDecl (some (pre ++ bad :: post)) specs) = .error (.err e) ∧
    (∀ before after packets, parseLoop before [] = .ok packets →
      Parse (before ++ .genDecl (some (pre ++ bad :: post)) specs :: after) = .error (.err e)) ∧
    (∀ before after,
      ∃ e2, Parse (before ++ .genDecl (some (pre ++ bad :: post)) specs :: after) = .error e2) ∧
    (∀ before after,
      ∃ e2, Generate (before ++ .genDecl (some (pre ++ bad :: post)) specs :: after) = .error e2) := by
  have hsame : parsePacketType (.genDecl (some (pre ++ bad :: post)) specs)
      = parsePacketType (.genDecl (some [bad]) specs) := by
    simp only [parsePacketType, List.foldl_append, List.foldl_cons, List.foldl_nil]
    rw [foldl_annotStep_no_colon post _ hpost]
    rw [annotStep_of_matches _ (Annot.mk StructKind "" 0 none) bad hmatch]
  have ha : ∃ a, parsePacketType (.genDecl (some (pre ++ bad :: post)) specs) = .ok a ∧
      a.err = some e := by
    rw [hsame]
    refine ⟨_, rfl, ?_⟩
    rw [List.foldl_cons, List.foldl_nil, annotStep_err_of_idValue _ bad t hbad, herr]
  obtain ⟨a, hpa, hae⟩ := ha
  have hdecl := parseDecl_error_of_annot_err _ a e hpa hae
  refine ⟨hsame, ⟨a, hpa, hae⟩, hdecl, ?_, ?_, ?_⟩
  · intro before after packets hbefore
    exact Parse_stops_at _ _ hdecl before after packets hbefore
  · intro before after
    exact parseLoop_error_of_mem _ _ (by simp) ⟨_, hdecl⟩ []
  · intro before after
    obtain ⟨e2, he2⟩ := parseLoop_error_of_mem
      (before ++ .genDecl (some (pre ++ bad :: post)) specs :: after) _ (by simp) ⟨_, hdecl⟩ []
    exact ⟨e2, Generate_error_of_Parse_error _ e2 he2⟩

/-- C16 witness: the annotation line `// @Packet: PKT_A, zz` after a SimplePacket line and
before a remark without a colon; the ids `0b101`, `0o17` and `1_000` are well formed. -/
theorem malformed_id_stops_Parse_witness :
    matchesGrammar "// @Packet: PKT_A, zz" = true ∧
    idValueText "// @Packet: PKT_A, zz" = some "zz" ∧
    ParseInt "zz" = (0, some "invalid syntax") ∧
    ParseInt "0b101" = (5, none) ∧ ParseInt "0o17" = (15, none) ∧ ParseInt "1_000" = (1000, none) ∧
    parsePacketType (.genDecl (some (["// @SimplePacket: PKT_B, 1"] ++ "// @Packet: PKT_A, zz"
        :: ["// trailing remark"])) [])
      = .ok (Annot.mk GenericPacketKind "pkt_a" 0 (some "invalid syntax")) ∧
    parseDecl (.genDecl (some (["// @SimplePacket: PKT_B, 1"] ++ "// @Packet: PKT_A, zz"
        :: ["// trailing remark"])) [])
      = .error (.err "invalid syntax") :=
  ⟨rfl, rfl, rfl, rfl, rfl, rfl, rfl,
    (malformed_id_stops_Parse ["// @SimplePacket: PKT_B, 1"] ["// trailing remark"]
      "// @Packet: PKT_A, zz" "zz" "invalid syntax" [] rfl rfl rfl
      (by
        intro l hl
        rw [List.mem_singleton] at hl
        subst hl
        decide)).2.2.1⟩

/-! ### The id constants (C10) -/

theorem goIntLit_idConstLiteral_neg (p : PacketLayout) (hid : p.id < 0) :
    goIntLit (idConstLiteral p) = none := by
  have hn : ¬ (0 ≤ p.id) := by omega
  simp only [goIntLit, idConstLiteral, fmtHex08, hn, if_false, String.data_append]
  show parseUintBase0 ('0' :: 'x' :: '-' :: _) = none
  have hd : digitVal '-' = none := rfl
  simp [parseUintBase0, parseDigits, hd]

theorem goIntLit_idConstLiteral_some (p : PacketLayout) (c : Nat)
    (h : goIntLit (idConstLiteral p) = some c) : 0 ≤ p.id ∧ c = p.id.toNat := by
  by_cases hid : 0 ≤ p.id
  · rw [goIntLit_idConstLiteral p hid] at h
    cases h
    exact ⟨hid, rfl⟩
  · rw [goIntLit_idConstLiteral_neg p (by omega)] at h
    cases h

theorem isIdentifier_all (s : String) (h : isIdentifier s = true) :
    s.data.all isIdentChar = true ∧ s.data ≠ [] := by
  unfold isIdentifier at h
  cases hs : s.data with
  | nil => rw [hs] at h; cases h
  | cons c cs =>
    rw [hs] at h
    simp only [Bool.and_eq_true] at h
    exact ⟨h.1.2, by simp⟩

theorem takeWhile_append_stop (q : Char → Bool) (l r : List Char) (c : Char)
    (hl : l.all q = true) (hc : q c = false) :
    (l ++ c :: r).takeWhile q = l ∧ (l ++ c :: r).dropWhile q = c :: r := by
  induction l with
  | nil => simp [List.takeWhile, List.dropWhile, hc]
  | cons x xs ih =>
    simp only [List.all_cons, Bool.and_eq_true] at hl
    obtain ⟨h1, h2⟩ := ih hl.2
    simp [List.takeWhile, List.dropWhile, hl.1, h1, h2]

theorem parseConstSpec_idLine (p : PacketLayout) (hname : isIdentifier (idConstName p) = true)
    (hid : 0 ≤ p.id) : parseConstSpec (idLine p) = some (idConstName p, p.id.toNat) := by
  obtain ⟨hall, _⟩ := isIdentifier_all _ hname
  have hdata : (idLine p).data
      = (idConstName p).data ++ ' ' :: ('=' :: ' ' :: ((idConstLiteral p).data ++ ['\n'])) := by
    simp [idLine, String.data_append]
  obtain ⟨htake, hdrop⟩ := takeWhile_append_stop isIdentChar (idConstName p).data
    ('=' :: ' ' :: ((idConstLiteral p).data ++ ['\n'])) ' ' hall rfl
  unfold parseConstSpec
  simp only [hdata, htake, hdrop]
  have hlast : ((idConstLiteral p).data ++ ['\n']).getLast? = some '\n' := by simp
  have hdl : ((idConstLiteral p).data ++ ['\n']).dropLast = (idConstLiteral p).data := by simp
  rw [hdl]
  have hlit : goIntLit (String.mk (idConstLiteral p).data) = some p.id.toNat :=
    goIntLit_idConstLiteral p hid
  have hnm : String.mk (idConstName p).data = idConstName p := rfl
  rw [hnm, if_pos ⟨hname, hlast⟩, hlit]
  rfl

theorem constValue_of_unique (env : List PacketLayout) (p : PacketLayout)
    (hname : isIdentifier (idConstName p) = true)
    (htype : ∀ q ∈ env, q.name ≠ idConstName p)
    (hfilter : env.filter (fun q => decide (q.kind ≠ StructKind) && idConstName q == idConstName p) = [p])
    (hid : 0 ≤ p.id) : constValue env (idConstName p) = .ok p.id.toNat := by
  have hany : env.any (fun q => q.name == idConstName p) = false := by
    rw [List.any_eq_false]
    intro q hq
    simpa using htype q hq
  unfold constValue
  simp only [hname, hany, hfilter, goIntLit_idConstLiteral p hid]
  simp

theorem filter_unique (before after : List PacketLayout) (p : PacketLayout)
    (hkind : p.kind ≠ StructKind)
    (hother : ∀ q ∈ before ++ after, q.kind ≠ StructKind → idConstName q ≠ idConstName p) :
    (before ++ p :: after).filter
      (fun q => decide (q.kind ≠ StructKind) && idConstName q == idConstName p) = [p] := by
  have hb : before.filter
      (fun q => decide (q.kind ≠ StructKind) && idConstName q == idConstName p) = [] := by
    rw [List.filter_eq_nil_iff]
    intro q hq
    have := hother q (by simp [hq])
    simp only [Bool.and_eq_true, decide_eq_true_eq, beq_iff_eq, not_and]
    exact this
  have ha : after.filter
      (fun q => decide (q.kind ≠ StructKind) && idConstName q == idConstName p) = [] := by
    rw [List.filter_eq_nil_iff]
    intro q hq
    have := hother q (by simp [hq])
    simp only [Bool.and_eq_true, decide_eq_true_eq, beq_iff_eq, not_and]
    exact this
  rw [List.filter_append, hb, List.filter_cons, ha]
  simp [hkind]

/-- C10 (amended): for a layout of the file whose kind is not Struct, whose id is not negative
and whose id name, upper-cased, is an identifier written in ASCII, the id table contains
the line emitted for it, and the line reads as a Go constant declaration whose name is the
upper-cased id name and whose literal denotes the id.  When no other layout of the file
has the same constant name and no emitted type has that name, the name has the value of the
id wherever the emitted file uses it. -/
theorem id_entry_denotes_id (before after : List PacketLayout) (p : PacketLayout)
    (hkind : p.kind ≠ StructKind) (hid : 0 ≤ p.id)
    (hname : isIdentifier (toUpper p.idname) = true) :
    (∃ pre post, addPacketID (before ++ p :: after) = pre ++ idLine p ++ post) ∧
    parseConstSpec (idLine p) = some (toUpper p.idname, p.id.toNat) ∧
    ((p.id.toNat : Int) = p.id) ∧
    ((∀ q ∈ before ++ after, q.kind ≠ StructKind → idConstName q ≠ idConstName p) →
      (∀ q ∈ before ++ p :: after, q.name ≠ idConstName p) →
      constValue (before ++ p :: after) (toUpper p.idname) = .ok p.id.toNat) := by
  refine ⟨?_, parseConstSpec_idLine p hname hid, Int.toNat_of_nonneg hid, ?_⟩
  · have hlen : (before ++ p :: after).length ≠ 0 := by simp
    have hfilter : p ∈ (before ++ p :: after).filter (fun p => decide (p.kind ≠ StructKind)) := by
      simp [List.mem_filter, hkind]
    obtain ⟨b, a, hba⟩ := joinLines_map_mem idLine _ p hfilter
    refine ⟨"const (\n" ++ b, a ++ ")", ?_⟩
    rw [(tables_list_non_Struct_layouts_in_order (before ++ p :: after)).1, if_pos hlen, hba]
    simp [String.append_assoc]
  · intro hother htype
    exact constValue_of_unique _ p hname htype (filter_unique before after p hkind hother) hid

/-- C10 witness: `PKTTYPE_QUERY_ALL_IMAGE_INFOS_ACK = 0x80000002` in the table of `Ping` and
`QueryAllImageInfosAck`. -/
theorem id_entry_denotes_id_witness :
    idLine vlfTwoFieldsLayout = "PKTTYPE_QUERY_ALL_IMAGE_INFOS_ACK = 0x80000002\n" ∧
    addPacketID ([pingLayout] ++ vlfTwoFieldsLayout :: [])
      = "const (\nPKTTYPE_PING = 0x00000001\nPKTTYPE_QUERY_ALL_IMAGE_INFOS_ACK = 0x80000002\n)" ∧
    parseConstSpec (idLine vlfTwoFieldsLayout)
      = some (toUpper vlfTwoFieldsLayout.idname, vlfTwoFieldsLayout.id.toNat) ∧
    toUpper vlfTwoFieldsLayout.idname = "PKTTYPE_QUERY_ALL_IMAGE_INFOS_ACK" ∧
    vlfTwoFieldsLayout.id.toNat = 0x80000002 ∧
    constValue ([pingLayout] ++ vlfTwoFieldsLayout :: []) (toUpper vlfTwoFieldsLayout.idname)
      = .ok vlfTwoFieldsLayout.id.toNat :=
  ⟨rfl, rfl,
    (id_entry_denotes_id [pingLayout] [] vlfTwoFieldsLayout (by decide) (by decide) rfl).2.1,
    rfl, rfl,
    (id_entry_denotes_id [pingLayout] [] vlfTwoFieldsLayout (by decide) (by decide) rfl).2.2.2
      (by
        intro q hq
        simp only [List.append_nil, List.mem_singleton] at hq
        subst hq
        intro _
        decide)
      (by
        intro q hq
        simp only [List.singleton_append, List.mem_cons, List.mem_singleton, List.not_mem_nil,
          or_false] at hq
        rcases hq with rfl | rfl <;> decide)⟩

/-- C10 counterexample: the classifier accepts the id `-1`, for which the emitted line is
`PKTTYPE_NEG = 0x-0000001`, and the empty id name of `// @Packet: , 5`, for which the
emitted line is ` = 0x00000005`.  Neither line is a constant declaration, and `Generate`
fails on both declarations in `format.Source`. -/
theorem id_line_is_no_constant :
    matchesGrammar "// @Packet: PKTTYPE_NEG, -1" = true ∧
    Parse [negDecl] = .ok [negLayout] ∧
    negLayout.kind ≠ StructKind ∧
    negLayout.id = -1 ∧
    idLine negLayout = "PKTTYPE_NEG = 0x-0000001\n" ∧
    goIntLit (idConstLiteral negLayout) = none ∧
    parseConstSpec (idLine negLayout) = none ∧
    (∃ msg, Generate [negDecl] = .error (.err msg)) ∧
    matchesGrammar "// @Packet: , 5" = true ∧
    Parse [emptyNameDecl] = .ok [emptyNameLayout] ∧
    emptyNameLayout.kind ≠ StructKind ∧
    emptyNameLayout.id = 5 ∧
    idLine emptyNameLayout = " = 0x00000005\n" ∧
    parseConstSpec (idLine emptyNameLayout) = none ∧
    (∃ msg, Generate [emptyNameDecl] = .error (.err msg)) :=
  ⟨rfl, rfl, by decide, rfl, rfl, rfl, rfl, ⟨_, rfl⟩, rfl, rfl, by decide, rfl, rfl, rfl, ⟨_, rfl⟩⟩


/-! ### The packet factory (C8) -/

theorem constValue_of_mem (env : List PacketLayout) (p : PacketLayout) (c : Nat)
    (hmem : p ∈ env) (hkind : p.kind ≠ StructKind)
    (h : constValue env (idConstName p) = .ok c) : 0 ≤ p.id ∧ c = p.id.toNat := by
  unfold constValue at h
  split at h
  · cases h
  · split at h
    · cases h
    · have hp : p ∈ env.filter
          (fun q => decide (q.kind ≠ StructKind) && idConstName q == idConstName p) := by
        simp [List.mem_filter, hmem, hkind]
      split at h
      · cases h
      · rename_i q hq
        rw [hq, List.mem_singleton] at hp
        subst hp
        split at h
        · cases h
        · rename_i c2 hc2
          cases h
          exact goIntLit_idConstLiteral_some p c hc2
      · cases h

theorem switchTable_spec (env : List PacketLayout) (cases : List PacketLayout)
    (table : List (Nat × PacketLayout)) (h : switchTable env cases = .ok table) :
    table.map (fun r => r.2) = cases ∧
    (∀ r ∈ table, constValue env (idConstName r.2) = .ok r.1) ∧
    table.Pairwise (fun a b => a.1 ≠ b.1) := by
  induction cases generalizing table with
  | nil =>
    simp only [switchTable] at h
    cases h
    simp
  | cons p ps ih =>
    unfold switchTable at h
    split at h
    · cases h
    · rename_i c hc
      split at h
      · cases h
      · split at h
        · cases h
        · rename_i rest hrest
          split at h
          · cases h
          · rename_i hany
            cases h
            obtain ⟨h1, h2, h3⟩ := ih rest hrest
            refine ⟨by simp [h1], ?_, ?_⟩
            · intro r hr
              rcases List.mem_cons.mp hr with rfl | hr
              · exact hc
              · exact h2 r hr
            · rw [List.pairwise_cons]
              refine ⟨?_, h3⟩
              intro r hr heq
              apply hany
              rw [List.any_eq_true]
              exact ⟨r, hr, by simp [← heq]⟩

theorem dispatch_eq_some (table : List (Nat × PacketLayout)) (header : PacketHeader)
    (p : PacketLayout) (h : dispatch table header = some p) :
    (header.PacketType, p) ∈ table := by
  unfold dispatch at h
  cases hf : table.find? (fun r => r.1 == header.PacketType) with
  | none => rw [hf] at h; cases h
  | some r =>
    rw [hf] at h
    simp only [Option.map_some'] at h
    cases h
    have hmem := List.mem_of_find?_eq_some hf
    have hkey := List.find?_some hf
    simp only [beq_iff_eq] at hkey
    rw [← hkey]
    exact hmem

theorem dispatch_of_mem (table : List (Nat × PacketLayout)) (header : PacketHeader)
    (p : PacketLayout) (hpair : table.Pairwise (fun a b => a.1 ≠ b.1))
    (hmem : (header.PacketType, p) ∈ table) : dispatch table header = some p := by
  induction table with
  | nil => cases hmem
  | cons r rs ih =>
    rw [List.pairwise_cons] at hpair
    rcases List.mem_cons.mp hmem with heq | htail
    · subst heq
      simp [dispatch]
    · have hne : r.1 ≠ header.PacketType := hpair.1 _ htail
      have hstep : dispatch (r :: rs) header = dispatch rs header := by
        simp [dispatch, List.find?_cons, hne]
      rw [hstep]
      exact ih hpair.2 htail

theorem dispatch_factory (packets : List PacketLayout) (table : List (Nat × PacketLayout))
    (header : PacketHeader) (hswitch : switchTable packets (factoryCases packets) = .ok table)
    (p : PacketLayout) :
    dispatch table header = some p ↔
      p ∈ packets ∧ p.kind ≠ StructKind ∧ p.id = (header.PacketType : Int) := by
  obtain ⟨hmap, hval, hpair⟩ := switchTable_spec _ _ _ hswitch
  have hmemT : ∀ r ∈ table, r.2 ∈ packets ∧ r.2.kind ≠ StructKind := by
    intro r hr
    have : r.2 ∈ table.map (fun r => r.2) := List.mem_map_of_mem _ hr
    rw [hmap] at this
    exact (factoryCases_mem _ _).mp this
  constructor
  · intro h
    have hr := dispatch_eq_some _ _ _ h
    obtain ⟨hp, hk⟩ := hmemT _ hr
    obtain ⟨hid, hc⟩ := constValue_of_mem packets p _ hp hk (hval _ hr)
    refine ⟨hp, hk, ?_⟩
    simp only at hc
    rw [hc]
    exact (Int.toNat_of_nonneg hid).symm
  · rintro ⟨hp, hk, hid⟩
    have hpc : p ∈ table.map (fun r => r.2) := by
      rw [hmap]
      exact (factoryCases_mem _ _).mpr ⟨hp, hk⟩
    obtain ⟨r, hr, hrp⟩ := List.mem_map.mp hpc
    have hv := hval r hr
    rw [hrp] at hv
    obtain ⟨_, hc⟩ := constValue_of_mem packets p _ hp hk hv
    have hkey : r.1 = header.PacketType := by
      rw [hc, hid]
      simp
    have hr2 : (header.PacketType, p) ∈ table := by
      rw [← hkey, ← hrp]
      exact hr
    exact dispatch_of_mem _ _ _ hpair hr2

theorem dispatch_factory_none (packets : List PacketLayout) (table : List (Nat × PacketLayout))
    (header : PacketHeader) (hswitch : switchTable packets (factoryCases packets) = .ok table) :
    dispatch table header = none ↔
      ∀ p ∈ packets, p.kind ≠ StructKind → p.id ≠ (header.PacketType : Int) := by
  constructor
  · intro h p hp hk hid
    have := (dispatch_factory packets table header hswitch p).mpr ⟨hp, hk, hid⟩
    rw [h] at this
    cases this
  · intro h
    cases hd : dispatch table header with
    | none => rfl
    | some p =>
      obtain ⟨hp, hk, hid⟩ := (dispatch_factory packets table header hswitch p).mp hd
      exact absurd hid (h p hp hk)

theorem cacheGet_none_iff (cacher : Option PacketCacher) (header : PacketHeader) :
    cacheGet cacher header = none ↔
      (cacher = none ∨ ∃ c, cacher = some c ∧ c header.PacketType header = none) := by
  cases cacher with
  | none => simp [cacheGet]
  | some c => simp [cacheGet]

theorem cacheGet_some_iff (cacher : Option PacketCacher) (header : PacketHeader) (inst : Instance) :
    cacheGet cacher header = some inst ↔
      ∃ c, cacher = some c ∧ c header.PacketType header = some inst := by
  cases cacher with
  | none => simp [cacheGet]
  | some c => simp [cacheGet]

theorem CreatePacketWith_eq (env cases : List PacketLayout) (table : List (Nat × PacketLayout))
    (fuel : Nat) (cacher : Option PacketCacher) (st : Stream)
    (hswitch : switchTable env cases = .ok table) :
    CreatePacketWith env cases fuel cacher st =
      match PacketHeader.Read st with
      | .error e => (none, some e)
      | .ok (header, st) =>
        match cacheGet cacher header with
        | some inst => readBody env fuel inst st
        | none =>
          match dispatch table header with
          | none => (none, some .unknownPacket)
          | some p =>
            match zeroValue env p with
            | .error e => (none, some e)
            | .ok z => readBody env fuel (Instance.mk p (withHeader header z)) st := by
  unfold CreatePacketWith
  rw [hswitch]

/-- C8: when the emitted `switch` is valid Go (every `case` label has a value that fits
`uint32` and no two labels have the same value) and every packet type has a zero value,
`CreatePacket` returns an error exactly when (a) reading the header fails, with that
error; (b) the header is read, the cacher is nil or its `Get(header.PacketType, &header)`
returns nil, and no layout of a kind other than Struct has the packet type as its id, with
`ErrUnknownPacket`; (c) `Read` fails on the instance that `Get` returned, or on the
instance `&T{PacketHeader: header}` of the layout whose id is the packet type when the
cacher is nil or returned nil, with that error.  With an error no packet is returned; when
the header cannot be read the result is the same for every cacher and every valid list of
cases; when `Get` returns an instance the result is `Read` on that instance, the same for
every valid list of cases. -/
theorem CreatePacket_error_cases (packets : List PacketLayout) (fuel : Nat)
    (cacher : Option PacketCacher) (st : Stream) (table : List (Nat × PacketLayout))
    (hswitch : switchTable packets (factoryCases packets) = .ok table)
    (hzero : ∀ p ∈ packets, p.kind ≠ StructKind → ∃ z, zeroValue packets p = .ok z) :
    (∀ e, (CreatePacket packets fuel cacher st).2 = some e ↔
      (PacketHeader.Read st = .error e ∨
       (∃ header rest, PacketHeader.Read st = .ok (header, rest) ∧
          (cacher = none ∨ ∃ c, cacher = some c ∧ c header.PacketType header = none) ∧
          (∀ p ∈ packets, p.kind ≠ StructKind → p.id ≠ (header.PacketType : Int)) ∧
          e = .unknownPacket) ∨
       (∃ header rest inst, PacketHeader.Read st = .ok (header, rest) ∧
          ((∃ c, cacher = some c ∧ c header.PacketType header = some inst) ∨
            ((cacher = none ∨ ∃ c, cacher = some c ∧ c header.PacketType header = none) ∧
              ∃ p z, p ∈ packets ∧ p.kind ≠ StructKind ∧ p.id = (header.PacketType : Int) ∧
                zeroValue packets p = .ok z ∧ inst = Instance.mk p (withHeader header z))) ∧
          Read packets fuel inst.layout inst.value rest = .error e))) ∧
    (∀ e, (CreatePacket packets fuel cacher st).2 = some e →
      (CreatePacket packets fuel cacher st).1 = none) ∧
    (∀ e, PacketHeader.Read st = .error e →
      ∀ cases table2 cacher2, switchTable packets cases = .ok table2 →
        CreatePacketWith packets cases fuel cacher2 st = (none, some e)) ∧
    (∀ header rest c inst, PacketHeader.Read st = .ok (header, rest) → cacher = some c →
      c header.PacketType header = some inst →
      ∀ cases table2, switchTable packets cases = .ok table2 →
        CreatePacketWith packets cases fuel cacher st = readBody packets fuel inst rest) := by
  have hcp := CreatePacketWith_eq packets (factoryCases packets) table fuel cacher st hswitch
  refine ⟨?_, ?_, ?_, ?_⟩
  · intro e
    simp only [← cacheGet_none_iff, ← cacheGet_some_iff]
    unfold CreatePacket
    rw [hcp]
    cases hh : PacketHeader.Read st with
    | error e1 => simp
    | ok r =>
      obtain ⟨header, rest⟩ := r
      simp only
      cases hc : cacheGet cacher header with
      | some inst =>
        simp only [readBody_err_iff]
        constructor
        · intro h
          exact Or.inr (Or.inr ⟨header, rest, inst, rfl, Or.inl hc, h⟩)
        · rintro (h | ⟨h1, r1, heq, hnone, _, _⟩ | ⟨h1, r1, inst1, heq, hsel, hread⟩)
          · cases h
          · cases heq
            rw [hc] at hnone
            cases hnone
          · cases heq
            rcases hsel with hsel | ⟨hsel, _⟩
            · rw [hc] at hsel
              cases hsel
              exact hread
            · rw [hc] at hsel
              cases hsel
      | none =>
        simp only
        cases hd : dispatch table header with
        | none =>
          simp only
          have hno := (dispatch_factory_none packets table header hswitch).mp hd
          constructor
          · intro h
            cases h
            exact Or.inr (Or.inl ⟨header, rest, rfl, hc, hno, rfl⟩)
          · rintro (h | ⟨_, _, _, _, _, he⟩ | ⟨h1, r1, inst1, heq, hsel, hread⟩)
            · cases h
            · rw [he]
            · cases heq
              rcases hsel with hsel | ⟨_, p, z, hp, hk, hid, _, _⟩
              · rw [hc] at hsel
                cases hsel
              · exact absurd hid (hno p hp hk)
        | some p =>
          simp only
          have hp := (dispatch_factory packets table header hswitch p).mp hd
          obtain ⟨z, hz⟩ := hzero p hp.1 hp.2.1
          simp only [hz, readBody_err_iff]
          constructor
          · intro h
            exact Or.inr (Or.inr ⟨header, rest, _, rfl,
              Or.inr ⟨hc, p, z, hp.1, hp.2.1, hp.2.2, hz, rfl⟩, h⟩)
          · rintro (h | ⟨h1, r1, heq, _, hno, _⟩ | ⟨h1, r1, inst1, heq, hsel, hread⟩)
            · cases h
            · cases heq
              exact absurd hp.2.2 (hno p hp.1 hp.2.1)
            · cases heq
              rcases hsel with hsel | ⟨_, q, z2, hq, hqk, hqid, hz2, hinst⟩
              · rw [hc] at hsel
                cases hsel
              · have hdq := (dispatch_factory packets table header hswitch q).mpr ⟨hq, hqk, hqid⟩
                rw [hd] at hdq
                cases hdq
                rw [hz] at hz2
                cases hz2
                rw [hinst] at hread
                exact hread
  · intro e
    unfold CreatePacket
    rw [hcp]
    cases hh : PacketHeader.Read st with
    | error e1 => simp
    | ok r =>
      obtain ⟨header, rest⟩ := r
      simp only
      cases hc : cacheGet cacher header with
      | some inst => exact readBody_no_partial _ _ _ _ e
      | none =>
        simp only
        cases hd : dispatch table header with
        | none => simp
        | some p =>
          simp only
          cases hz : zeroValue packets p with
          | error e2 => simp
          | ok z => exact readBody_no_partial _ _ _ _ e
  · intro e he cases table2 cacher2 ht
    rw [CreatePacketWith_eq packets cases table2 fuel cacher2 st ht, he]
  · intro header rest c inst hh hc hget cases table2 ht
    have hcg : cacheGet cacher header = some inst := (cacheGet_some_iff _ _ _).mpr ⟨c, hc, hget⟩
    rw [CreatePacketWith_eq packets cases table2 fuel cacher st ht, hh]
    simp only [hcg]


/-- C8 witness: the factory of `Ping` (id 1) and `Login` (id 3) with a cacher that holds a
`Ping` for the packet type 1.  On the empty stream the header read fails; on a header of
type 9 the cacher returns nil and no packet has the id, so the error is `ErrUnknownPacket`;
on a header of type 3 with no body the `Read` of the `Login` selected by the `switch` fails
and no packet is returned; on a header of type 1 the instance of the cacher is read and
returned, for the empty list of cases as well. -/
theorem CreatePacket_error_cases_witness :
    switchTable [pingLayout, loginLayout] (factoryCases [pingLayout, loginLayout])
      = .ok [(1, pingLayout), (3, loginLayout)] ∧
    (CreatePacket [pingLayout, loginLayout] 1 (some pingCacher) []).2 = some (.stream "EOF") ∧
    (CreatePacket [pingLayout, loginLayout] 1 (some pingCacher) (headerBytes 9)).2
      = some .unknownPacket ∧
    (CreatePacket [pingLayout, loginLayout] 1 (some pingCacher) (headerBytes 3)).2
      = some (.stream "EOF") ∧
    (CreatePacket [pingLayout, loginLayout] 1 (some pingCacher) (headerBytes 3)).1 = none ∧
    CreatePacketWith [pingLayout, loginLayout] [] 1 (some pingCacher) (headerBytes 1)
      = readBody [pingLayout, loginLayout] 1
          (Instance.mk pingLayout (.struct (some (PacketHeader.mk 0 1 0 0 0 0)) [])) [] ∧
    CreatePacket [pingLayout, loginLayout] 1 (some pingCacher) (headerBytes 1)
      = (some (Instance.mk pingLayout (.struct (some (PacketHeader.mk 0 1 0 0 0 0)) [])), none) :=
  have hzero : ∀ p ∈ [pingLayout, loginLayout], p.kind ≠ StructKind →
      ∃ z, zeroValue [pingLayout, loginLayout] p = .ok z := by
    intro p hp _
    simp only [List.mem_cons, List.mem_singleton, List.not_mem_nil, or_false] at hp
    rcases hp with rfl | rfl
    · exact ⟨_, rfl⟩
    · exact ⟨_, rfl⟩
  have hno : ∀ p ∈ [pingLayout, loginLayout], p.kind ≠ StructKind →
      p.id ≠ ((PacketHeader.mk 0 9 0 0 0 0).PacketType : Int) := by
    intro p hp _
    simp only [List.mem_cons, List.mem_singleton, List.not_mem_nil, or_false] at hp
    rcases hp with rfl | rfl <;> decide
  ⟨rfl,
    ((CreatePacket_error_cases [pingLayout, loginLayout] 1 (some pingCacher) []
      [(1, pingLayout), (3, loginLayout)] rfl hzero).1 (.stream "EOF")).mpr (Or.inl rfl),
    ((CreatePacket_error_cases [pingLayout, loginLayout] 1 (some pingCacher) (headerBytes 9)
      [(1, pingLayout), (3, loginLayout)] rfl hzero).1 .unknownPacket).mpr
      (Or.inr (Or.inl ⟨PacketHeader.mk 0 9 0 0 0 0, [], rfl, Or.inr ⟨pingCacher, rfl, rfl⟩,
        hno, rfl⟩)),
    ((CreatePacket_error_cases [pingLayout, loginLayout] 1 (some pingCacher) (headerBytes 3)
      [(1, pingLayout), (3, loginLayout)] rfl hzero).1 (.stream "EOF")).mpr
      (Or.inr (Or.inr ⟨PacketHeader.mk 0 3 0 0 0 0, [],
        Instance.mk loginLayout (.struct (some (PacketHeader.mk 0 3 0 0 0 0)) [.uint 0, .uint 0]),
        rfl,
        Or.inr ⟨Or.inr ⟨pingCacher, rfl, rfl⟩, loginLayout,
          .struct (some zeroHeader) [.uint 0, .uint 0], by simp, by decide, rfl, rfl, rfl⟩,
        rfl⟩)),
    (CreatePacket_error_cases [pingLayout, loginLayout] 1 (some pingCacher) (headerBytes 3)
      [(1, pingLayout), (3, loginLayout)] rfl hzero).2.1 (.stream "EOF") rfl,
    (CreatePacket_error_cases [pingLayout, loginLayout] 1 (some pingCacher) (headerBytes 1)
      [(1, pingLayout), (3, loginLayout)] rfl hzero).2.2.2 (PacketHeader.mk 0 1 0 0 0 0) []
      pingCacher (Instance.mk pingLayout (.struct (some (PacketHeader.mk 0 1 0 0 0 0)) []))
      rfl rfl rfl [] [] rfl,
    rfl⟩


/-! ### The constructor (C20) -/

theorem isZeroValue_succ (d : Nat) (v : Value) (h : isZeroValue d v = true) :
    isZeroValue (d + 1) v = true := by
  induction d generalizing v with
  | zero =>
    cases v with
    | uint n => simpa [isZeroValue] using h
    | int i => simpa [isZeroValue] using h
    | str bytes => simpa [isZeroValue] using h
    | seq elems =>
      simp only [isZeroValue, List.isEmpty_iff] at h
      subst h
      simp [isZeroValue]
    | struct header fields =>
      simp only [isZeroValue, Bool.and_eq_true, List.isEmpty_iff] at h
      obtain ⟨h1, h2⟩ := h
      subst h2
      simp [isZeroValue, h1]
  | succ k ih =>
    cases v with
    | uint n => simpa [isZeroValue] using h
    | int i => simpa [isZeroValue] using h
    | str bytes => simpa [isZeroValue] using h
    | seq elems =>
      simp only [isZeroValue, List.all_eq_true] at h ⊢
      exact fun x hx => ih x (h x hx)
    | struct header fields =>
      simp only [isZeroValue, Bool.and_eq_true, List.all_eq_true] at h ⊢
      exact ⟨h.1, fun x hx => ih x (h.2 x hx)⟩

theorem isZeroOfType_isZeroValue (d : Nat) (t : String) (v : Value)
    (h : isZeroOfType d t v = true) : isZeroValue d v = true := by
  unfold isZeroOfType at h
  simp only at h
  split at h
  · cases v <;> simp_all [isZeroValue]
  · split at h
    · cases v <;> simp_all [isZeroValue]
    · split at h
      · cases v <;> simp_all
      · cases v <;> simp_all [isZeroValue]

theorem isZeroField_isZeroValue (d : Nat) (f : FieldLayout) (v : Value)
    (h : isZeroField d f v = true) : isZeroValue (d + 1) v = true := by
  unfold isZeroField at h
  split at h
  · cases v with
    | seq elems =>
      simp only [List.isEmpty_iff] at h
      subst h
      simp [isZeroValue]
    | uint n => cases h
    | int i => cases h
    | str bytes => cases h
    | struct header fields => cases h
  · split at h
    · split at h
      · rename_i elems n _
        simp only [Bool.and_eq_true, decide_eq_true_eq, List.all_eq_true] at h
        simp only [isZeroValue, List.all_eq_true]
        exact fun x hx => isZeroOfType_isZeroValue d _ x (h.2 x hx)
      · cases h
    · exact isZeroValue_succ d v (isZeroOfType_isZeroValue d _ v h)

theorem zeroOfTypeName_isZero (env : List PacketLayout) (call : PacketLayout → Except GoErr Value)
    (d : Nat)
    (hcall : ∀ q z, call q = .ok z → (∃ h fs, z = .struct h fs) ∧ isZeroValue d z = true)
    (t : String) (v : Value) (h : zeroOfTypeName env call t = .ok v) :
    isZeroOfType d t v = true := by
  unfold zeroOfTypeName at h
  unfold isZeroOfType
  simp only [subElementKindOf_eq_specIdentKind] at h
  simp only
  split at h
  · rename_i hk
    cases h
    simp [hk]
  · rename_i hk
    split at h
    · rename_i hs
      cases h
      simp [hk, hs]
    · rename_i hs
      split at h
      · rename_i hst
        split at h
        · cases h
        · split at h
          · rename_i q _
            obtain ⟨⟨hd, fs, hz⟩, hzero⟩ := hcall q v h
            subst hz
            simp only [hk, hs, hst, if_false, if_true]
            exact hzero
          · cases h
      · rename_i hst
        cases h
        simp [hk, hs, hst]

theorem zeroField_isZero (env : List PacketLayout) (call : PacketLayout → Except GoErr Value)
    (d : Nat)
    (hcall : ∀ q z, call q = .ok z → (∃ h fs, z = .struct h fs) ∧ isZeroValue d z = true)
    (f : FieldLayout) (v : Value) (h : zeroField env call f = .ok v) :
    isZeroField d f v = true := by
  unfold zeroField at h
  unfold isZeroField
  split at h
  · rename_i harr
    have hns : ¬ f.kind = SliceFieldKind := by rw [harr]; decide
    rw [if_neg hns, if_pos harr]
    split at h
    · cases h
    · rename_i n hn
      split at h
      · cases h
      · rename_i z hz
        cases h
        rw [hn]
        simp only [List.length_replicate, decide_True, Bool.true_and, List.all_eq_true]
        intro x hx
        rw [List.eq_of_mem_replicate hx]
        exact zeroOfTypeName_isZero env call d hcall _ _ hz
  · rename_i harr
    split at h
    · rename_i hsl
      cases h
      rw [if_pos hsl]
      rfl
    · rename_i hsl
      rw [if_neg hsl, if_neg harr]
      exact zeroOfTypeName_isZero env call d hcall _ _ h

theorem zeroFields_isZero (env : List PacketLayout) (call : PacketLayout → Except GoErr Value)
    (d : Nat)
    (hcall : ∀ q z, call q = .ok z → (∃ h fs, z = .struct h fs) ∧ isZeroValue d z = true)
    (fs : List FieldLayout) (vs : List Value) (h : zeroFields env call fs = .ok vs) :
    fieldsZero d fs vs = true := by
  induction fs generalizing vs with
  | nil =>
    simp only [zeroFields] at h
    cases h
    rfl
  | cons f fs ih =>
    unfold zeroFields at h
    split at h
    · cases h
    · rename_i z hz
      split at h
      · cases h
      · rename_i zs hzs
        cases h
        simp only [fieldsZero, Bool.and_eq_true]
        exact ⟨zeroField_isZero env call d hcall f z hz, ih zs hzs⟩

theorem fieldsZero_all (d : Nat) (fs : List FieldLayout) (vs : List Value)
    (h : fieldsZero d fs vs = true) :
    vs.all (isZeroValue (d + 1)) = true ∧ vs.length = fs.length := by
  induction fs generalizing vs with
  | nil =>
    cases vs with
    | nil => simp
    | cons v vs => cases h
  | cons f fs ih =>
    cases vs with
    | nil => cases h
    | cons v vs =>
      simp only [fieldsZero, Bool.and_eq_true] at h
      obtain ⟨h1, h2⟩ := ih vs h.2
      simp [isZeroField_isZeroValue d f v h.1, h1, h2]

theorem zeroStruct_isZero (env : List PacketLayout) (call : PacketLayout → Except GoErr Value)
    (d : Nat)
    (hcall : ∀ q z, call q = .ok z → (∃ h fs, z = .struct h fs) ∧ isZeroValue d z = true)
    (p : PacketLayout) (z : Value) (h : zeroStruct env call p = .ok z) :
    (∃ zs, z = .struct (if p.kind ≠ StructKind then some zeroHeader else none) zs ∧
      fieldsZero d p.fields zs = true) ∧ isZeroValue (d + 2) z = true := by
  unfold zeroStruct at h
  split at h
  · cases h
  · rename_i zs hzs
    cases h
    have hf := zeroFields_isZero env call d hcall p.fields zs hzs
    refine ⟨⟨zs, rfl, hf⟩, ?_⟩
    simp only [isZeroValue, Bool.and_eq_true]
    refine ⟨?_, (fieldsZero_all d _ _ hf).1⟩
    split <;> rfl

theorem zeroValueFuel_isZero (env : List PacketLayout) (n : Nat) (p : PacketLayout) (z : Value)
    (h : zeroValueFuel env n p = .ok z) :
    (∃ zs, z = .struct (if p.kind ≠ StructKind then some zeroHeader else none) zs ∧
      fieldsZero (2 * n) p.fields zs = true) ∧ isZeroValue (2 * n + 2) z = true := by
  induction n generalizing p z with
  | zero =>
    exact zeroStruct_isZero env _ 0 (fun q z hq => by cases hq) p z h
  | succ k ih =>
    have hcall : ∀ q z, zeroValueFuel env k q = .ok z →
        (∃ h fs, z = .struct h fs) ∧ isZeroValue (2 * k + 2) z = true := by
      intro q z hq
      obtain ⟨⟨zs, hz, _⟩, hzero⟩ := ih q z hq
      exact ⟨⟨_, zs, hz⟩, hzero⟩
    exact zeroStruct_isZero env _ (2 * k + 2) hcall p z h

/-- C20 (amended): let `p` be a layout of the file of kind SimplePacket, GenericPacket or
VLFPacket with an id in 0 ≤ id < 2^32, whose id name, upper-cased, is an identifier written
in ASCII that no other layout of the file has as its constant name and no emitted type has
as its name, and whose emitted type has a zero value.  Then the constructor returns an
instance whose header has `PacketType` equal to the id and the other five fields zero, and
whose body has one value for each field of the layout, each the zero value of that
field.  `Generate` emits the constructor for these kinds; for a Struct kind it emits none
and there is no constructor to call. -/
theorem NewPacket_presets_PacketType (before after : List PacketLayout) (p : PacketLayout)
    (z : Value)
    (hkind : p.kind = SimplePacketKind ∨ p.kind = GenericPacketKind ∨ p.kind = VLFPacketKind)
    (hlo : 0 ≤ p.id) (hhi : p.id < 2 ^ 32)
    (hname : isIdentifier (toUpper p.idname) = true)
    (hother : ∀ q ∈ before ++ after, q.kind ≠ StructKind → toUpper q.idname ≠ toUpper p.idname)
    (htype : ∀ q ∈ before ++ p :: after, q.name ≠ toUpper p.idname)
    (hz : zeroValue (before ++ p :: after) p = .ok z) :
    (∃ zs depth,
      NewPacket (before ++ p :: after) p
        = .ok (.struct (some (PacketHeader.mk 0 p.id.toNat 0 0 0 0)) zs) ∧
      zs.length = p.fields.length ∧ fieldsZero depth p.fields zs = true) ∧
    ((p.id.toNat : Int) = p.id) ∧
    (∀ ms, generatePacket p = .ok ms → Member.newFunc ∈ ms) ∧
    (∀ env q, q.kind = StructKind →
      (∀ ms, generatePacket q = .ok ms → Member.newFunc ∉ ms) ∧
      ∃ e, NewPacket env q = .error e) := by
  have hns : p.kind ≠ StructKind := by
    rcases hkind with h | h | h <;> rw [h] <;> decide
  refine ⟨?_, Int.toNat_of_nonneg hlo, ?_, ?_⟩
  · obtain ⟨⟨zs, hzs, hzero⟩, _⟩ := zeroValueFuel_isZero _ _ p z hz
    rw [if_pos hns] at hzs
    refine ⟨zs, _, ?_, (fieldsZero_all _ _ _ hzero).2, hzero⟩
    have hc : p.id.toNat < 2 ^ 32 := by omega
    have hcv : constValue (before ++ p :: after) (idConstName p) = .ok p.id.toNat :=
      constValue_of_unique _ p hname htype (filter_unique before after p hns hother) hlo
    unfold NewPacket
    rw [if_pos hkind, hcv]
    simp only [hc, if_true, hz, hzs, withHeader]
  · intro ms hms
    unfold generatePacket at hms
    rw [if_neg hns] at hms
    rcases hkind with h | h | h
    · have h1 : ¬ p.kind = GenericPacketKind := by rw [h]; decide
      rw [if_neg h1, if_pos h] at hms
      unfold generateSimplePacket at hms
      split at hms
      · cases hms
      · cases hms; decide
    · rw [if_pos h] at hms
      unfold generateGenericPacket at hms
      split at hms
      · cases hms
      · cases hms; decide
    · have h1 : ¬ p.kind = GenericPacketKind := by rw [h]; decide
      have h2 : ¬ p.kind = SimplePacketKind := by rw [h]; decide
      rw [if_neg h1, if_neg h2, if_pos h] at hms
      unfold generateVLFPacket at hms
      split at hms
      · cases hms
      · cases hms; decide
  · intro env q hq
    constructor
    · intro ms hms
      unfold generatePacket at hms
      rw [if_pos hq] at hms
      exact generateStruct_members q ms hms
    · have hnk : ¬ (q.kind = SimplePacketKind ∨ q.kind = GenericPacketKind ∨ q.kind = VLFPacketKind) := by
        rw [hq]; decide
      exact ⟨_, by unfold NewPacket; rw [if_neg hnk]⟩


/-- C20 witness: `NewReport` for `Report` (id 7) with a string, an array of two `int16`, a
field of the packet type `Login` and a slice: the header has packet type 7 and the four
body values are the empty string, two zeros, a zero `Login` and the nil slice.  A body with
a non-zero array element is not zero-valued. -/
theorem NewPacket_presets_PacketType_witness :
    Parse [loginDecl, reportDecl] = .ok ([loginLayout] ++ reportLayout :: []) ∧
    NewPacket ([loginLayout] ++ reportLayout :: []) reportLayout
      = .ok (.struct (some (PacketHeader.mk 0 7 0 0 0 0))
          [.str [], .seq [.int 0, .int 0], .struct (some zeroHeader) [.uint 0, .uint 0], .seq []]) ∧
    (∃ zs depth,
      NewPacket ([loginLayout] ++ reportLayout :: []) reportLayout
        = .ok (.struct (some (PacketHeader.mk 0 reportLayout.id.toNat 0 0 0 0)) zs) ∧
      zs.length = reportLayout.fields.length ∧ fieldsZero depth reportLayout.fields zs = true) ∧
    fieldsZero 2 reportLayout.fields
      [.str [], .seq [.int 0, .int 0], .struct (some zeroHeader) [.uint 0, .uint 0], .seq []]
      = true ∧
    fieldsZero 2 reportLayout.fields
      [.str [], .seq [.int 0, .int 1], .struct (some zeroHeader) [.uint 0, .uint 0], .seq []]
      = false :=
  ⟨rfl, rfl,
    (NewPacket_presets_PacketType [loginLayout] [] reportLayout
      (.struct (some zeroHeader)
        [.str [], .seq [.int 0, .int 0], .struct (some zeroHeader) [.uint 0, .uint 0], .seq []])
      (Or.inr (Or.inl rfl)) (by decide) (by decide) rfl
      (by
        intro q hq
        simp only [List.append_nil, List.mem_singleton] at hq
        subst hq
        intro _
        decide)
      (by
        intro q hq
        simp only [List.singleton_append, List.mem_cons, List.mem_singleton, List.not_mem_nil,
          or_false] at hq
        rcases hq with rfl | rfl <;> decide)
      rfl).1,
    rfl, rfl⟩

/-- C20 counterexample: two files whose layouts are not Struct kinds and have ids in range,
for which no constructor returns an instance.  For `// @Packet: 9LIVES, 5` the text
`PacketType:9LIVES` is not Go and `Generate` fails in `format.Source`.  For two packets
with the id name `PKT_A` and the ids 1 and 2 `Generate` returns the content, in which the
constant `PKT_A` is declared twice, so neither constructor is valid. -/
theorem constructor_needs_a_constant_name :
    matchesGrammar "// @Packet: 9LIVES, 5" = true ∧
    Parse [digitNameDecl] = .ok [digitNameLayout] ∧
    digitNameLayout.kind = GenericPacketKind ∧ digitNameLayout.id = 5 ∧
    zeroValue [digitNameLayout] digitNameLayout = .ok (.struct (some zeroHeader) [.uint 0]) ∧
    NewPacket [digitNameLayout] digitNameLayout
      = .error (.invalidCode "the constant name is not an identifier") ∧
    (∃ msg, Generate [digitNameDecl] = .error (.err msg)) ∧
    Parse [dupFirstDecl, dupSecondDecl] = .ok [dupFirstLayout, dupSecondLayout] ∧
    dupFirstLayout.kind = GenericPacketKind ∧ dupFirstLayout.id = 1 ∧
    dupSecondLayout.kind = GenericPacketKind ∧ dupSecondLayout.id = 2 ∧
    (∃ g, Generate [dupFirstDecl, dupSecondDecl] = .ok g) ∧
    addPacketID [dupFirstLayout, dupSecondLayout]
      = "const (\nPKT_A = 0x00000001\nPKT_A = 0x00000002\n)" ∧
    NewPacket [dupFirstLayout, dupSecondLayout] dupFirstLayout
      = .error (.invalidCode "the constant is declared twice") ∧
    NewPacket [dupFirstLayout, dupSecondLayout] dupSecondLayout
      = .error (.invalidCode "the constant is declared twice") :=
  ⟨rfl, rfl, rfl, rfl, rfl, rfl, ⟨_, rfl⟩, rfl, rfl, rfl, rfl, rfl, ⟨_, rfl⟩, rfl, rfl, rfl⟩

end Goproto
